import Mathlib

/-!
# Pulse data (network/consensus/common/pulse/pulse_data.go)

A shallow embedding of the `pulse.Data` value type, its validity predicates and
its successor constructors.  Go panics are modelled by `Except String`: a call
that panics evaluates to `.error msg` with the message of the panic, a call that
returns evaluates to `.ok v`.

Machine integers are natural numbers carried with their bound (`Fin (2 ^ w)`);
arithmetic is written on the values, with an explicit `% 2 ^ w` where the Go
arithmetic wraps.
-/

namespace Pulse

/-- A Go `uint16`. -/
abbrev Uint16 := Fin 65536

/-- A Go `uint32`. -/
abbrev Uint32 := Fin 4294967296

/-- The 32-byte value `longbits.Bits256`, read as a 256-bit number. -/
abbrev Bits256 := Fin (2 ^ 256)

/-- Modelled from the spec: the type `pulse.Number` (pulse_number.go is not among the
sources; `pulse_data.go` converts it to and from `uint32`). -/
abbrev Number := Uint32

/-- Modelled from the spec: the constant `pulse.Unknown` of the absent pulse_number.go,
the "zero/unknown" pulse number. -/
def Unknown : Number := 0

/-- Modelled from the spec: the constant `pulse.MinTimePulse` of the absent pulse_number.go.
`insolar/pulse.go` documents it: the first 65536 numbers are kept for the system. -/
def MinTimePulse : Number := 65536

/-- Modelled from the spec: the constant `pulse.MaxTimePulse` of the absent pulse_number.go.
`insolar/pulse.go` documents that the first two bits of a pulse number are kept for the
system, which leaves 30 bits. -/
def MaxTimePulse : Number := 1073741823

/-- Embeds `InvalidPulseEpoch`. -/
def InvalidPulseEpoch : Uint32 := 0

/-- Embeds `EphemeralPulseEpoch = InvalidPulseEpoch + 1`. -/
def EphemeralPulseEpoch : Uint32 := InvalidPulseEpoch + 1

/-- Modelled from the spec: `pulse.OfUint32` of the absent pulse_number.go, the pulse number
that a `uint32` holds. -/
def OfUint32 (v : Uint32) : Number := v

/-- Modelled from the spec: `Number.AsUint32` of the absent pulse_number.go, a plain
conversion. -/
def Number.AsUint32 (n : Number) : Uint32 := n

/-- Modelled from the spec: `Number.IsUnknown` of the absent pulse_number.go. -/
def Number.IsUnknown (n : Number) : Bool := n == Unknown

/-- Modelled from the spec: `Number.IsTimePulse` of the absent pulse_number.go: the number
lies in `MinTimePulse ..= MaxTimePulse`. -/
def Number.IsTimePulse (n : Number) : Bool :=
  decide (MinTimePulse ≤ n) && decide (n ≤ MaxTimePulse)

/-- Modelled from the spec: `Number.IsSpecialOrTimePulse` of the absent pulse_number.go, the
test that the validity predicates put to the epoch of a pulse.  The spec has the epoch be
zero (unknown), a valid time-pulse number, or the special ephemeral epoch. -/
def Number.IsSpecialOrTimePulse (n : Number) : Bool :=
  n == Unknown || n == OfUint32 EphemeralPulseEpoch || n.IsTimePulse

/-- Modelled from the spec: `Number.Next` of the absent pulse_number.go, the delta arithmetic
by which a pulse refers to its successor: the delta is added to the number, in `uint32`
arithmetic. -/
def Number.Next (n : Number) (delta : Uint16) : Number :=
  ⟨(n.val + delta.val) % 4294967296, Nat.mod_lt _ (by decide)⟩

/-- Embeds `DataExt`. -/
structure DataExt where
  PulseEpoch : Uint32
  PulseEntropy : Bits256
  NextPulseDelta : Uint16
  PrevPulseDelta : Uint16
  Timestamp : Uint32
  deriving DecidableEq, Repr

/-- Embeds `Data`: a pulse number with the embedded `DataExt`. -/
structure Data extends DataExt where
  PulseNumber : Number
  deriving DecidableEq, Repr

/-- Embeds `EntropyFunc`: a source of entropy, `func() longbits.Bits256`. -/
abbrev EntropyFunc := Unit → Bits256

/-- What `pulse_data.go` takes from outside the package: the static noise of
`longbits.FillBitsWithStaticNoise` (absent from the sources, a function of its `uint32`
base), the reading of the clock `uint32(time.Now().Unix())` and the pulse number
`OfNow()` of that moment. -/
structure Env where
  noise : Uint32 → Bits256
  unixNow : Uint32
  pulseNow : Number

/-- Embeds `newPulsarData`. -/
def newPulsarData (env : Env) (pn : Number) (delta : Uint16) (entropy : Bits256) :
    Except String Data :=
  if delta = 0 then .error "delta cant be zero"
  else .ok
    { PulseNumber := pn
      PulseEpoch := pn.AsUint32
      PulseEntropy := entropy
      Timestamp := env.unixNow
      NextPulseDelta := delta
      PrevPulseDelta := 0 }

/-- Embeds `NewFirstPulsarData`. -/
def NewFirstPulsarData (env : Env) (delta : Uint16) (entropy : Bits256) : Except String Data :=
  newPulsarData env env.pulseNow delta entropy

/-- Embeds `NewPulsarData`. -/
def NewPulsarData (env : Env) (pn : Number) (deltaNext deltaPrev : Uint16)
    (entropy : Bits256) : Except String Data :=
  match newPulsarData env pn deltaNext entropy with
  | .error msg => .error msg
  | .ok r => .ok { r with PrevPulseDelta := deltaPrev }

/-- Embeds `fixedPulseEntropy`: the static noise of base `uint32(pn)`. -/
def fixedPulseEntropy (env : Env) (pn : Number) : Bits256 :=
  env.noise pn.AsUint32

/-- Embeds `newEphemeralData`. -/
def newEphemeralData (env : Env) (pn : Number) : Data :=
  { PulseNumber := pn
    PulseEpoch := EphemeralPulseEpoch
    Timestamp := 0
    NextPulseDelta := 1
    PrevPulseDelta := 0
    PulseEntropy := fixedPulseEntropy env pn }

/-- Embeds `NewFirstEphemeralData`. -/
def NewFirstEphemeralData (env : Env) : Data :=
  newEphemeralData env MinTimePulse

/-- Embeds `Data.IsValidPulseData`. -/
def Data.IsValidPulseData (r : Data) : Bool :=
  if !r.PulseNumber.IsTimePulse then false
  else if !(OfUint32 r.PulseEpoch).IsSpecialOrTimePulse then false
  else if r.NextPulseDelta = 0 then false
  else true

/-- Embeds `Data.IsEmpty`. -/
def Data.IsEmpty (r : Data) : Bool := r.PulseNumber.IsUnknown

/-- Embeds `Data.IsValidExpectedPulseData`. -/
def Data.IsValidExpectedPulseData (r : Data) : Bool :=
  if !r.PulseNumber.IsTimePulse then false
  else if !(OfUint32 r.PulseEpoch).IsSpecialOrTimePulse then false
  else if r.PrevPulseDelta ≠ 0 then false
  else true

/-- Embeds `Data.IsValidPulsarData`. -/
def Data.IsValidPulsarData (r : Data) : Bool :=
  if !(OfUint32 r.PulseEpoch).IsTimePulse then false
  else r.IsValidPulseData

/-- Embeds `Data.IsValidEphemeralData`. -/
def Data.IsValidEphemeralData (r : Data) : Bool :=
  if r.PulseEpoch ≠ EphemeralPulseEpoch then false
  else r.IsValidPulseData

/-- Embeds `Data.IsFromPulsar`. -/
def Data.IsFromPulsar (r : Data) : Bool :=
  r.PulseNumber.IsTimePulse && (OfUint32 r.PulseEpoch).IsTimePulse

/-- Embeds `Data.IsFromEphemeral`. -/
def Data.IsFromEphemeral (r : Data) : Bool :=
  r.PulseNumber.IsTimePulse && decide (r.PulseEpoch = EphemeralPulseEpoch)

/-- Embeds `Data.IsExpectedPulse`. -/
def Data.IsExpectedPulse (r : Data) : Bool :=
  r.PulseNumber.IsTimePulse && decide (r.NextPulseDelta = 0)

/-- Embeds `Data.IsFirstPulse`. -/
def Data.IsFirstPulse (r : Data) : Bool :=
  r.PulseNumber.IsTimePulse && decide (r.PrevPulseDelta = 0)

/-- Embeds `Data.GetNextPulseNumber`. -/
def Data.GetNextPulseNumber (r : Data) : Except String Number :=
  if r.IsExpectedPulse then .error "illegal state"
  else .ok (r.PulseNumber.Next r.NextPulseDelta)

/-- Embeds `Data.createNextEphemeralPulse`. -/
def Data.createNextEphemeralPulse (env : Env) (r : Data) : Except String Data :=
  match r.GetNextPulseNumber with
  | .error msg => .error msg
  | .ok pn => .ok { newEphemeralData env pn with PrevPulseDelta := r.NextPulseDelta }

/-- Embeds `Data.createNextPulsarPulse`: the arguments of `newPulsarData` are evaluated first,
the next pulse number before the entropy. -/
def Data.createNextPulsarPulse (env : Env) (r : Data) (delta : Uint16)
    (entropyGen : EntropyFunc) : Except String Data :=
  match r.GetNextPulseNumber with
  | .error msg => .error msg
  | .ok pn =>
    match newPulsarData env pn delta (entropyGen ()) with
    | .error msg => .error msg
    | .ok s => .ok { s with PrevPulseDelta := r.NextPulseDelta }

/-- Embeds `Data.CreateNextPulse`. -/
def Data.CreateNextPulse (env : Env) (r : Data) (entropyGen : EntropyFunc) :
    Except String Data :=
  if r.IsFromEphemeral then r.createNextEphemeralPulse env
  else r.createNextPulsarPulse env r.NextPulseDelta entropyGen

/-- Embeds `Data.CreateNextEphemeralPulse`. -/
def Data.CreateNextEphemeralPulse (env : Env) (r : Data) : Except String Data :=
  if !r.IsFromEphemeral then .error "prev is not ephemeral"
  else r.createNextEphemeralPulse env

/-- Embeds `Data.CreateNextPulsarPulse`. -/
def Data.CreateNextPulsarPulse (env : Env) (r : Data) (delta : Uint16)
    (entropyGen : EntropyFunc) : Except String Data :=
  if r.IsFromEphemeral then .error "prev is ephemeral"
  else r.createNextPulsarPulse env delta entropyGen

/-- Embeds `Data.CreateNextExpected`: every field the literal does not name is zero. -/
def Data.CreateNextExpected (r : Data) : Except String Data :=
  match r.GetNextPulseNumber with
  | .error msg => .error msg
  | .ok pn =>
    let s : Data :=
      { PulseNumber := pn
        PrevPulseDelta := r.NextPulseDelta
        NextPulseDelta := 0
        PulseEpoch := 0
        PulseEntropy := 0
        Timestamp := 0 }
    if r.IsFromEphemeral then .ok { s with PulseEpoch := r.PulseEpoch } else .ok s

/-- Embeds `Data.IsValidNext`: the three tests of the first condition are evaluated left to right
and stop at the first that holds, so an expected `r` never asks for its next number. -/
def Data.IsValidNext (r n : Data) : Except String Bool :=
  if r.IsExpectedPulse then .ok false
  else
    match r.GetNextPulseNumber with
    | .error msg => .error msg
    | .ok nx =>
      if nx ≠ n.PulseNumber then .ok false
      else if r.NextPulseDelta ≠ n.PrevPulseDelta then .ok false
      else if r.IsFromPulsar then .ok n.IsValidPulsarData
      else if r.IsFromEphemeral then .ok n.IsValidEphemeralData
      else .ok n.IsValidPulseData

/-- Embeds `Data.IsValidPrev`: the tests of the first case are evaluated left to right and stop at
the first that holds. -/
def Data.IsValidPrev (r p : Data) : Except String Bool :=
  if r.IsFirstPulse then .ok false
  else if p.IsExpectedPulse then .ok false
  else
    match p.GetNextPulseNumber with
    | .error msg => .error msg
    | .ok nx =>
      if nx ≠ r.PulseNumber then .ok false
      else if p.NextPulseDelta ≠ r.PrevPulseDelta then .ok false
      else if r.IsFromPulsar then .ok p.IsValidPulsarData
      else if r.IsFromEphemeral then .ok p.IsValidEphemeralData
      else .ok p.IsValidPulseData

/-- The number `PulseNumber + NextPulseDelta` of the successor of `r`, in `uint32`
arithmetic. -/
def Data.successorNumber (r : Data) : Number :=
  ⟨(r.PulseNumber.val + r.NextPulseDelta.val) % 4294967296, Nat.mod_lt _ (by decide)⟩

/-- Modelled from the spec: `Number.Prev` of the absent pulse_number.go, the delta arithmetic
by which a pulse refers to its predecessor: the delta is subtracted from the number, in
`uint32` arithmetic. -/
def Number.Prev (n : Number) (delta : Uint16) : Number :=
  ⟨(n.val + 4294967296 - delta.val) % 4294967296, Nat.mod_lt _ (by decide)⟩

/-- Embeds `Data.EnsurePulseData`. -/
def Data.EnsurePulseData (r : Data) : Except String Unit :=
  if !r.PulseNumber.IsTimePulse then .error "incorrect pulse number"
  else if !(OfUint32 r.PulseEpoch).IsSpecialOrTimePulse then .error "incorrect pulse epoch"
  else if r.NextPulseDelta = 0 then .error "next delta can\x27t be zero"
  else .ok ()

/-- Embeds `Data.EnsurePulsarData`. -/
def Data.EnsurePulsarData (r : Data) : Except String Unit :=
  if !(OfUint32 r.PulseEpoch).IsTimePulse then .error "incorrect pulse epoch by pulsar"
  else r.EnsurePulseData

/-- Embeds `Data.EnsureEphemeralData`. -/
def Data.EnsureEphemeralData (r : Data) : Except String Unit :=
  if r.PulseEpoch ≠ EphemeralPulseEpoch then .error "incorrect pulse epoch"
  else r.EnsurePulseData

/-- Embeds `Data.GetPrevPulseNumber`. -/
def Data.GetPrevPulseNumber (r : Data) : Except String Number :=
  if r.IsFirstPulse then .error "illegal state"
  else .ok (r.PulseNumber.Prev r.PrevPulseDelta)

/-- The ephemeral pulses the package builds: the first one, the successor that
`CreateNextPulse` derives from an ephemeral pulse, and the result of
`CreateNextEphemeralPulse`, from any predecessor and with any entropy source. -/
inductive BuiltEphemeral (env : Env) : Data → Prop
  | first : BuiltEphemeral env (NewFirstEphemeralData env)
  | next (r : Data) (e : EntropyFunc) (d : Data) :
      r.IsFromEphemeral = true → r.CreateNextPulse env e = .ok d → BuiltEphemeral env d
  | nextEphemeral (r d : Data) :
      r.CreateNextEphemeralPulse env = .ok d → BuiltEphemeral env d

/-! ## Sample values -/

/-- A sample environment: the noise of a base is the base itself, read as 256 bits. -/
def sampleEnv : Env where
  noise := fun base => ⟨base.val, Nat.lt_of_lt_of_le base.isLt (by decide)⟩
  unixNow := 1565308800
  pulseNow := 19073536

/-- A second environment with the same noise and another clock. -/
def laterEnv : Env where
  noise := sampleEnv.noise
  unixNow := 1565308810
  pulseNow := 19073546

/-- A pulse of pulsar origin. -/
def pulsarPulse : Data where
  PulseNumber := 70000
  PulseEpoch := 70000
  PulseEntropy := 11
  NextPulseDelta := 10
  PrevPulseDelta := 10
  Timestamp := 1565308800

/-- A pulse of ephemeral origin. -/
def ephemeralPulse : Data where
  PulseNumber := 70000
  PulseEpoch := 1
  PulseEntropy := 70000
  NextPulseDelta := 5
  PrevPulseDelta := 1
  Timestamp := 0

/-- Another pulse of ephemeral origin, with the same successor number as `ephemeralPulse`. -/
def ephemeralPulse2 : Data where
  PulseNumber := 70003
  PulseEpoch := 1
  PulseEntropy := 70003
  NextPulseDelta := 2
  PrevPulseDelta := 3
  Timestamp := 0

/-- An expected pulse of pulsar lineage: a time-pulse number and no delta to a next pulse. -/
def expectedPulse : Data where
  PulseNumber := 70010
  PulseEpoch := 0
  PulseEntropy := 0
  NextPulseDelta := 0
  PrevPulseDelta := 10
  Timestamp := 0

/-- A pulse with the number zero. -/
def unknownPulse : Data where
  PulseNumber := 0
  PulseEpoch := 70000
  PulseEntropy := 11
  NextPulseDelta := 10
  PrevPulseDelta := 10
  Timestamp := 1565308800

/-- A pulse like `pulsarPulse` but for its epoch 200, which is not zero, not a time-pulse
number and not the ephemeral epoch. -/
def specialEpochPulse : Data where
  PulseNumber := 70000
  PulseEpoch := 200
  PulseEntropy := 11
  NextPulseDelta := 10
  PrevPulseDelta := 10
  Timestamp := 1565308800

/-- The successor `CreateNextPulse` gives `pulsarPulse` in `sampleEnv` with
`sampleEntropy`. -/
def pulsarSuccessor : Data where
  PulseNumber := 70010
  PulseEpoch := 70010
  PulseEntropy := 42
  NextPulseDelta := 10
  PrevPulseDelta := 10
  Timestamp := 1565308800

/-- The successor `CreateNextPulse` gives `ephemeralPulse`. -/
def ephemeralSuccessor : Data where
  PulseNumber := 70005
  PulseEpoch := 1
  PulseEntropy := 70005
  NextPulseDelta := 1
  PrevPulseDelta := 5
  Timestamp := 0

/-- The successor `CreateNextEphemeralPulse` gives `ephemeralPulse2`. -/
def ephemeralSuccessor2 : Data where
  PulseNumber := 70005
  PulseEpoch := 1
  PulseEntropy := 70005
  NextPulseDelta := 1
  PrevPulseDelta := 2
  Timestamp := 0

/-- The expected pulse `CreateNextExpected` gives `ephemeralPulse`. -/
def ephemeralExpected : Data where
  PulseNumber := 70005
  PulseEpoch := 1
  PulseEntropy := 0
  NextPulseDelta := 0
  PrevPulseDelta := 5
  Timestamp := 0

/-- A sample entropy source. -/
def sampleEntropy : EntropyFunc := fun _ => 42

/-- Another entropy source. -/
def otherEntropy : EntropyFunc := fun _ => 43

end Pulse

/-!
# Phantom nodes (network/consensus/gcpv2/core/purgatory/node_phantom.go)

A phantom node is a value of `NodePhantom`; a method is a function from the state before
the call to the state after it, together with the calls it makes on the purgatory (the
effects) and what it returns.  The methods that change the state run under the mutex of
the phantom, so a run is a sequence of calls.
-/

namespace Purgatory

/-- Modelled from the spec: the type `insolar.ShortNodeID`, a `uint32` (its declaration is
not among the sources). -/
abbrev ShortNodeID := Fin 4294967296

/-- Modelled from the spec: `ShortNodeID.IsAbsent` of the absent declaration: the zero
identifier stands for no node. -/
def ShortNodeID.IsAbsent (v : ShortNodeID) : Bool := v == 0

/-- Modelled from the spec: the type `member.Rank`, a packed `uint32` (its declaration is
not among the sources). -/
abbrev Rank := Fin 4294967296

/-- The content of a profile extension, `profiles.StaticProfileExtension`. -/
abbrev Extension := Nat

/-- A static profile `profiles.StaticProfile`: the brief part, and the extension that
`GetExtension()` returns, absent for a brief profile. -/
structure StaticProfile where
  brief : Nat
  extension : Option Extension
  deriving DecidableEq, Repr

/-- The bits of `population.UpdateFlags` that `dispatchAnnouncement` sets: `FlagCreated`
and `FlagUpdatedProfile`. -/
structure UpdateFlags where
  created : Bool
  updatedProfile : Bool
  deriving DecidableEq, Repr

/-- The test `flags != 0`: some bit is set. -/
def UpdateFlags.nonZero (flags : UpdateFlags) : Bool := flags.created || flags.updatedProfile

/-- A packet type, `phases.PacketType`. -/
abbrev PacketType := Nat

/-- The state of a packet limiter, `phases.PacketLimiter`. -/
abbrev PacketLimiter := Nat

/-- A postponed packet as the recorder keeps it: the packet, its sender and the
verification flags. -/
structure RecordedPacket where
  packet : Nat
  sender : Nat
  flags : Nat
  deriving DecidableEq, Repr

/-- What `node_phantom.go` takes from code that is not among the sources: the joiner test of
`member.Rank`, the two comparisons of `profiles`, the policy
`RealmPurgatory.IsBriefAscensionAllowed`, the transitions of `phases.PacketLimiter` and what
the recorder holds after `Playback`. -/
structure Env where
  isJoiner : Rank → Bool
  equalBriefProfiles : StaticProfile → StaticProfile → Bool
  equalProfileExtensions : Extension → Extension → Bool
  briefAscensionAllowed : Bool
  limiterSetPacketSent : PacketType → PacketLimiter → Bool × PacketLimiter
  limiterSetPacketReceived : PacketType → PacketLimiter → Bool × PacketLimiter
  afterPlayback : List RecordedPacket → List RecordedPacket

/-- The calls a phantom makes on its purgatory and on its recorder. -/
inductive Effect where
  | onNodeUpdated (nodeID : ShortNodeID) (flags : UpdateFlags)
  | ascendFromPurgatory (nodeID : ShortNodeID) (nsp : StaticProfile) (rank : Rank)
  | playback (nodeID : ShortNodeID) (packets : List RecordedPacket)
  deriving DecidableEq, Repr

/-- Embeds `figment`; `phantom` tells whether the pointer to the owning phantom is set. -/
structure figment where
  phantom : Bool
  announcerID : ShortNodeID
  rank : Rank
  profile : Option StaticProfile
  deriving DecidableEq, Repr

/-- Embeds `NodePhantom`, without the mutex and the pointer to the purgatory. -/
structure NodePhantom where
  nodeID : ShortNodeID
  limiter : PacketLimiter
  recorder : List RecordedPacket
  hasAscent : Bool
  figment : figment
  deriving DecidableEq, Repr

/-- Embeds `NewNodePhantom`: an empty recorder, no ascent and the zero figment. -/
def NewNodePhantom (nodeID : ShortNodeID) (limiter : PacketLimiter) : NodePhantom where
  nodeID := nodeID
  limiter := limiter
  recorder := []
  hasAscent := false
  figment := { phantom := false, announcerID := 0, rank := 0, profile := none }

/-- What a call leaves behind: the state of the phantom, the effects in the order they were
made, and the value returned, or the message of the panic. -/
structure Outcome (α : Type) where
  state : NodePhantom
  effects : List Effect
  result : Except String α

/-- Embeds `NodePhantom.IsJoiner`. -/
def NodePhantom.IsJoiner (env : Env) (p : NodePhantom) : Bool := env.isJoiner p.figment.rank

/-- Embeds `NodePhantom.GetStatic`. -/
def NodePhantom.GetStatic (p : NodePhantom) : Except String StaticProfile :=
  match p.figment.profile with
  | none => .error "illegal state"
  | some sp => .ok sp

/-- Embeds `NodePhantom.SetPacketSent`. -/
def NodePhantom.SetPacketSent (env : Env) (p : NodePhantom) (pt : PacketType) :
    Bool × NodePhantom :=
  ((env.limiterSetPacketSent pt p.limiter).1,
    { p with limiter := (env.limiterSetPacketSent pt p.limiter).2 })

/-- Embeds `NodePhantom.SetPacketReceived`. -/
def NodePhantom.SetPacketReceived (env : Env) (p : NodePhantom) (pt : PacketType) :
    Bool × NodePhantom :=
  ((env.limiterSetPacketReceived pt p.limiter).1,
    { p with limiter := (env.limiterSetPacketReceived pt p.limiter).2 })

/-- Embeds `NodePhantom.postponePacket`: the recorder appends the packet. -/
def NodePhantom.postponePacket (p : NodePhantom) (packet : RecordedPacket) : NodePhantom :=
  { p with recorder := p.recorder ++ [packet] }

/-- Embeds `NodePhantom.DispatchMemberPacket`; `triggerErr` is the error that
`TriggerUnknownMember` of the dispatcher returns, if any. -/
def NodePhantom.DispatchMemberPacket (p : NodePhantom) (packet : RecordedPacket)
    (triggerErr : Option String) : Option String × NodePhantom :=
  match triggerErr with
  | some err => (some err, p)
  | none => (none, p.postponePacket packet)

/-- Embeds `NodePhantom.ascend`. -/
def NodePhantom.ascend (env : Env) (p : NodePhantom) (nsp : StaticProfile) (rank : Rank) :
    Bool × NodePhantom × List Effect :=
  if p.hasAscent then (false, p, [])
  else
    (true,
      { p with hasAscent := true, recorder := env.afterPlayback p.recorder },
      [Effect.ascendFromPurgatory p.nodeID nsp rank, Effect.playback p.nodeID p.recorder])

/-- Embeds `figment.updateProfile`: the figment after the call, `updated` and
`mismatched`. -/
def figment.updateProfile (env : Env) (p : figment) (rank : Rank)
    (profile : Option StaticProfile) : figment × Bool × Bool :=
  if rank ≠ p.rank then (p, false, true)
  else
    match profile with
    | none => (p, false, false)
    | some pr =>
      match p.profile with
      | none => ({ p with profile := some pr }, true, false)
      | some sp =>
        if !env.equalBriefProfiles sp pr then (p, false, true)
        else
          match pr.extension with
          | none => (p, false, false)
          | some ext =>
            match sp.extension with
            | none => ({ p with profile := some pr }, true, false)
            | some sext => (p, false, !env.equalProfileExtensions sext ext)

/-- An announcement as `dispatchAnnouncement` reads it: the rank, the profile (possibly nil)
and `announcement.AnnouncedByID`. -/
structure Announcement where
  rank : Rank
  profile : Option StaticProfile
  announcedBy : ShortNodeID
  deriving DecidableEq, Repr

/-- The last part of `figment.dispatchAnnouncement`, from the test
`!hasUpdate || p.profile == nil` on: `p` is the phantom with the figment as it is then. -/
def NodePhantom.tryAscent (env : Env) (p : NodePhantom) (hasUpdate : Bool)
    (effects : List Effect) : Outcome Unit :=
  match p.figment.profile with
  | none => ⟨p, effects, .ok ()⟩
  | some prof =>
    if !hasUpdate then ⟨p, effects, .ok ()⟩
    else if env.isJoiner p.figment.rank && ShortNodeID.IsAbsent p.figment.announcerID then
      ⟨p, effects, .ok ()⟩
    else if prof.extension.isSome || env.briefAscensionAllowed then
      ⟨(p.ascend env prof p.figment.rank).2.1,
        effects ++ (p.ascend env prof p.figment.rank).2.2, .ok ()⟩
    else ⟨p, effects, .ok ()⟩

/-- The first block of `figment.dispatchAnnouncement`: a figment without a phantom takes the
phantom and the announced rank. -/
def figment.adopt (f : figment) (rank : Rank) : figment :=
  if !f.phantom then { f with phantom := true, rank := rank } else f

/-- The condition under which `figment.dispatchAnnouncement` stores the announcer: none is
stored yet, the announcement names one, and it is another node or the figment is not a
joiner. -/
def figment.setsAnnouncer (env : Env) (nodeID : ShortNodeID) (f : figment)
    (announcedBy : ShortNodeID) : Bool :=
  ShortNodeID.IsAbsent f.announcerID && !ShortNodeID.IsAbsent announcedBy &&
    (announcedBy != nodeID || !env.isJoiner f.rank)

/-- The block of `figment.dispatchAnnouncement` that stores the announcer. -/
def figment.takeAnnouncer (env : Env) (nodeID : ShortNodeID) (f : figment)
    (announcedBy : ShortNodeID) : figment :=
  if f.setsAnnouncer env nodeID announcedBy then { f with announcerID := announcedBy } else f

/-- Embeds `figment.dispatchAnnouncement`, called on the figment of `p` with `p` as the
phantom: the blocks `adopt`, `updateProfile`, the panic on a mismatch (it keeps the first
words of its message), `takeAnnouncer`, the notification `onNodeUpdated` when a flag is set,
and `tryAscent`. -/
def NodePhantom.dispatchAnnouncement (env : Env) (p : NodePhantom) (a : Announcement) :
    Outcome Unit :=
  let up := (p.figment.adopt a.rank).updateProfile env a.rank a.profile
  if up.2.2 then
    ⟨{ p with figment := up.1 }, [], .error "inconsistent neighbour announcement"⟩
  else
    let flags : UpdateFlags := { created := !p.figment.phantom, updatedProfile := up.2.1 }
    NodePhantom.tryAscent env
      { p with figment := up.1.takeAnnouncer env p.nodeID a.announcedBy }
      (up.2.1 || up.1.setsAnnouncer env p.nodeID a.announcedBy)
      (if flags.nonZero then [Effect.onNodeUpdated p.nodeID flags] else [])

/-- Embeds `NodePhantom.DispatchAnnouncement`. -/
def NodePhantom.DispatchAnnouncement (env : Env) (p : NodePhantom) (a : Announcement) :
    Outcome Unit :=
  p.dispatchAnnouncement env a

/-- The state a phantom is in after a sequence of `DispatchAnnouncement` calls; a call that
panics leaves the state it reached. -/
def NodePhantom.afterAnnouncements (env : Env) (p : NodePhantom) :
    List Announcement → NodePhantom
  | [] => p
  | a :: rest => NodePhantom.afterAnnouncements env (p.DispatchAnnouncement env a).state rest

/-- The calls of `ascend` one after the other: what each returns, the last state and all
effects. -/
def NodePhantom.ascendAll (env : Env) (p : NodePhantom) :
    List (StaticProfile × Rank) → List Bool × NodePhantom × List Effect
  | [] => ([], p, [])
  | c :: rest =>
    let r := p.ascend env c.1 c.2
    let t := NodePhantom.ascendAll env r.2.1 rest
    (r.1 :: t.1, t.2.1, r.2.2 ++ t.2.2)

/-- The methods of `NodePhantom` that write to the phantom. -/
inductive Operation where
  | setPacketSent (pt : PacketType)
  | setPacketReceived (pt : PacketType)
  | postponePacket (packet : RecordedPacket)
  | dispatchMemberPacket (packet : RecordedPacket) (triggerErr : Option String)
  | dispatchAnnouncement (a : Announcement)
  | ascend (nsp : StaticProfile) (rank : Rank)

/-- The state of the phantom after one operation. -/
def NodePhantom.perform (env : Env) (p : NodePhantom) : Operation → NodePhantom
  | .setPacketSent pt => (p.SetPacketSent env pt).2
  | .setPacketReceived pt => (p.SetPacketReceived env pt).2
  | .postponePacket packet => p.postponePacket packet
  | .dispatchMemberPacket packet triggerErr => (p.DispatchMemberPacket packet triggerErr).2
  | .dispatchAnnouncement a => (p.DispatchAnnouncement env a).state
  | .ascend nsp rank => (p.ascend env nsp rank).2.1

/-- The condition under which `dispatchAnnouncement` lets a figment ascend: it holds a
profile, the profile has an extension or brief ascension is allowed, and it is not a joiner
without an announcer. -/
def figment.mayAscend (env : Env) (f : figment) : Bool :=
  match f.profile with
  | none => false
  | some prof =>
    (prof.extension.isSome || env.briefAscensionAllowed) &&
      !(env.isJoiner f.rank && ShortNodeID.IsAbsent f.announcerID)

/-! ## Sample values -/

/-- A sample environment: the joiner rank is zero, profiles are compared field by field,
brief ascension is not allowed, a limiter counts its packets and the recorder is empty after
a playback. -/
def sampleEnv : Env where
  isJoiner := fun rank => rank == 0
  equalBriefProfiles := fun a b => a.brief == b.brief
  equalProfileExtensions := fun a b => a == b
  briefAscensionAllowed := false
  limiterSetPacketSent := fun _ limiter => (true, limiter + 1)
  limiterSetPacketReceived := fun _ limiter => (true, limiter + 1)
  afterPlayback := fun _ => []

/-- A brief profile. -/
def briefProfile : StaticProfile := { brief := 7, extension := none }

/-- The full profile with the brief part of `briefProfile`. -/
def fullProfile : StaticProfile := { brief := 7, extension := some 1 }

/-- A full profile with the same brief part and another extension. -/
def otherFullProfile : StaticProfile := { brief := 7, extension := some 2 }

/-- A postponed packet. -/
def samplePacket : RecordedPacket := { packet := 1, sender := 9, flags := 0 }

/-- A phantom for the node 5 that has two packets in its recorder. -/
def waitingPhantom : NodePhantom :=
  ((NewNodePhantom 5 3).postponePacket samplePacket).postponePacket
    { packet := 2, sender := 9, flags := 0 }

/-- A phantom for the node 5, created with the member rank 3 by the announcement of node 9,
that holds `fullProfile`; without brief ascension it has ascended. -/
def fullPhantom : NodePhantom where
  nodeID := 5
  limiter := 3
  recorder := []
  hasAscent := true
  figment := { phantom := true, announcerID := 9, rank := 3, profile := some fullProfile }

/-- A phantom for the node 5, created with the member rank 3 by the announcement of node 9,
that holds `briefProfile`. -/
def briefPhantom : NodePhantom where
  nodeID := 5
  limiter := 3
  recorder := []
  hasAscent := false
  figment := { phantom := true, announcerID := 9, rank := 3, profile := some briefProfile }

/-- The joiner 5 announces itself with a full profile. -/
def selfAnnouncement : Announcement :=
  { rank := 0, profile := some fullProfile, announcedBy := 5 }

/-- The node 9 announces the joiner 5 with a brief profile. -/
def neighbourAnnouncement : Announcement :=
  { rank := 0, profile := some briefProfile, announcedBy := 9 }

end Purgatory

/-!
# Futures (messagebus/future.go)

A future is a value of `future`; the cancel callback, which `NewFuture` stores once and for
all, is a function on the state `W` of what it acts upon.  A run is a sequence of calls: what
other goroutines do while `GetResult` waits comes before that call in the sequence, and the
`select` of `GetResult` takes the channel when it is ready and the timer otherwise.  A call
that does not return, because it panics or because its send blocks for ever, evaluates to
`.error`.
-/

namespace Messagebus

/-- A Go `uint64`. -/
abbrev Uint64 := Fin 18446744073709551616

/-- The content of a reply, `core.Reply`. -/
abbrev Reply := Nat

/-- The two errors of the package, `ErrFutureTimeout` and `ErrFutureChannelClosed`. -/
inductive FutureError where
  | ErrFutureTimeout
  | ErrFutureChannelClosed
  deriving DecidableEq, Repr

/-- A channel `chan core.Reply` of capacity one: the value it buffers and whether it is
closed. -/
structure Chan where
  buffer : Option Reply
  closed : Bool
  deriving DecidableEq, Repr

/-- The statement `c <- v`: it panics on a closed channel and blocks on a full one. -/
def Chan.send (c : Chan) (v : Reply) : Except String Chan :=
  if c.closed then .error "send on closed channel"
  else
    match c.buffer with
    | some _ => .error "send blocks"
    | none => .ok { c with buffer := some v }

/-- The statement `close(c)`: it panics on a closed channel. -/
def Chan.close (c : Chan) : Except String Chan :=
  if c.closed then .error "close of closed channel"
  else .ok { c with closed := true }

/-- Embeds `future`, without the callback. -/
structure future where
  result : Chan
  id : Uint64
  finished : Uint64
  deriving DecidableEq, Repr

/-- Embeds `NewFuture`: a channel of capacity one, open and empty, and `finished` zero. -/
def NewFuture (id : Uint64) : future where
  result := { buffer := none, closed := false }
  id := id
  finished := 0

/-- Embeds `future.ID`. -/
def future.ID (f : future) : Uint64 := f.id

/-- Embeds `future.finish`: the channel is closed, then the callback runs on the future. -/
def future.finish {W : Type} (cb : future → W → W) (f : future) (w : W) :
    Except String (future × W) :=
  match f.result.close with
  | .error msg => .error msg
  | .ok c => .ok ({ f with result := c }, cb { f with result := c } w)

/-- Embeds `future.SetResult`: the compare-and-swap of `finished` from 0 to 1 guards the
send and `finish`. -/
def future.SetResult {W : Type} (cb : future → W → W) (f : future) (res : Reply) (w : W) :
    Except String (future × W) :=
  if f.finished = 0 then
    match f.result.send res with
    | .error msg => .error msg
    | .ok c => future.finish cb { f with finished := 1, result := c } w
  else .ok (f, w)

/-- Embeds `future.Cancel`. -/
def future.Cancel {W : Type} (cb : future → W → W) (f : future) (w : W) :
    Except String (future × W) :=
  if f.finished = 0 then future.finish cb { f with finished := 1 } w
  else .ok (f, w)

/-- Embeds `future.GetResult` at the end of its wait: a buffered reply is received, a closed
and empty channel gives `ErrFutureChannelClosed`, and on an open and empty channel the timer
fires: the future is cancelled and the error is `ErrFutureTimeout`. -/
def future.GetResult {W : Type} (cb : future → W → W) (f : future) (w : W) :
    Except String ((Option Reply × Option FutureError) × future × W) :=
  match f.result.buffer with
  | some r => .ok ((some r, none), { f with result := { f.result with buffer := none } }, w)
  | none =>
    if f.result.closed then .ok ((none, some FutureError.ErrFutureChannelClosed), f, w)
    else
      match future.Cancel cb f w with
      | .error msg => .error msg
      | .ok s => .ok ((none, some FutureError.ErrFutureTimeout), s)

/-- A call on a future. -/
inductive Call where
  | SetResult (res : Reply)
  | Cancel
  | GetResult
  deriving DecidableEq, Repr

/-- The state after one call. -/
def future.call {W : Type} (cb : future → W → W) (s : future × W) :
    Call → Except String (future × W)
  | .SetResult res => future.SetResult cb s.1 res s.2
  | .Cancel => future.Cancel cb s.1 s.2
  | .GetResult =>
    match future.GetResult cb s.1 s.2 with
    | .error msg => .error msg
    | .ok out => .ok out.2

/-- The state after a sequence of calls. -/
def future.calls {W : Type} (cb : future → W → W) (s : future × W) :
    List Call → Except String (future × W)
  | [] => .ok s
  | c :: rest =>
    match future.call cb s c with
    | .error msg => .error msg
    | .ok t => future.calls cb t rest

/-- The reply a call sends into the channel of a future that is not finished. -/
def Call.reply : Call → Option Reply
  | .SetResult res => some res
  | .Cancel => none
  | .GetResult => none

/-- A new future after a first call `c`: finished, closed, and holding the reply of `c`. -/
def future.finishedBy (id : Uint64) (c : Call) : future where
  result := { buffer := c.reply, closed := true }
  id := id
  finished := 1

/-- A callback that counts how often it is invoked. -/
def countCalls (_ : future) (n : Nat) : Nat := n + 1

/-- Embeds `futureManager`, without the mutex: the map from an id to the future stored
under it, a future being referred to by the position it was allocated at, and the index. -/
structure futureManager where
  futures : List (Uint64 × Nat)
  index : Uint64
  deriving DecidableEq, Repr

/-- Embeds `newFutureManager`. -/
def newFutureManager : futureManager where
  futures := []
  index := 0

/-- Embeds `futureManager.incrementIndex`: the index before the call, and the manager with
the index raised by one in `uint64` arithmetic. -/
def futureManager.incrementIndex (fm : futureManager) : Uint64 × futureManager :=
  (fm.index,
    { fm with index := ⟨(fm.index.val + 1) % 18446744073709551616, Nat.mod_lt _ (by decide)⟩ })

/-- Embeds `futureManager.decrementIndex`: the index before the call, and the manager with
the index lowered by one in `uint64` arithmetic. -/
def futureManager.decrementIndex (fm : futureManager) : Uint64 × futureManager :=
  (fm.index,
    { fm with index :=
        ⟨(fm.index.val + 18446744073709551615) % 18446744073709551616,
          Nat.mod_lt _ (by decide)⟩ })

/-- Embeds `futureManager.delete`. -/
def futureManager.delete (fm : futureManager) (id : Uint64) : futureManager :=
  (futureManager.decrementIndex
    { fm with futures := fm.futures.filter (fun e => e.1 ≠ id) }).2

/-- Embeds `futureManager.Get`: the future stored under the id, if any. -/
def futureManager.Get (fm : futureManager) (id : Uint64) : Option Nat :=
  (fm.futures.find? (fun e => e.1 = id)).map (fun e => e.2)

/-- The futures that exist and the manager that registers them. -/
structure Bus where
  heap : List future
  fm : futureManager
  deriving DecidableEq, Repr

/-- A bus with a new manager and no future. -/
def Bus.new : Bus where
  heap := []
  fm := newFutureManager

/-- Embeds `futureManager.Create`: the reference to the new future, and the bus with the
future allocated and stored under its id. -/
def Bus.Create (b : Bus) : Nat × Bus :=
  let inc := b.fm.incrementIndex
  (b.heap.length,
    { heap := b.heap ++ [NewFuture inc.1]
      fm := { inc.2 with
        futures := (inc.1, b.heap.length) :: inc.2.futures.filter (fun e => e.1 ≠ inc.1) } })

/-- The callback `Create` gives to its future: the manager deletes the id of the future. -/
def managerCallback (f : future) (fm : futureManager) : futureManager := fm.delete f.ID

/-- A call on the future with the reference `ref`. -/
def Bus.call (b : Bus) (ref : Nat) (c : Call) : Except String Bus :=
  match b.heap.get? ref with
  | none => .error "invalid memory address or nil pointer dereference"
  | some f =>
    match future.call managerCallback (f, b.fm) c with
    | .error msg => .error msg
    | .ok s => .ok { heap := b.heap.set ref s.1, fm := s.2 }

/-- A call on a bus: `Create` on the manager, or a call on the future with the reference
`ref`. -/
inductive BusCall where
  | Create
  | on (ref : Nat) (c : Call)
  deriving DecidableEq, Repr

/-- The bus after a sequence of calls. -/
def Bus.calls (b : Bus) : List BusCall → Except String Bus
  | [] => .ok b
  | BusCall.Create :: rest => Bus.calls b.Create.2 rest
  | BusCall.on ref c :: rest =>
    match b.call ref c with
    | .error msg => .error msg
    | .ok t => Bus.calls t rest

end Messagebus

/-!
# Datagram handler (network/consensus/adapters/handlers.go)

The packet processor and the parser factory are interfaces; a value of the interface is the
function behind its one method, and the calls of `ProcessPacket` and of the logger are the
events of a call of the handler.  `HandleDatagram` has no return value and no panic of its
own: it is a total function to the events it makes.
-/

namespace Adapters

/-- A parsed packet `transport.PacketParser`, with what the handler reads from it for its
log fields and the rest of its content. -/
structure PacketParser where
  sourceID : Nat
  packetType : String
  pulseNumber : Nat
  payload : List (Fin 256)
  deriving DecidableEq, Repr

/-- The inbound identity `endpoints.InboundConnection` that the handler builds; only `Addr`
is set. -/
structure InboundConnection where
  Addr : String
  deriving DecidableEq, Repr

/-- Embeds the interface `PacketProcessor`: `ProcessPacket` returns an error or nil. -/
structure PacketProcessor where
  ProcessPacket : PacketParser → InboundConnection → Option String

/-- Embeds the interface `PacketParserFactory`: `ParsePacket` reads the bytes and returns a
parser or an error. -/
structure PacketParserFactory where
  ParsePacket : List (Fin 256) → Except String PacketParser

/-- Embeds `DatagramHandler`: each field is nil until its setter is called. -/
structure DatagramHandler where
  packetProcessor : Option PacketProcessor
  packetParserFactory : Option PacketParserFactory

/-- Embeds `NewDatagramHandler`. -/
def NewDatagramHandler : DatagramHandler where
  packetProcessor := none
  packetParserFactory := none

/-- Embeds `DatagramHandler.SetPacketProcessor`. -/
def DatagramHandler.SetPacketProcessor (dh : DatagramHandler)
    (packetProcessor : Option PacketProcessor) : DatagramHandler :=
  { dh with packetProcessor := packetProcessor }

/-- Embeds `DatagramHandler.SetPacketParserFactory`. -/
def DatagramHandler.SetPacketParserFactory (dh : DatagramHandler)
    (packetParserFactory : Option PacketParserFactory) : DatagramHandler :=
  { dh with packetParserFactory := packetParserFactory }

/-- What a call of the handler does to the outside: a line of the error log, or a call of
`ProcessPacket`. -/
inductive Event where
  | logError (msg : String)
  | processPacket (payload : PacketParser) (sender : InboundConnection)
  deriving DecidableEq, Repr

/-- Embeds `DatagramHandler.HandleDatagram`: the events of the call, in order. -/
def DatagramHandler.HandleDatagram (dh : DatagramHandler) (address : String)
    (buf : List (Fin 256)) : List Event :=
  match dh.packetProcessor, dh.packetParserFactory with
  | some processor, some factory =>
    match factory.ParsePacket buf with
    | .error err => [Event.logError ("Failed to get PacketParser: " ++ err)]
    | .ok packetParser =>
      let hostIdentity : InboundConnection := { Addr := address }
      match processor.ProcessPacket packetParser hostIdentity with
      | some err =>
        [Event.processPacket packetParser hostIdentity,
          Event.logError ("Failed to process packet: " ++ err)]
      | none => [Event.processPacket packetParser hostIdentity]
  | _, _ => [Event.logError "Datagram handler not initialized"]

/-- The calls of `ProcessPacket` among the events. -/
def processed : List Event → List (PacketParser × InboundConnection)
  | [] => []
  | Event.processPacket payload sender :: rest => (payload, sender) :: processed rest
  | Event.logError _ :: rest => processed rest

/-- A sample parser factory: a datagram is a source identifier followed by the payload, and
an empty datagram is an error. -/
def sampleFactory : PacketParserFactory where
  ParsePacket := fun buf =>
    match buf with
    | [] => .error "empty packet"
    | source :: rest =>
      .ok { sourceID := source.val, packetType := "Phase0", pulseNumber := 70000,
            payload := rest }

/-- A sample processor that refuses every packet. -/
def refusingProcessor : PacketProcessor where
  ProcessPacket := fun _ _ => some "packet refused"

/-- A handler with `sampleFactory` and `refusingProcessor`. -/
def sampleHandler : DatagramHandler :=
  (NewDatagramHandler.SetPacketProcessor (some refusingProcessor)).SetPacketParserFactory
    (some sampleFactory)

end Adapters

/-!
# Majority rule (network/rules)
-/

namespace Rules

/-- A node reference `insolar.Reference`; the test builds it from one byte. -/
abbrev Reference := Nat

/-- A node of the list, `insolar.NetworkNode`, with its reference `ID()`. -/
structure NetworkNode where
  ID : Reference
  deriving DecidableEq, Repr

/-- What `CheckMajorityRule` reads from the certificate `insolar.Certificate`: the
references of the discovery nodes and `GetMajorityRule()`. -/
structure Certificate where
  discoveryNodes : List Reference
  majorityRule : Int
  deriving DecidableEq, Repr

/-- Modelled from the spec: the function `CheckMajorityRule` of `network/rules` (rules.go is
not among the sources; its test and the interface `network.Rules` are): it returns whether
the majority rule passed, and the count of the active discovery nodes, the nodes of the
list that are discovery nodes of the certificate. -/
def CheckMajorityRule (cert : Certificate) (nodes : List NetworkNode) : Bool × Nat :=
  let active := nodes.filter (fun n => cert.discoveryNodes.contains n.ID)
  (decide (cert.majorityRule ≤ (active.length : Int)), active.length)

/-- The nodes `getDiscoveryNodes(count)` of rules_test.go: the references 0 to count - 1. -/
def getDiscoveryNodes (count : Nat) : List NetworkNode :=
  (List.range count).map (fun i => { ID := i })

/-- The certificate of `TestRules_CheckMajorityRule`: five discovery nodes and the majority
rule 4. -/
def testCertificate : Certificate where
  discoveryNodes := (getDiscoveryNodes 5).map (fun n => n.ID)
  majorityRule := 4

end Rules

/-!
# Realm population (network/consensus/gcpv2/core/population)

Only the interface `RealmPopulation` is among the sources.
-/

namespace Population

/-- A slot of the population, `*NodeAppearance`, named by the short identifier of its
node. -/
abbrev NodeAppearance := Nat

/-- Modelled from the spec: the state behind the interface `RealmPopulation`, whose
implementation is not among the sources: the indexed members in index order, the joiners,
which are kept apart, and the capacity the indexed members were sealed with, if they
were. -/
structure RealmPopulation where
  indexed : List NodeAppearance
  joiners : List NodeAppearance
  sealedCapacity : Option Int
  deriving DecidableEq, Repr

/-- Modelled from the spec: `GetIndexedCount` of the absent implementation, the count of the
indexed members. -/
def RealmPopulation.GetIndexedCount (r : RealmPopulation) : Int := r.indexed.length

/-- Modelled from the spec: `GetJoinersCount` of the absent implementation. -/
def RealmPopulation.GetJoinersCount (r : RealmPopulation) : Int := r.joiners.length

/-- Modelled from the spec: `GetIndexedNodes` of the absent implementation: the indexed
members, no joiners included. -/
def RealmPopulation.GetIndexedNodes (r : RealmPopulation) : List NodeAppearance := r.indexed

/-- Modelled from the spec: `GetSealedCapacity` of the absent implementation: the capacity
and whether the population is sealed. -/
def RealmPopulation.GetSealedCapacity (r : RealmPopulation) : Int × Bool :=
  match r.sealedCapacity with
  | some capacity => (capacity, true)
  | none => (0, false)

/-- Modelled from the spec: `SealIndexed` of the absent implementation: it fixes the indexed
members at the given size and fails when it was called before or when the capacity is not
the count of the admitted members. -/
def RealmPopulation.SealIndexed (r : RealmPopulation) (indexedCapacity : Int) :
    Bool × RealmPopulation :=
  if r.sealedCapacity.isSome then (false, r)
  else if indexedCapacity ≠ r.GetIndexedCount then (false, r)
  else (true, { r with sealedCapacity := some indexedCapacity })

/-- A population of three indexed members and one joiner, not sealed. -/
def samplePopulation : RealmPopulation where
  indexed := [11, 12, 13]
  joiners := [21]
  sealedCapacity := none

end Population

/-!
# Census population (network/consensus/gcpv2/censusimpl)

Only the test of `NewManyNodePopulation` is among the sources.
-/

namespace Census

/-- A short node identifier, `insolar.ShortNodeID`. -/
abbrev ShortNodeID := Fin 4294967296

/-- What the constructor reads from a profile `profiles.StaticProfile`: the static node
identifier, the primary role and the public key store. -/
structure StaticProfile where
  staticNodeID : ShortNodeID
  primaryRole : Nat
  publicKeyStore : Nat
  deriving DecidableEq, Repr

/-- A verifier factory `cryptkit.SignatureVerifierFactory`: the verifier it gives for a
public key store. -/
abbrev SignatureVerifierFactory := Nat → Nat

/-- A slot of the population: the profile, its index and its verifier. -/
structure updatableSlot where
  profile : StaticProfile
  index : Nat
  verifier : Nat
  deriving DecidableEq, Repr

/-- The part of `ManyNodePopulation` that the test reads: the slots and the local slot,
nil when it is not set. -/
structure ManyNodePopulation where
  slots : List updatableSlot
  localSlot : Option updatableSlot
  deriving DecidableEq, Repr

/-- The slots of a node list, numbered from `start`. -/
def makeSlots (vf : SignatureVerifierFactory) (start : Nat) :
    List StaticProfile → List updatableSlot
  | [] => []
  | n :: rest =>
    { profile := n, index := start, verifier := vf n.publicKeyStore } ::
      makeSlots vf (start + 1) rest

/-- Modelled from the spec: the constructor `NewManyNodePopulation` of `censusimpl` (its
source is not among the sources, its test is): the construction panics when the node list is
empty, when there is no verifier factory to make the verifiers with, and when the local
identifier is not that of any entry; the messages of the panics stand for the unknown
ones. -/
def NewManyNodePopulation (nodes : List StaticProfile) (localID : ShortNodeID)
    (vf : Option SignatureVerifierFactory) : Except String ManyNodePopulation :=
  if nodes.isEmpty then .error "empty node list"
  else
    match vf with
    | none => .error "invalid memory address or nil pointer dereference"
    | some factory =>
      match (makeSlots factory 0 nodes).find? (fun slot => slot.profile.staticNodeID = localID)
      with
      | none => .error "local node is not found"
      | some slot => .ok { slots := makeSlots factory 0 nodes, localSlot := some slot }

/-- The profile `sp` of `TestNewManyNodePopulation`: the node 2. -/
def testProfile : StaticProfile where
  staticNodeID := 2
  primaryRole := 0
  publicKeyStore := 7

/-- The verifier factory `svf` of the test. -/
def testFactory : SignatureVerifierFactory := fun _ => 1

end Census

/-!
# Migration admin (logicrunner/builtin/contract/migrationadmin/migrationadmin.go)
-/

namespace Migrationadmin

/-- A reference `insolar.Reference`, 64 bytes read as a number. -/
abbrev Reference := Nat

/-- The map `foundation.StableMap`, a `map[string]string`: the value stored under a key, if
any. -/
abbrev StableMap := String → Option String

/-- The expression `m[key]`: the empty string when the key is absent. -/
def StableMap.index (m : StableMap) (key : String) : String := (m key).getD ""

/-- The statement `m[key] = value`. -/
def StableMap.assign (m : StableMap) (key value : String) : StableMap :=
  fun k => if k = key then some value else m k

/-- Embeds `MigrationAdmin`, without the base contract. -/
structure MigrationAdmin where
  MigrationDaemon : StableMap
  MigrationAdminMember : Reference

/-- The constant `StatusActive`. -/
def StatusActive : String := "active"

/-- The constant `StatusInactivate`. -/
def StatusInactivate : String := "inactivate"

/-- Embeds `MigrationAdmin.ActivateDaemon`: the error, nil when there is none, and the
contract after the call; the map is shared with the receiver, so a write to it stays. -/
def MigrationAdmin.ActivateDaemon (mA : MigrationAdmin) (daemonMember : String)
    (caller : Reference) : Option String × MigrationAdmin :=
  if caller = mA.MigrationAdminMember then
    (some " only migration admin can activate migration demons ", mA)
  else if StableMap.index mA.MigrationDaemon daemonMember = StatusActive then
    (some (" daemon member already activated - " ++ daemonMember), mA)
  else if StableMap.index mA.MigrationDaemon daemonMember = StatusInactivate then
    (none, { mA with
      MigrationDaemon := StableMap.assign mA.MigrationDaemon daemonMember StatusActive })
  else (some " this referense is not daemon member ", mA)

/-- Embeds `MigrationAdmin.DeactivateDaemon`. -/
def MigrationAdmin.DeactivateDaemon (mA : MigrationAdmin) (daemonMember : String)
    (caller : Reference) : Option String × MigrationAdmin :=
  if caller = mA.MigrationAdminMember then
    (some " only migration admin can deactivate migration demons ", mA)
  else if StableMap.index mA.MigrationDaemon daemonMember = StatusActive then
    (none, { mA with
      MigrationDaemon := StableMap.assign mA.MigrationDaemon daemonMember StatusInactivate })
  else if StableMap.index mA.MigrationDaemon daemonMember = StatusInactivate then
    (some (" daemon member already deactivated - " ++ daemonMember), mA)
  else (some " this referense is not daemon member ", mA)

/-- Embeds `NewMigrationAdmin`: every daemon of the list is registered as inactive. -/
def NewMigrationAdmin (migrationDaemons : List String) (migrationAdminMember : Reference) :
    MigrationAdmin where
  MigrationDaemon := fun k => if k ∈ migrationDaemons then some StatusInactivate else none
  MigrationAdminMember := migrationAdminMember

/-- A contract with two daemons and the member 1 as migration admin. -/
def sampleAdmin : MigrationAdmin := NewMigrationAdmin ["daemon-a", "daemon-b"] 1

end Migrationadmin

/-!
# Lifeline index in memory (ledger/storage/object/lifeline.go)

A pointer is the value it points to, or nil; a map is the value stored under each key, or
nil for the nil map.
-/

namespace StorageObject

/-- An identifier `insolar.ID`: its pulse and its hash. -/
structure ID where
  pulse : Nat
  hash : Nat
  deriving DecidableEq, Repr

/-- A reference `insolar.Reference`. -/
abbrev Reference := Nat

/-- Embeds `Lifeline`. -/
structure Lifeline where
  LatestState : Option ID
  LatestStateApproved : Option ID
  ChildPointer : Option ID
  Parent : Reference
  Delegates : Option (Reference → Option Reference)
  State : Nat
  LatestUpdate : Nat
  JetID : Nat

/-- The zero value of `Lifeline`. -/
def Lifeline.zero : Lifeline where
  LatestState := none
  LatestStateApproved := none
  ChildPointer := none
  Parent := 0
  Delegates := none
  State := 0
  LatestUpdate := 0
  JetID := 0

/-- Embeds `Clone`: each pointer that is not nil points to a copy of its value, and a map
that is not nil is copied entry by entry. -/
def Clone (idx : Lifeline) : Lifeline :=
  { idx with
    LatestState := (match idx.LatestState with
      | some tmp => some tmp
      | none => none)
    LatestStateApproved := (match idx.LatestStateApproved with
      | some tmp => some tmp
      | none => none)
    ChildPointer := (match idx.ChildPointer with
      | some tmp => some tmp
      | none => none)
    Delegates := (match idx.Delegates with
      | some delegates => some (fun k => delegates k)
      | none => none) }

/-- The error `ErrNotFound` of the package. -/
inductive StorageError where
  | ErrNotFound
  deriving DecidableEq, Repr

/-- Embeds `IndexMemory`, without the lock: the map `memory`, and the calls of `Add` on the
jet index. -/
structure IndexMemory where
  memory : ID → Option Lifeline
  jetIndex : List (ID × Nat)

/-- Embeds `NewIndexMemory`. -/
def NewIndexMemory : IndexMemory where
  memory := fun _ => none
  jetIndex := []

/-- Embeds `IndexMemory.Set`: the error, always nil, and the storage after the call. -/
def IndexMemory.Set (s : IndexMemory) (id : ID) (index : Lifeline) :
    Option StorageError × IndexMemory :=
  (none,
    { memory := fun k => if k = id then some (Clone index) else s.memory k
      jetIndex := s.jetIndex ++ [(id, (Clone index).JetID)] })

/-- Embeds `IndexMemory.ForID`: the lifeline and the error. -/
def IndexMemory.ForID (s : IndexMemory) (id : ID) : Lifeline × Option StorageError :=
  match s.memory id with
  | none => (Lifeline.zero, some StorageError.ErrNotFound)
  | some idx => (Clone idx, none)

/-- The storage after a sequence of `Set` calls. -/
def IndexMemory.setAll (s : IndexMemory) : List (ID × Lifeline) → IndexMemory
  | [] => s
  | e :: rest => IndexMemory.setAll (s.Set e.1 e.2).2 rest

/-- A lifeline with a state, a parent and one delegate. -/
def sampleLifeline : Lifeline where
  LatestState := some { pulse := 70000, hash := 1 }
  LatestStateApproved := none
  ChildPointer := none
  Parent := 5
  Delegates := some (fun k => if k = 1 then some 10 else none)
  State := 1
  LatestUpdate := 70000
  JetID := 3

end StorageObject

/-!
# Request checker (ledger/light/executor/request_checker.go)

An error is its message, or nil.
-/

namespace Executor

/-- An identifier `insolar.ID`: its pulse, which `Pulse()` returns, and its hash. -/
structure ID where
  pulse : Nat
  hash : Nat
  deriving DecidableEq, Repr

/-- A reference `insolar.Reference`: the record that `Record()` points to, and the
domain. -/
structure Reference where
  record : ID
  domain : ID
  deriving DecidableEq, Repr

/-- Modelled from the spec: `Reference.IsEmpty` of the absent package `insolar`: the
reference is the zero reference. -/
def Reference.IsEmpty (r : Reference) : Bool :=
  r == { record := { pulse := 0, hash := 0 }, domain := { pulse := 0, hash := 0 } }

/-- The dynamic type of a `record.Request`, as the type switch tells it. -/
inductive RequestKind where
  | IncomingRequest
  | OutgoingRequest
  | other
  deriving DecidableEq, Repr

/-- A request `record.Request`: its dynamic type and what its methods return. -/
structure Request where
  kind : RequestKind
  ReasonRef : Reference
  IsDetached : Bool
  IsAPIRequest : Bool
  IsCreationRequest : Bool
  AffinityRef : Reference
  ReasonAffinityRef : Reference
  deriving DecidableEq, Repr

/-- A record of a filament, `record.CompositeFilamentRecord`, with its `RecordID`. -/
structure CompositeFilamentRecord where
  RecordID : ID
  deriving DecidableEq, Repr

/-- Embeds `RequestCheckerDefault` by what its collaborators answer: `OpenedRequests` of the
filament calculator, and `checkReasonExists`, which asks the node of the reason over the
bus. -/
structure RequestCheckerDefault where
  OpenedRequests : Nat → ID → Bool → Except String (List CompositeFilamentRecord)
  checkReasonExists : ID → ID → Option String

/-- Embeds `contains`. -/
def contains : List CompositeFilamentRecord → ID → Bool
  | [], _ => false
  | p :: rest, requestID => if p.RecordID = requestID then true else contains rest requestID

/-- Embeds `RequestCheckerDefault.CheckRequest`; the error that names the return mode keeps
its first words. -/
def RequestCheckerDefault.CheckRequest (c : RequestCheckerDefault) (requestID : ID)
    (request : Request) : Option String :=
  if request.ReasonRef.IsEmpty then some "reason id is empty"
  else if request.ReasonRef.record.pulse > requestID.pulse then
    some "request is older than its reason"
  else
    match request.kind with
    | RequestKind.IncomingRequest =>
      if request.IsDetached then some "incoming request cannot be detached"
      else if !request.IsAPIRequest then
        if request.ReasonAffinityRef.IsEmpty then
          some "reason affinity is not set on incoming request"
        else
          match c.checkReasonExists request.ReasonAffinityRef.record request.ReasonRef.record
          with
          | some err => some ("reason not found: " ++ err)
          | none => none
      else none
    | RequestKind.OutgoingRequest =>
      if request.IsCreationRequest then some "outgoing cannot be creating request"
      else
        match c.OpenedRequests requestID.pulse request.AffinityRef.record false with
        | .error err => some ("failed fetch pending requests: " ++ err)
        | .ok requests =>
          if !contains requests request.ReasonRef.record then
            some "request reason not found in opened requests"
          else none
    | RequestKind.other => none

/-- A checker whose filament calculator knows one opened request, and whose reasons all
exist. -/
def sampleChecker : RequestCheckerDefault where
  OpenedRequests := fun _ _ _ => .ok [{ RecordID := { pulse := 70000, hash := 1 } }]
  checkReasonExists := fun _ _ => none

/-- An outgoing request of pulse 70010 whose reason is the opened request. -/
def sampleOutgoing : Request where
  kind := RequestKind.OutgoingRequest
  ReasonRef := { record := { pulse := 70000, hash := 1 }, domain := { pulse := 0, hash := 0 } }
  IsDetached := false
  IsAPIRequest := false
  IsCreationRequest := false
  AffinityRef := { record := { pulse := 69000, hash := 4 }, domain := { pulse := 0, hash := 0 } }
  ReasonAffinityRef :=
    { record := { pulse := 69000, hash := 4 }, domain := { pulse := 0, hash := 0 } }

end Executor

/-!
# Lifeline delegates (ledger/object/lifeline.go)
-/

namespace LedgerObject

/-- A reference `insolar.Reference`, 64 bytes read as a number. -/
abbrev Reference := Nat

/-- An entry `LifelineDelegate` of the delegates, a struct value. -/
structure LifelineDelegate where
  Key : Reference
  Value : Reference
  deriving DecidableEq, Repr

/-- The part of `Lifeline` that the delegate methods use: the slice `Delegates`. -/
structure Lifeline where
  Delegates : List LifelineDelegate
  deriving DecidableEq, Repr

/-- The loop of `Lifeline.SetDelegate`, telling whether it returned.  The loop variable `d`
is a copy of the entry: at the first entry with the key, `d.Value = value` writes to the
copy and the method returns, so the slice is as it was. -/
def setDelegateLoop (key : Reference) : List LifelineDelegate → Bool
  | [] => false
  | d :: rest => if d.Key = key then true else setDelegateLoop key rest

/-- Embeds `Lifeline.SetDelegate`. -/
def Lifeline.SetDelegate (m : Lifeline) (key value : Reference) : Lifeline :=
  if setDelegateLoop key m.Delegates then m
  else { m with Delegates := m.Delegates ++ [{ Key := key, Value := value }] }

/-- The loop of `Lifeline.DelegateByKey`. -/
def delegateByKeyLoop (key : Reference) : List LifelineDelegate → Reference × Bool
  | [] => (0, false)
  | d :: rest => if d.Key = key then (d.Value, true) else delegateByKeyLoop key rest

/-- Embeds `Lifeline.DelegateByKey`. -/
def Lifeline.DelegateByKey (m : Lifeline) (key : Reference) : Reference × Bool :=
  delegateByKeyLoop key m.Delegates

/-- A lifeline with the delegate 10 under the key 1. -/
def sampleLifeline : Lifeline where
  Delegates := [{ Key := 1, Value := 10 }]

end LedgerObject

namespace Pulse

/-! ## Arithmetic of the pulse numbers -/

theorem Number.isTimePulse_iff (n : Number) :
    n.IsTimePulse = true ↔ 65536 ≤ n.val ∧ n.val ≤ 1073741823 := by
  unfold Number.IsTimePulse
  rw [Bool.and_eq_true, decide_eq_true_eq, decide_eq_true_eq]
  exact Iff.rfl

theorem Number.isSpecialOrTimePulse_iff (n : Number) :
    n.IsSpecialOrTimePulse = true ↔
      n = Unknown ∨ n = OfUint32 EphemeralPulseEpoch ∨ n.IsTimePulse = true := by
  unfold Number.IsSpecialOrTimePulse
  rw [Bool.or_eq_true, Bool.or_eq_true, beq_iff_eq, beq_iff_eq, or_assoc]

theorem Data.successorNumber_isTimePulse_iff (r : Data) (h : r.PulseNumber.IsTimePulse = true) :
    r.successorNumber.IsTimePulse = true ↔
      r.PulseNumber.val + r.NextPulseDelta.val ≤ 1073741823 := by
  have hd := r.NextPulseDelta.isLt
  have hn := (Number.isTimePulse_iff _).1 h
  rw [Number.isTimePulse_iff]
  have hmod : r.successorNumber.val = r.PulseNumber.val + r.NextPulseDelta.val :=
    Nat.mod_eq_of_lt (by omega)
  omega

/-- A successor number that is a time pulse is the plain sum: the `uint32` addition has not
wrapped, whatever the number it starts from. -/
theorem Data.successorNumber_val (r : Data) (hs : r.successorNumber.IsTimePulse = true) :
    r.successorNumber.val = r.PulseNumber.val + r.NextPulseDelta.val := by
  have hd := r.NextPulseDelta.isLt
  have hn := r.PulseNumber.isLt
  have hs2 := (Number.isTimePulse_iff _).1 hs
  have hdef : r.successorNumber.val =
      (r.PulseNumber.val + r.NextPulseDelta.val) % 4294967296 := rfl
  omega

/-- The modelled `Number.Next` of the number of a pulse and its delta is the successor
number. -/
theorem Data.next_eq_successorNumber (r : Data) :
    r.PulseNumber.Next r.NextPulseDelta = r.successorNumber := rfl

/-- The number before a successor number is the number it succeeds, in `uint32`
arithmetic. -/
theorem Data.successorNumber_prev (r : Data) :
    r.successorNumber.Prev r.NextPulseDelta = r.PulseNumber := by
  have hd := r.NextPulseDelta.isLt
  have hn := r.PulseNumber.isLt
  apply Fin.ext
  show ((r.PulseNumber.val + r.NextPulseDelta.val) % 4294967296 + 4294967296 -
    r.NextPulseDelta.val) % 4294967296 = r.PulseNumber.val
  omega

/-- A pulse that is not expected has a next pulse number, its successor number. -/
theorem Data.getNextPulseNumber_of_not_expected (r : Data) (h : r.IsExpectedPulse = false) :
    r.GetNextPulseNumber = .ok r.successorNumber := by
  unfold Data.GetNextPulseNumber
  rw [h]
  rfl

/-- A pulse with a non-zero delta is not expected. -/
theorem Data.isExpectedPulse_of_delta (r : Data) (hd : r.NextPulseDelta ≠ 0) :
    r.IsExpectedPulse = false := by
  simp [Data.IsExpectedPulse, hd]

/-- The next pulse number of a pulse with a non-zero delta is its successor number. -/
theorem Data.getNextPulseNumber_ok (r : Data) (hd : r.NextPulseDelta ≠ 0) :
    r.GetNextPulseNumber = .ok r.successorNumber :=
  Data.getNextPulseNumber_of_not_expected r (Data.isExpectedPulse_of_delta r hd)

/-- Whenever the next pulse number is returned, the receiver is not expected and the result
is the successor number. -/
theorem Data.getNextPulseNumber_ok_inv (r : Data) (m : Number)
    (h : r.GetNextPulseNumber = .ok m) :
    r.IsExpectedPulse = false ∧ m = r.successorNumber := by
  cases hex : r.IsExpectedPulse with
  | true =>
    unfold Data.GetNextPulseNumber at h
    rw [hex] at h
    cases h
  | false =>
    rw [Data.getNextPulseNumber_of_not_expected r hex] at h
    injection h with h
    exact ⟨rfl, h.symm⟩

/-- The next pulse number panics on an expected pulse only: the call either returns the
successor number or panics with "illegal state". -/
theorem Data.getNextPulseNumber_cases (r : Data) :
    (r.IsExpectedPulse = false ∧ r.GetNextPulseNumber = .ok r.successorNumber) ∨
      (r.IsExpectedPulse = true ∧ r.GetNextPulseNumber = .error "illegal state") := by
  cases hex : r.IsExpectedPulse with
  | true =>
    right
    refine ⟨rfl, ?_⟩
    unfold Data.GetNextPulseNumber
    rw [hex]
    rfl
  | false => exact Or.inl ⟨rfl, Data.getNextPulseNumber_of_not_expected r hex⟩

/-! ## The validity predicates, unfolded -/

theorem Data.isValidPulseData_iff (r : Data) :
    r.IsValidPulseData = true ↔
      r.PulseNumber.IsTimePulse = true ∧ (OfUint32 r.PulseEpoch).IsSpecialOrTimePulse = true ∧
        r.NextPulseDelta ≠ 0 := by
  unfold Data.IsValidPulseData
  cases r.PulseNumber.IsTimePulse <;> cases (OfUint32 r.PulseEpoch).IsSpecialOrTimePulse <;>
    by_cases h : r.NextPulseDelta = 0 <;> simp [h]

theorem Data.isValidExpectedPulseData_iff (r : Data) :
    r.IsValidExpectedPulseData = true ↔
      r.PulseNumber.IsTimePulse = true ∧ (OfUint32 r.PulseEpoch).IsSpecialOrTimePulse = true ∧
        r.PrevPulseDelta = 0 := by
  unfold Data.IsValidExpectedPulseData
  cases r.PulseNumber.IsTimePulse <;> cases (OfUint32 r.PulseEpoch).IsSpecialOrTimePulse <;>
    by_cases h : r.PrevPulseDelta = 0 <;> simp [h]

theorem Data.isValidPulsarData_iff (r : Data) :
    r.IsValidPulsarData = true ↔
      (OfUint32 r.PulseEpoch).IsTimePulse = true ∧ r.IsValidPulseData = true := by
  unfold Data.IsValidPulsarData
  cases (OfUint32 r.PulseEpoch).IsTimePulse <;> simp

theorem Data.isValidEphemeralData_iff (r : Data) :
    r.IsValidEphemeralData = true ↔
      r.PulseEpoch = EphemeralPulseEpoch ∧ r.IsValidPulseData = true := by
  unfold Data.IsValidEphemeralData
  by_cases h : r.PulseEpoch = EphemeralPulseEpoch <;> simp [h]

theorem ephemeralEpoch_not_timePulse : (OfUint32 EphemeralPulseEpoch).IsTimePulse = false := by
  decide

theorem ephemeralEpoch_special : (OfUint32 EphemeralPulseEpoch).IsSpecialOrTimePulse = true := by
  decide

/-- A pulse is never both of pulsar and of ephemeral origin. -/
theorem Data.isFromPulsar_of_isFromEphemeral (r : Data) (h : r.IsFromEphemeral = true) :
    r.IsFromPulsar = false := by
  unfold Data.IsFromEphemeral at h
  rw [Bool.and_eq_true, decide_eq_true_eq] at h
  unfold Data.IsFromPulsar
  rw [h.2, ephemeralEpoch_not_timePulse, Bool.and_false]

/-- A pulse number is its own epoch number: the conversions to and from `uint32` undo each
other. -/
theorem OfUint32_asUint32 (n : Number) : OfUint32 n.AsUint32 = n := rfl

theorem Number.isSpecialOrTimePulse_of_isTimePulse (n : Number) (h : n.IsTimePulse = true) :
    n.IsSpecialOrTimePulse = true :=
  (Number.isSpecialOrTimePulse_iff n).2 (Or.inr (Or.inr h))

/-! ## Successor pulses -/

/-- The ephemeral successor, when the next pulse number is known. -/
theorem Data.createNextEphemeralPulse_eq (env : Env) (r : Data) (pn : Number)
    (h : r.GetNextPulseNumber = .ok pn) :
    r.createNextEphemeralPulse env =
      .ok { newEphemeralData env pn with PrevPulseDelta := r.NextPulseDelta } := by
  unfold Data.createNextEphemeralPulse
  rw [h]

/-- The pulsar successor, when the next pulse number is known and the delta is not zero. -/
theorem Data.createNextPulsarPulse_eq (env : Env) (r : Data) (delta : Uint16)
    (e : EntropyFunc) (pn : Number) (h : r.GetNextPulseNumber = .ok pn) (hd : delta ≠ 0) :
    r.createNextPulsarPulse env delta e =
      .ok { PulseNumber := pn
            PulseEpoch := pn.AsUint32
            PulseEntropy := e ()
            Timestamp := env.unixNow
            NextPulseDelta := delta
            PrevPulseDelta := r.NextPulseDelta } := by
  unfold Data.createNextPulsarPulse newPulsarData
  rw [h]
  simp only [hd, if_false]

/-- The test of `IsValidNext` once the receiver is known to have `nx` as next number. -/
theorem Data.isValidNext_eq (r n : Data) (nx : Number) (h : r.GetNextPulseNumber = .ok nx) :
    r.IsValidNext n =
      .ok (if nx ≠ n.PulseNumber then false
        else if r.NextPulseDelta ≠ n.PrevPulseDelta then false
        else if r.IsFromPulsar then n.IsValidPulsarData
        else if r.IsFromEphemeral then n.IsValidEphemeralData
        else n.IsValidPulseData) := by
  have hne : r.IsExpectedPulse = false := (Data.getNextPulseNumber_ok_inv r nx h).1
  unfold Data.IsValidNext
  rw [h]
  simp only [hne, Bool.false_eq_true, if_false]
  split_ifs <;> rfl

/-- C1: for every pulse `p` accepted by `IsValidPulseData` whose successor number
`p.PulseNumber + p.NextPulseDelta` is still a time pulse, and for every entropy source `e`,
`p.CreateNextPulse(e)` returns a pulse `n` with `n.PrevPulseDelta == p.NextPulseDelta` and
`p.IsValidNext(n)` returns true. -/
theorem createNextPulse_isValidNext (env : Env) (p : Data) (e : EntropyFunc)
    (hv : p.IsValidPulseData = true) (hs : p.successorNumber.IsTimePulse = true) :
    ∃ n, p.CreateNextPulse env e = .ok n ∧ n.PrevPulseDelta = p.NextPulseDelta ∧
      p.IsValidNext n = .ok true := by
  obtain ⟨-, -, hd⟩ := (Data.isValidPulseData_iff p).1 hv
  have hnx := Data.getNextPulseNumber_ok p hd
  have hss := Number.isSpecialOrTimePulse_of_isTimePulse _ hs
  by_cases hep : p.IsFromEphemeral = true
  · refine ⟨{ newEphemeralData env p.successorNumber with
        PrevPulseDelta := p.NextPulseDelta }, ?_, rfl, ?_⟩
    · unfold Data.CreateNextPulse
      rw [if_pos hep]
      exact Data.createNextEphemeralPulse_eq env p _ hnx
    · rw [Data.isValidNext_eq p _ _ hnx, Data.isFromPulsar_of_isFromEphemeral p hep, hep]
      have hvalid : Data.IsValidEphemeralData
          { newEphemeralData env p.successorNumber with
            PrevPulseDelta := p.NextPulseDelta } = true := by
        rw [Data.isValidEphemeralData_iff, Data.isValidPulseData_iff]
        refine ⟨rfl, hs, ephemeralEpoch_special, ?_⟩
        show (1 : Uint16) ≠ 0
        decide
      rw [hvalid]
      simp [newEphemeralData]
  · have hep2 : p.IsFromEphemeral = false := by simpa using hep
    refine ⟨{ PulseNumber := p.successorNumber
              PulseEpoch := p.successorNumber.AsUint32
              PulseEntropy := e ()
              Timestamp := env.unixNow
              NextPulseDelta := p.NextPulseDelta
              PrevPulseDelta := p.NextPulseDelta }, ?_, rfl, ?_⟩
    · unfold Data.CreateNextPulse
      rw [if_neg hep]
      exact Data.createNextPulsarPulse_eq env p _ e _ hnx hd
    · rw [Data.isValidNext_eq p _ _ hnx, hep2]
      have hpd : Data.IsValidPulseData
          { PulseNumber := p.successorNumber
            PulseEpoch := p.successorNumber.AsUint32
            PulseEntropy := e ()
            Timestamp := env.unixNow
            NextPulseDelta := p.NextPulseDelta
            PrevPulseDelta := p.NextPulseDelta } = true := by
        rw [Data.isValidPulseData_iff]
        refine ⟨hs, ?_, hd⟩
        show (OfUint32 p.successorNumber.AsUint32).IsSpecialOrTimePulse = true
        rw [OfUint32_asUint32]
        exact hss
      have hpl : Data.IsValidPulsarData
          { PulseNumber := p.successorNumber
            PulseEpoch := p.successorNumber.AsUint32
            PulseEntropy := e ()
            Timestamp := env.unixNow
            NextPulseDelta := p.NextPulseDelta
            PrevPulseDelta := p.NextPulseDelta } = true := by
        rw [Data.isValidPulsarData_iff]
        refine ⟨?_, hpd⟩
        show (OfUint32 p.successorNumber.AsUint32).IsTimePulse = true
        rw [OfUint32_asUint32]
        exact hs
      rw [hpl, hpd]
      simp

/-- Whenever `IsValidNext` returns true, the receiver has a next pulse number and every test
of the method has passed. -/
theorem Data.isValidNext_true_inv (r n : Data) (h : r.IsValidNext n = .ok true) :
    r.IsExpectedPulse = false ∧ r.GetNextPulseNumber = .ok n.PulseNumber ∧
      r.NextPulseDelta = n.PrevPulseDelta ∧
      (if r.IsFromPulsar then n.IsValidPulsarData
        else if r.IsFromEphemeral then n.IsValidEphemeralData
        else n.IsValidPulseData) = true := by
  unfold Data.IsValidNext at h
  split at h
  · cases h
  · rename_i hne
    split at h
    · cases h
    · rename_i nx hnx
      split at h
      · cases h
      · rename_i hnum
        split at h
        · cases h
        · rename_i hdel
          have hnum2 : nx = n.PulseNumber := by simpa using hnum
          have hdel2 : r.NextPulseDelta = n.PrevPulseDelta := by simpa using hdel
          refine ⟨by simpa using hne, hnum2 ▸ hnx, hdel2, ?_⟩
          split_ifs at h ⊢ <;> injection h

/-- The validity that `IsValidNext` asks of its candidate, for whichever lineage, includes
`IsValidPulseData`. -/
theorem Data.isValidPulseData_of_lineage (r n : Data)
    (h : (if r.IsFromPulsar then n.IsValidPulsarData
      else if r.IsFromEphemeral then n.IsValidEphemeralData
      else n.IsValidPulseData) = true) : n.IsValidPulseData = true := by
  cases hp : r.IsFromPulsar with
  | true =>
    rw [hp, if_pos rfl] at h
    exact ((Data.isValidPulsarData_iff n).1 h).2
  | false =>
    rw [hp, if_neg (by decide)] at h
    cases hep : r.IsFromEphemeral with
    | true =>
      rw [hep, if_pos rfl] at h
      exact ((Data.isValidEphemeralData_iff n).1 h).2
    | false =>
      rw [hep, if_neg (by decide)] at h
      exact h

/-- C2: if `r.IsValidNext(n)` returns true then `r` is not an expected pulse,
`n.PulseNumber == r.PulseNumber + r.NextPulseDelta`, `n.PrevPulseDelta == r.NextPulseDelta`,
and `n` is valid for the lineage of `r`: `n.IsValidPulsarData()` when `r.IsFromPulsar()`,
`n.IsValidEphemeralData()` when `r.IsFromEphemeral()`, `n.IsValidPulseData()` otherwise. -/
theorem isValidNext_true_sound (r n : Data) (h : r.IsValidNext n = .ok true) :
    r.IsExpectedPulse = false ∧
      n.PulseNumber.val = r.PulseNumber.val + r.NextPulseDelta.val ∧
      n.PrevPulseDelta = r.NextPulseDelta ∧
      (r.IsFromPulsar = true → n.IsValidPulsarData = true) ∧
      (r.IsFromEphemeral = true → n.IsValidEphemeralData = true) ∧
      (r.IsFromPulsar = false → r.IsFromEphemeral = false → n.IsValidPulseData = true) := by
  obtain ⟨hne, hnx, hdel, hlin⟩ := Data.isValidNext_true_inv r n h
  obtain ⟨-, hnum⟩ := Data.getNextPulseNumber_ok_inv r _ hnx
  have hnt := ((Data.isValidPulseData_iff n).1 (Data.isValidPulseData_of_lineage r n hlin)).1
  have hval : n.PulseNumber.val = r.PulseNumber.val + r.NextPulseDelta.val := by
    rw [hnum] at hnt ⊢
    exact Data.successorNumber_val r hnt
  refine ⟨hne, hval, hdel.symm, ?_, ?_, ?_⟩
  · intro hp
    rw [hp] at hlin
    simpa using hlin
  · intro hep
    rw [Data.isFromPulsar_of_isFromEphemeral r hep, hep] at hlin
    simpa using hlin
  · intro hp hep
    rw [hp, hep] at hlin
    simpa using hlin

/-- C1 at a pulsar pulse: 70000 with delta 10 is followed by 70010. -/
theorem createNextPulse_isValidNext_witness :
    pulsarPulse.IsValidPulseData = true ∧ pulsarPulse.successorNumber.IsTimePulse = true ∧
      ∃ n, pulsarPulse.CreateNextPulse sampleEnv sampleEntropy = .ok n ∧
        n.PrevPulseDelta = pulsarPulse.NextPulseDelta ∧ pulsarPulse.IsValidNext n = .ok true :=
  ⟨by decide, by decide,
    createNextPulse_isValidNext sampleEnv pulsarPulse sampleEntropy (by decide) (by decide)⟩

/-- C2 at a pulsar pulse and the successor `CreateNextPulse` gives it. -/
theorem isValidNext_true_sound_witness :
    pulsarPulse.IsValidNext pulsarSuccessor = .ok true ∧
      pulsarPulse.IsExpectedPulse = false ∧
      pulsarSuccessor.PulseNumber.val =
        pulsarPulse.PulseNumber.val + pulsarPulse.NextPulseDelta.val ∧
      pulsarSuccessor.PrevPulseDelta = pulsarPulse.NextPulseDelta ∧
      (pulsarPulse.IsFromPulsar = true → pulsarSuccessor.IsValidPulsarData = true) ∧
      (pulsarPulse.IsFromEphemeral = true → pulsarSuccessor.IsValidEphemeralData = true) ∧
      (pulsarPulse.IsFromPulsar = false → pulsarPulse.IsFromEphemeral = false →
        pulsarSuccessor.IsValidPulseData = true) :=
  ⟨rfl, isValidNext_true_sound pulsarPulse pulsarSuccessor rfl⟩

/-! ## Pulsar pulses need a delta -/

/-- With a zero delta `createNextPulsarPulse` panics, at the next pulse number or in
`newPulsarData`. -/
theorem Data.createNextPulsarPulse_zero (env : Env) (r : Data) (e : EntropyFunc) :
    ∃ msg, r.createNextPulsarPulse env 0 e = .error msg := by
  unfold Data.createNextPulsarPulse
  cases r.GetNextPulseNumber with
  | error msg => exact ⟨msg, rfl⟩
  | ok pn => exact ⟨"delta cant be zero", rfl⟩

/-- C3, as the code has it: `r.CreateNextPulsarPulse(0, e)` panics for every pulse `r` and
every entropy source `e`, `NewPulsarData` and `NewFirstPulsarData` panic with a zero
`deltaNext`; and for every pulse `r` that is not ephemeral and not expected, with
`delta > 0` and an in-range successor number `CreateNextPulsarPulse` returns a pulse with
`NextPulseDelta == delta` and the entropy supplied by `e`. -/
theorem createNextPulsarPulse_delta (env : Env) (r : Data) (delta deltaPrev : Uint16)
    (e : EntropyFunc) (pn : Number) (entropy : Bits256) :
    (∃ msg, r.CreateNextPulsarPulse env 0 e = .error msg) ∧
      NewPulsarData env pn 0 deltaPrev entropy = .error "delta cant be zero" ∧
      NewFirstPulsarData env 0 entropy = .error "delta cant be zero" ∧
      (r.IsFromEphemeral = false → r.IsExpectedPulse = false →
        delta ≠ 0 → r.successorNumber.IsTimePulse = true →
        ∃ s, r.CreateNextPulsarPulse env delta e = .ok s ∧ s.NextPulseDelta = delta ∧
          s.PulseEntropy = e ()) := by
  refine ⟨?_, rfl, rfl, ?_⟩
  · unfold Data.CreateNextPulsarPulse
    split
    · exact ⟨_, rfl⟩
    · exact Data.createNextPulsarPulse_zero env r e
  · intro hep hne hdelta _
    refine ⟨{ PulseNumber := r.successorNumber
              PulseEpoch := r.successorNumber.AsUint32
              PulseEntropy := e ()
              Timestamp := env.unixNow
              NextPulseDelta := delta
              PrevPulseDelta := r.NextPulseDelta }, ?_, rfl, rfl⟩
    unfold Data.CreateNextPulsarPulse
    rw [hep]
    simp only [Bool.false_eq_true, if_false]
    exact Data.createNextPulsarPulse_eq env r delta e _
      (Data.getNextPulseNumber_of_not_expected r hne) hdelta

/-- C3 at `pulsarPulse` with the delta 7: the successor is returned with that delta and
the entropy of the source. -/
theorem createNextPulsarPulse_delta_witness :
    pulsarPulse.IsFromEphemeral = false ∧ pulsarPulse.IsExpectedPulse = false ∧
      (7 : Uint16) ≠ 0 ∧
      pulsarPulse.successorNumber.IsTimePulse = true ∧
      ∃ s, pulsarPulse.CreateNextPulsarPulse sampleEnv 7 sampleEntropy = .ok s ∧
        s.NextPulseDelta = 7 ∧ s.PulseEntropy = sampleEntropy () :=
  ⟨by decide, by decide, by decide, by decide,
    (createNextPulsarPulse_delta sampleEnv pulsarPulse 7 0 sampleEntropy 70000 0).2.2.2
      (by decide) (by decide) (by decide) (by decide)⟩

/-- C3 as stated fails at an expected pulse: `expectedPulse` is not ephemeral, the delta 7
is positive and the successor number 70010 + 0 is in range, yet `CreateNextPulsarPulse`
panics with "illegal state". -/
theorem createNextPulsarPulse_expected_panics :
    expectedPulse.IsFromEphemeral = false ∧ (7 : Uint16) ≠ 0 ∧
      expectedPulse.successorNumber.IsTimePulse = true ∧
      expectedPulse.CreateNextPulsarPulse sampleEnv 7 sampleEntropy =
        .error "illegal state" :=
  ⟨by decide, by decide, by decide, rfl⟩

/-! ## Ephemeral pulses -/

/-- C4: for every ephemeral-origin pulse `p` that is not expected and whose successor number
is a time pulse, and for any two entropy sources, `p.CreateNextPulse(e1)` and
`p.CreateNextPulse(e2)` return the same pulse: number `p.PulseNumber + p.NextPulseDelta`,
epoch `EphemeralPulseEpoch`, `PrevPulseDelta = p.NextPulseDelta`, `NextPulseDelta = 1`,
`Timestamp = 0` and the fixed noise of its own pulse number as entropy. -/
theorem createNextPulse_ephemeral_deterministic (env : Env) (p : Data) (e1 e2 : EntropyFunc)
    (hep : p.IsFromEphemeral = true) (hne : p.IsExpectedPulse = false)
    (hs : p.successorNumber.IsTimePulse = true) :
    p.CreateNextPulse env e1 = p.CreateNextPulse env e2 ∧
      ∃ n, p.CreateNextPulse env e1 = .ok n ∧
        n.PulseNumber.val = p.PulseNumber.val + p.NextPulseDelta.val ∧
        n.PulseEpoch = EphemeralPulseEpoch ∧
        n.PrevPulseDelta = p.NextPulseDelta ∧
        n.NextPulseDelta = 1 ∧
        n.Timestamp = 0 ∧
        n.PulseEntropy = fixedPulseEntropy env n.PulseNumber := by
  have ht : p.PulseNumber.IsTimePulse = true := by
    unfold Data.IsFromEphemeral at hep
    rw [Bool.and_eq_true] at hep
    exact hep.1
  have hnx := Data.getNextPulseNumber_of_not_expected p hne
  have hcr : ∀ e, p.CreateNextPulse env e =
      .ok { newEphemeralData env p.successorNumber with
        PrevPulseDelta := p.NextPulseDelta } := by
    intro e
    unfold Data.CreateNextPulse
    rw [if_pos hep]
    exact Data.createNextEphemeralPulse_eq env p _ hnx
  refine ⟨by rw [hcr e1, hcr e2], _, hcr e1, ?_, rfl, rfl, rfl, rfl, rfl⟩
  exact Data.successorNumber_val p hs

/-- C4 at `ephemeralPulse` with two different entropy sources. -/
theorem createNextPulse_ephemeral_deterministic_witness :
    ephemeralPulse.IsFromEphemeral = true ∧ ephemeralPulse.IsExpectedPulse = false ∧
      ephemeralPulse.successorNumber.IsTimePulse = true ∧
      sampleEntropy () ≠ otherEntropy () ∧
      ephemeralPulse.CreateNextPulse sampleEnv sampleEntropy =
        ephemeralPulse.CreateNextPulse sampleEnv otherEntropy :=
  ⟨by decide, by decide, by decide, by decide,
    (createNextPulse_ephemeral_deterministic sampleEnv ephemeralPulse sampleEntropy
      otherEntropy (by decide) (by decide) (by decide)).1⟩

/-- Every ephemeral pulse the package builds holds the fixed noise of its own number. -/
theorem BuiltEphemeral.entropy_eq (env : Env) (d : Data) (h : BuiltEphemeral env d) :
    d.PulseEntropy = fixedPulseEntropy env d.PulseNumber := by
  have hnext : ∀ r : Data, r.createNextEphemeralPulse env = .ok d →
      d.PulseEntropy = fixedPulseEntropy env d.PulseNumber := by
    intro r hr
    unfold Data.createNextEphemeralPulse at hr
    split at hr
    · cases hr
    · injection hr with hr
      subst hr
      rfl
  cases h with
  | first => rfl
  | next r e _ hep hr =>
    unfold Data.CreateNextPulse at hr
    rw [if_pos hep] at hr
    exact hnext r hr
  | nextEphemeral r _ hr =>
    unfold Data.CreateNextEphemeralPulse at hr
    split at hr
    · cases hr
    · exact hnext r hr

/-- C5: ephemeral pulse entropy is a function of the pulse number alone: two ephemeral
pulses built by `NewFirstEphemeralData`, `CreateNextPulse` or `CreateNextEphemeralPulse`
with equal `PulseNumber` have equal `PulseEntropy`, whatever their predecessors, deltas,
entropy sources and clocks. -/
theorem ephemeral_entropy_of_number (env1 env2 : Env) (d1 d2 : Data)
    (hnoise : env1.noise = env2.noise)
    (h1 : BuiltEphemeral env1 d1) (h2 : BuiltEphemeral env2 d2)
    (hnum : d1.PulseNumber = d2.PulseNumber) :
    d1.PulseEntropy = d2.PulseEntropy := by
  rw [BuiltEphemeral.entropy_eq env1 d1 h1, BuiltEphemeral.entropy_eq env2 d2 h2]
  unfold fixedPulseEntropy
  rw [hnoise, hnum]

/-- C5 at two ephemeral pulses with the number 70005, one built by `CreateNextPulse` from
70000 with delta 5, the other by `CreateNextEphemeralPulse` from 70003 with delta 2 and
under another clock. -/
theorem ephemeral_entropy_of_number_witness :
    sampleEnv.noise = laterEnv.noise ∧
      BuiltEphemeral sampleEnv ephemeralSuccessor ∧
      BuiltEphemeral laterEnv ephemeralSuccessor2 ∧
      ephemeralSuccessor.PulseNumber = ephemeralSuccessor2.PulseNumber ∧
      ephemeralSuccessor.PrevPulseDelta ≠ ephemeralSuccessor2.PrevPulseDelta ∧
      ephemeralSuccessor.PulseEntropy = ephemeralSuccessor2.PulseEntropy :=
  ⟨rfl,
    BuiltEphemeral.next ephemeralPulse sampleEntropy _ (by decide) rfl,
    BuiltEphemeral.nextEphemeral ephemeralPulse2 _ rfl,
    rfl, by decide,
    ephemeral_entropy_of_number sampleEnv laterEnv ephemeralSuccessor ephemeralSuccessor2 rfl
      (BuiltEphemeral.next ephemeralPulse sampleEntropy _ (by decide) rfl)
      (BuiltEphemeral.nextEphemeral ephemeralPulse2 _ rfl) rfl⟩

/-! ## Expected pulses -/

/-- The expected successor, when the next pulse number is known. -/
theorem Data.createNextExpected_eq (r : Data) (pn : Number)
    (h : r.GetNextPulseNumber = .ok pn) :
    r.CreateNextExpected =
      .ok { PulseNumber := pn
            PrevPulseDelta := r.NextPulseDelta
            NextPulseDelta := 0
            PulseEpoch := if r.IsFromEphemeral then EphemeralPulseEpoch else 0
            PulseEntropy := 0
            Timestamp := 0 } := by
  unfold Data.CreateNextExpected
  rw [h]
  by_cases hep : r.IsFromEphemeral = true
  · have hepoch : r.PulseEpoch = EphemeralPulseEpoch := by
      unfold Data.IsFromEphemeral at hep
      rw [Bool.and_eq_true, decide_eq_true_eq] at hep
      exact hep.2
    simp only [hep, if_true, hepoch]
  · simp only [hep, if_false, Bool.false_eq_true]

/-- C6, as the code has it: for every pulse `r` that is not expected and whose successor
number is a time pulse, `r.CreateNextExpected()` returns a pulse `s` with `s.PulseNumber = r.PulseNumber + r.NextPulseDelta`,
`s.PrevPulseDelta = r.NextPulseDelta`, `s.NextPulseDelta = 0` (so `s.IsExpectedPulse()`
holds), `PulseEntropy` and `Timestamp` zero, and `PulseEpoch` equal to
`EphemeralPulseEpoch` when `r` is of ephemeral origin and zero otherwise. -/
theorem createNextExpected_fields (r : Data) (hne : r.IsExpectedPulse = false)
    (hs : r.successorNumber.IsTimePulse = true) :
    ∃ s, r.CreateNextExpected = .ok s ∧
      s.PulseNumber.val = r.PulseNumber.val + r.NextPulseDelta.val ∧
      s.PrevPulseDelta = r.NextPulseDelta ∧
      s.NextPulseDelta = 0 ∧
      s.IsExpectedPulse = true ∧
      s.PulseEntropy = 0 ∧
      s.Timestamp = 0 ∧
      s.PulseEpoch = (if r.IsFromEphemeral then EphemeralPulseEpoch else 0) := by
  have hnx := Data.getNextPulseNumber_of_not_expected r hne
  refine ⟨_, Data.createNextExpected_eq r _ hnx, Data.successorNumber_val r hs, rfl, rfl,
    ?_, rfl, rfl, rfl⟩
  show (r.successorNumber.IsTimePulse && decide ((0 : Uint16) = 0)) = true
  rw [hs]
  rfl

/-- C6 at `pulsarPulse`: the expected pulse 70010 keeps a zero epoch. -/
theorem createNextExpected_fields_witness :
    pulsarPulse.IsExpectedPulse = false ∧
      pulsarPulse.successorNumber.IsTimePulse = true ∧
      ∃ s, pulsarPulse.CreateNextExpected = .ok s ∧
        s.PulseNumber.val = pulsarPulse.PulseNumber.val + pulsarPulse.NextPulseDelta.val ∧
        s.PrevPulseDelta = pulsarPulse.NextPulseDelta ∧
        s.NextPulseDelta = 0 ∧
        s.IsExpectedPulse = true ∧
        s.PulseEntropy = 0 ∧
        s.Timestamp = 0 ∧
        s.PulseEpoch = (if pulsarPulse.IsFromEphemeral then EphemeralPulseEpoch else 0) :=
  ⟨by decide, by decide,
    createNextExpected_fields pulsarPulse (by decide) (by decide)⟩

/-- C6 as stated fails at an ephemeral pulse: `ephemeralPulse` is not expected and its
successor number 70005 is a time pulse, and the pulse `CreateNextExpected` returns carries
the epoch `EphemeralPulseEpoch`, which is not zero. -/
theorem createNextExpected_ephemeral_epoch :
    ephemeralPulse.IsExpectedPulse = false ∧
      ephemeralPulse.successorNumber.IsTimePulse = true ∧
      ephemeralPulse.CreateNextExpected = .ok ephemeralExpected ∧
      ephemeralExpected.PulseEpoch = EphemeralPulseEpoch ∧
      ephemeralExpected.PulseEpoch ≠ 0 :=
  ⟨by decide, by decide, rfl, by decide, by decide⟩

/-- No pulse that `CreateNextExpected` returns passes `IsValidExpectedPulseData`: the
constructor stores the non-zero `NextPulseDelta` of its receiver as `PrevPulseDelta`, and
the predicate rejects a non-zero `PrevPulseDelta`. -/
theorem Data.createNextExpected_not_validExpected (r s : Data)
    (h : r.CreateNextExpected = .ok s) : s.IsValidExpectedPulseData = false := by
  unfold Data.CreateNextExpected at h
  split at h
  · cases h
  · rename_i pn hnx
    obtain ⟨hne, hpn⟩ := Data.getNextPulseNumber_ok_inv r pn hnx
    have hprev : s.PrevPulseDelta = r.NextPulseDelta := by
      split at h <;> (injection h with h; subst h; rfl)
    have hnum : s.PulseNumber = r.successorNumber := by
      rw [← hpn]
      split at h <;> (injection h with h; subst h; rfl)
    cases hv : s.IsValidExpectedPulseData with
    | false => rfl
    | true =>
      obtain ⟨hst, -, h0⟩ := (Data.isValidExpectedPulseData_iff s).1 hv
      rw [hprev] at h0
      have hsame : r.successorNumber = r.PulseNumber := by
        apply Fin.ext
        show (r.PulseNumber.val + r.NextPulseDelta.val) % 4294967296 = r.PulseNumber.val
        rw [h0]
        exact Nat.mod_eq_of_lt r.PulseNumber.isLt
      rw [hnum, hsame] at hst
      simp [Data.IsExpectedPulse, hst, h0] at hne

/-- C7 at the pulses the code builds: `pulsarPulse` and `ephemeralPulse2` pass
`IsValidPulseData` and have a successor in range, and `IsValidExpectedPulseData` returns
false on the pulse `CreateNextExpected` gives each of them. -/
theorem createNextExpected_rejected :
    pulsarPulse.IsValidPulseData = true ∧ pulsarPulse.successorNumber.IsTimePulse = true ∧
      pulsarPulse.CreateNextExpected.map Data.IsValidExpectedPulseData = .ok false ∧
      ephemeralPulse2.IsValidPulseData = true ∧
      ephemeralPulse2.successorNumber.IsTimePulse = true ∧
      ephemeralPulse2.CreateNextExpected.map Data.IsValidExpectedPulseData = .ok false :=
  ⟨by decide, by decide, rfl, by decide, by decide, rfl⟩

/-! ## What the validity predicates reject -/

theorem Data.isValidPulsarData_of_invalid (n : Data) (h : n.IsValidPulseData = false) :
    n.IsValidPulsarData = false := by
  unfold Data.IsValidPulsarData
  rw [h]
  split <;> rfl

theorem Data.isValidEphemeralData_of_invalid (n : Data) (h : n.IsValidPulseData = false) :
    n.IsValidEphemeralData = false := by
  unfold Data.IsValidEphemeralData
  rw [h]
  split <;> rfl

/-- The call of `IsValidNext` returns for every receiver and every candidate: the next pulse
number is asked of a receiver that is not expected only. -/
theorem Data.isValidNext_returns (r n : Data) : ∃ b, r.IsValidNext n = .ok b := by
  rcases Data.getNextPulseNumber_cases r with ⟨-, hnx⟩ | ⟨hex, -⟩
  · exact ⟨_, Data.isValidNext_eq r n _ hnx⟩
  · refine ⟨false, ?_⟩
    unfold Data.IsValidNext
    rw [if_pos hex]

/-- On a candidate that `IsValidPulseData` rejects, `IsValidNext` returns false, whatever
the receiver. -/
theorem Data.isValidNext_of_invalid (r n : Data) (h : n.IsValidPulseData = false) :
    r.IsValidNext n = .ok false := by
  have h1 := Data.isValidPulsarData_of_invalid n h
  have h2 := Data.isValidEphemeralData_of_invalid n h
  rcases Data.getNextPulseNumber_cases r with ⟨-, hnx⟩ | ⟨hex, -⟩
  · rw [Data.isValidNext_eq r n _ hnx, h, h1, h2]
    simp
  · unfold Data.IsValidNext
    rw [if_pos hex]

/-- An expected pulse is rejected by `IsValidPulseData`. -/
theorem Data.isValidPulseData_of_expected (d : Data) (h : d.IsExpectedPulse = true) :
    d.IsValidPulseData = false := by
  unfold Data.IsExpectedPulse at h
  rw [Bool.and_eq_true, decide_eq_true_eq] at h
  cases hv : d.IsValidPulseData with
  | false => rfl
  | true => exact absurd h.2 ((Data.isValidPulseData_iff d).1 hv).2.2

/-- C8: an expected pulse is never accepted as final pulse data.  For every pulse `d` with
`d.IsExpectedPulse()`, `IsValidPulseData`, `IsValidPulsarData` and `IsValidEphemeralData`
are false on `d`, `r.IsValidNext(d)` returns false for every pulse `r`, and
`d.IsValidNext(x)` and `x.IsValidPrev(d)` return false for every pulse `x`. -/
theorem expected_never_final (d r x : Data) (h : d.IsExpectedPulse = true) :
    d.IsValidPulseData = false ∧ d.IsValidPulsarData = false ∧
      d.IsValidEphemeralData = false ∧
      r.IsValidNext d = .ok false ∧
      d.IsValidNext x = .ok false ∧ x.IsValidPrev d = .ok false := by
  have hv := Data.isValidPulseData_of_expected d h
  refine ⟨hv, Data.isValidPulsarData_of_invalid d hv, Data.isValidEphemeralData_of_invalid d hv,
    Data.isValidNext_of_invalid r d hv, ?_, ?_⟩
  · unfold Data.IsValidNext
    rw [if_pos h]
  · unfold Data.IsValidPrev
    rw [if_pos h]
    split <;> rfl

/-- C8 at `expectedPulse`, with `pulsarPulse` as the other pulse: the next number 70010 of
`pulsarPulse` and its delta 10 are those of `expectedPulse`, which is rejected all the
same. -/
theorem expected_never_final_witness :
    expectedPulse.IsExpectedPulse = true ∧
      pulsarPulse.GetNextPulseNumber = .ok expectedPulse.PulseNumber ∧
      pulsarPulse.NextPulseDelta = expectedPulse.PrevPulseDelta ∧
      expectedPulse.IsValidPulseData = false ∧
      expectedPulse.IsValidPulsarData = false ∧
      expectedPulse.IsValidEphemeralData = false ∧
      pulsarPulse.IsValidNext expectedPulse = .ok false ∧
      expectedPulse.IsValidNext pulsarPulse = .ok false ∧
      pulsarPulse.IsValidPrev expectedPulse = .ok false :=
  ⟨by decide, rfl, by decide,
    expected_never_final expectedPulse pulsarPulse pulsarPulse (by decide)⟩

/-- A pulse with the number zero is rejected by `IsValidPulseData`. -/
theorem Data.isValidPulseData_of_zero (d : Data) (h : d.PulseNumber = 0) :
    d.IsValidPulseData = false := by
  cases hv : d.IsValidPulseData with
  | false => rfl
  | true =>
    have ht := ((Data.isValidPulseData_iff d).1 hv).1
    rw [h] at ht
    exact absurd ht (by decide)

/-- C9: a pulse whose number is zero (unknown) is always invalid data.  For every pulse `d`
with `d.PulseNumber == 0`, whatever its other fields, `IsValidPulseData`,
`IsValidPulsarData`, `IsValidEphemeralData` and `IsValidExpectedPulseData` return false,
and `r.IsValidNext(d)` returns false for every pulse `r`. -/
theorem zero_number_invalid (d r : Data) (h : d.PulseNumber = 0) :
    d.IsValidPulseData = false ∧ d.IsValidPulsarData = false ∧
      d.IsValidEphemeralData = false ∧ d.IsValidExpectedPulseData = false ∧
      r.IsValidNext d = .ok false := by
  have hv := Data.isValidPulseData_of_zero d h
  refine ⟨hv, Data.isValidPulsarData_of_invalid d hv, Data.isValidEphemeralData_of_invalid d hv,
    ?_, Data.isValidNext_of_invalid r d hv⟩
  cases hx : d.IsValidExpectedPulseData with
  | false => rfl
  | true =>
    have ht := ((Data.isValidExpectedPulseData_iff d).1 hx).1
    rw [h] at ht
    exact absurd ht (by decide)

/-- C9 at `unknownPulse`, whose other fields are those of a valid pulsar pulse, with
`ephemeralPulse` as the receiver of `IsValidNext`. -/
theorem zero_number_invalid_witness :
    unknownPulse.PulseNumber = 0 ∧
      ({ unknownPulse with PulseNumber := 70000 } : Data).IsValidPulsarData = true ∧
      unknownPulse.IsValidPulseData = false ∧
      unknownPulse.IsValidPulsarData = false ∧
      unknownPulse.IsValidEphemeralData = false ∧
      unknownPulse.IsValidExpectedPulseData = false ∧
      ephemeralPulse.IsValidNext unknownPulse = .ok false :=
  ⟨rfl, by decide, zero_number_invalid unknownPulse ephemeralPulse rfl⟩

/-! ## The epochs the validity predicates accept -/

/-- C10: for every pulse `d` accepted by `IsValidPulseData` or by
`IsValidExpectedPulseData`, `d.PulseEpoch` is zero (unknown), a time-pulse number, or the
ephemeral epoch `EphemeralPulseEpoch`; no other epoch value is accepted: a pulse whose
epoch is none of the three is rejected by both predicates. -/
theorem accepted_epoch (d : Data) :
    ((d.IsValidPulseData = true ∨ d.IsValidExpectedPulseData = true) →
        d.PulseEpoch = 0 ∨ (OfUint32 d.PulseEpoch).IsTimePulse = true ∨
          d.PulseEpoch = EphemeralPulseEpoch) ∧
      (d.PulseEpoch ≠ 0 → (OfUint32 d.PulseEpoch).IsTimePulse = false →
        d.PulseEpoch ≠ EphemeralPulseEpoch →
        d.IsValidPulseData = false ∧ d.IsValidExpectedPulseData = false) := by
  have hacc : (OfUint32 d.PulseEpoch).IsSpecialOrTimePulse = true →
      d.PulseEpoch = 0 ∨ (OfUint32 d.PulseEpoch).IsTimePulse = true ∨
        d.PulseEpoch = EphemeralPulseEpoch := by
    intro he
    rcases (Number.isSpecialOrTimePulse_iff _).1 he with h0 | h1 | ht
    · exact Or.inl h0
    · exact Or.inr (Or.inr h1)
    · exact Or.inr (Or.inl ht)
  constructor
  · rintro (h | h)
    · exact hacc ((Data.isValidPulseData_iff d).1 h).2.1
    · exact hacc ((Data.isValidExpectedPulseData_iff d).1 h).2.1
  · intro h0 ht h1
    have hrej : (OfUint32 d.PulseEpoch).IsSpecialOrTimePulse = false := by
      cases he : (OfUint32 d.PulseEpoch).IsSpecialOrTimePulse with
      | false => rfl
      | true =>
        rcases hacc he with h | h | h
        · exact absurd h h0
        · rw [ht] at h
          cases h
        · exact absurd h h1
    constructor
    · cases hv : d.IsValidPulseData with
      | false => rfl
      | true =>
        rw [((Data.isValidPulseData_iff d).1 hv).2.1] at hrej
        cases hrej
    · cases hv : d.IsValidExpectedPulseData with
      | false => rfl
      | true =>
        rw [((Data.isValidExpectedPulseData_iff d).1 hv).2.1] at hrej
        cases hrej

/-- C10 at `pulsarPulse`, whose epoch 70000 is a time-pulse number, and at
`specialEpochPulse`, whose epoch 200 is none of the three and which is rejected. -/
theorem accepted_epoch_witness :
    pulsarPulse.IsValidPulseData = true ∧
      (pulsarPulse.PulseEpoch = 0 ∨ (OfUint32 pulsarPulse.PulseEpoch).IsTimePulse = true ∨
        pulsarPulse.PulseEpoch = EphemeralPulseEpoch) ∧
      specialEpochPulse.PulseEpoch ≠ 0 ∧
      (OfUint32 specialEpochPulse.PulseEpoch).IsTimePulse = false ∧
      specialEpochPulse.PulseEpoch ≠ EphemeralPulseEpoch ∧
      specialEpochPulse.IsValidPulseData = false ∧
      specialEpochPulse.IsValidExpectedPulseData = false :=
  ⟨by decide, (accepted_epoch pulsarPulse).1 (Or.inl (by decide)),
    by decide, by decide, by decide,
    (accepted_epoch specialEpochPulse).2 (by decide) (by decide) (by decide)⟩

/-! ## Chains of pulses -/

/-- The test of `IsValidPrev` once the candidate is known to have `nx` as next number and
the receiver is not a first pulse. -/
theorem Data.isValidPrev_eq (r p : Data) (nx : Number) (hfirst : r.IsFirstPulse = false)
    (h : p.GetNextPulseNumber = .ok nx) :
    r.IsValidPrev p =
      .ok (if nx ≠ r.PulseNumber then false
        else if p.NextPulseDelta ≠ r.PrevPulseDelta then false
        else if r.IsFromPulsar then p.IsValidPulsarData
        else if r.IsFromEphemeral then p.IsValidEphemeralData
        else p.IsValidPulseData) := by
  have hne : p.IsExpectedPulse = false := (Data.getNextPulseNumber_ok_inv p nx h).1
  unfold Data.IsValidPrev
  rw [h]
  simp only [hne, hfirst, Bool.false_eq_true, if_false]
  split_ifs <;> rfl

/-- C28: `IsValidNext` and `IsValidPrev` agree along a valid chain: for all pulses `r` and
`n` where `r` is valid pulsar data or valid ephemeral data, if `r.IsValidNext(n)` returns
true then `n.IsValidPrev(r)` returns true. -/
theorem isValidNext_isValidPrev (r n : Data)
    (hr : r.IsValidPulsarData = true ∨ r.IsValidEphemeralData = true)
    (h : r.IsValidNext n = .ok true) : n.IsValidPrev r = .ok true := by
  obtain ⟨-, hnx, hdel, hlin⟩ := Data.isValidNext_true_inv r n h
  have hrv : r.IsValidPulseData = true := by
    rcases hr with hr | hr
    · exact ((Data.isValidPulsarData_iff r).1 hr).2
    · exact ((Data.isValidEphemeralData_iff r).1 hr).2
  obtain ⟨ht, -, hd⟩ := (Data.isValidPulseData_iff r).1 hrv
  have hnt := ((Data.isValidPulseData_iff n).1 (Data.isValidPulseData_of_lineage r n hlin)).1
  have hfirst : n.IsFirstPulse = false := by
    unfold Data.IsFirstPulse
    rw [← hdel]
    simp [hd]
  rw [Data.isValidPrev_eq n r _ hfirst hnx]
  simp only [ne_eq, not_true_eq_false, if_false, hdel]
  rcases hr with hr | hr
  · have hp : r.IsFromPulsar = true := by
      unfold Data.IsFromPulsar
      rw [ht, ((Data.isValidPulsarData_iff r).1 hr).1]
      rfl
    rw [hp] at hlin
    have hn : n.IsValidPulsarData = true := by simpa using hlin
    have hnp : n.IsFromPulsar = true := by
      unfold Data.IsFromPulsar
      rw [hnt, ((Data.isValidPulsarData_iff n).1 hn).1]
      rfl
    rw [hnp, hr]
    rfl
  · have hepoch := ((Data.isValidEphemeralData_iff r).1 hr).1
    have hep : r.IsFromEphemeral = true := by
      unfold Data.IsFromEphemeral
      rw [ht, hepoch]
      rfl
    rw [Data.isFromPulsar_of_isFromEphemeral r hep, hep] at hlin
    have hn : n.IsValidEphemeralData = true := by simpa using hlin
    have hnep : n.IsFromEphemeral = true := by
      unfold Data.IsFromEphemeral
      rw [hnt, ((Data.isValidEphemeralData_iff n).1 hn).1]
      rfl
    rw [Data.isFromPulsar_of_isFromEphemeral n hnep, hnep, hr]
    rfl

/-- C28 at `pulsarPulse` and its successor. -/
theorem isValidNext_isValidPrev_witness :
    pulsarPulse.IsValidPulsarData = true ∧
      pulsarPulse.IsValidNext pulsarSuccessor = .ok true ∧
      pulsarSuccessor.IsValidPrev pulsarPulse = .ok true :=
  ⟨by decide, rfl, isValidNext_isValidPrev pulsarPulse pulsarSuccessor (Or.inl (by decide)) rfl⟩

/-- C29: the successor points back to its predecessor and keeps its lineage.  For every
pulse `p` accepted by `IsValidPulseData` whose successor number is a time pulse and every
entropy source `e`, `p.CreateNextPulse(e)` returns a pulse `n` that is not a first pulse,
with `n.GetPrevPulseNumber() == p.PulseNumber` and `p.GetNextPulseNumber() == n.PulseNumber`;
`n.IsFromEphemeral()` when `p.IsFromEphemeral()` and `n.IsFromPulsar()` otherwise; and
`IsFromPulsar` and `IsFromEphemeral` never hold together for any pulse `d`. -/
theorem createNextPulse_lineage (env : Env) (p d : Data) (e : EntropyFunc)
    (hv : p.IsValidPulseData = true) (hs : p.successorNumber.IsTimePulse = true) :
    (∃ n, p.CreateNextPulse env e = .ok n ∧ n.IsFirstPulse = false ∧
        n.GetPrevPulseNumber = .ok p.PulseNumber ∧
        p.GetNextPulseNumber = .ok n.PulseNumber ∧
        (p.IsFromEphemeral = true → n.IsFromEphemeral = true) ∧
        (p.IsFromEphemeral = false → n.IsFromPulsar = true)) ∧
      ¬ (d.IsFromPulsar = true ∧ d.IsFromEphemeral = true) := by
  obtain ⟨-, -, hd⟩ := (Data.isValidPulseData_iff p).1 hv
  have hnx := Data.getNextPulseNumber_ok p hd
  have hprev : (Except.ok (p.successorNumber.Prev p.NextPulseDelta) : Except String Number) =
      .ok p.PulseNumber := congrArg Except.ok (Data.successorNumber_prev p)
  have hdec : decide (p.NextPulseDelta = 0) = false := by simp [hd]
  constructor
  · by_cases hep : p.IsFromEphemeral = true
    · refine ⟨{ newEphemeralData env p.successorNumber with
          PrevPulseDelta := p.NextPulseDelta }, ?_, ?_, ?_, hnx, ?_, ?_⟩
      · unfold Data.CreateNextPulse
        rw [if_pos hep]
        exact Data.createNextEphemeralPulse_eq env p _ hnx
      · show (p.successorNumber.IsTimePulse && decide (p.NextPulseDelta = 0)) = false
        rw [hdec, Bool.and_false]
      · show (if (p.successorNumber.IsTimePulse && decide (p.NextPulseDelta = 0)) = true
          then Except.error "illegal state"
          else Except.ok (p.successorNumber.Prev p.NextPulseDelta)) = _
        rw [hdec, Bool.and_false]
        exact hprev
      · intro _
        show (p.successorNumber.IsTimePulse &&
          decide (EphemeralPulseEpoch = EphemeralPulseEpoch)) = true
        rw [hs]
        rfl
      · intro h
        rw [hep] at h
        cases h
    · have hep2 : p.IsFromEphemeral = false := by simpa using hep
      refine ⟨{ PulseNumber := p.successorNumber
                PulseEpoch := p.successorNumber.AsUint32
                PulseEntropy := e ()
                Timestamp := env.unixNow
                NextPulseDelta := p.NextPulseDelta
                PrevPulseDelta := p.NextPulseDelta }, ?_, ?_, ?_, hnx, ?_, ?_⟩
      · unfold Data.CreateNextPulse
        rw [if_neg hep]
        exact Data.createNextPulsarPulse_eq env p _ e _ hnx hd
      · show (p.successorNumber.IsTimePulse && decide (p.NextPulseDelta = 0)) = false
        rw [hdec, Bool.and_false]
      · show (if (p.successorNumber.IsTimePulse && decide (p.NextPulseDelta = 0)) = true
          then Except.error "illegal state"
          else Except.ok (p.successorNumber.Prev p.NextPulseDelta)) = _
        rw [hdec, Bool.and_false]
        exact hprev
      · intro h
        rw [hep2] at h
        cases h
      · intro _
        show (p.successorNumber.IsTimePulse &&
          (OfUint32 p.successorNumber.AsUint32).IsTimePulse) = true
        rw [OfUint32_asUint32, hs]
        rfl
  · rintro ⟨h1, h2⟩
    rw [Data.isFromPulsar_of_isFromEphemeral d h2] at h1
    cases h1

/-- C29 at `ephemeralPulse`: its successor 70005 points back to 70000 and is of ephemeral
origin. -/
theorem createNextPulse_lineage_witness :
    ephemeralPulse.IsValidPulseData = true ∧
      ephemeralPulse.successorNumber.IsTimePulse = true ∧
      ephemeralPulse.CreateNextPulse sampleEnv sampleEntropy = .ok ephemeralSuccessor ∧
      ephemeralSuccessor.GetPrevPulseNumber = .ok ephemeralPulse.PulseNumber ∧
      (∃ n, ephemeralPulse.CreateNextPulse sampleEnv sampleEntropy = .ok n ∧
        n.IsFirstPulse = false ∧
        n.GetPrevPulseNumber = .ok ephemeralPulse.PulseNumber ∧
        ephemeralPulse.GetNextPulseNumber = .ok n.PulseNumber ∧
        (ephemeralPulse.IsFromEphemeral = true → n.IsFromEphemeral = true) ∧
        (ephemeralPulse.IsFromEphemeral = false → n.IsFromPulsar = true)) :=
  ⟨by decide, by decide, rfl, rfl,
    (createNextPulse_lineage sampleEnv ephemeralPulse pulsarPulse sampleEntropy (by decide)
      (by decide)).1⟩

/-! ## Checks that panic -/

theorem Data.ensurePulseData_ok_iff (d : Data) :
    d.EnsurePulseData = .ok () ↔ d.IsValidPulseData = true := by
  unfold Data.EnsurePulseData Data.IsValidPulseData
  split_ifs <;> simp

theorem Data.ensurePulsarData_ok_iff (d : Data) :
    d.EnsurePulsarData = .ok () ↔ d.IsValidPulsarData = true := by
  unfold Data.EnsurePulsarData Data.IsValidPulsarData
  split_ifs
  · simp
  · exact Data.ensurePulseData_ok_iff d

theorem Data.ensureEphemeralData_ok_iff (d : Data) :
    d.EnsureEphemeralData = .ok () ↔ d.IsValidEphemeralData = true := by
  unfold Data.EnsureEphemeralData Data.IsValidEphemeralData
  split_ifs
  · simp
  · exact Data.ensurePulseData_ok_iff d

/-- A check either returns or panics. -/
theorem panics_iff_not_ok (x : Except String Unit) :
    (∃ msg, x = .error msg) ↔ ¬ x = .ok () := by
  cases x with
  | error msg => simp
  | ok u => simp

/-- C30: the panicking checks and the boolean checks are the same predicates.  For every
pulse `d`, `EnsurePulseData` panics exactly when `IsValidPulseData` is false,
`EnsurePulsarData` panics exactly when `IsValidPulsarData` is false, and
`EnsureEphemeralData` panics exactly when `IsValidEphemeralData` is false; likewise
`GetNextPulseNumber` panics for every expected pulse and `GetPrevPulseNumber` for every
first pulse. -/
theorem ensure_matches_isValid (d : Data) :
    ((∃ msg, d.EnsurePulseData = .error msg) ↔ d.IsValidPulseData = false) ∧
      ((∃ msg, d.EnsurePulsarData = .error msg) ↔ d.IsValidPulsarData = false) ∧
      ((∃ msg, d.EnsureEphemeralData = .error msg) ↔ d.IsValidEphemeralData = false) ∧
      (d.IsExpectedPulse = true → d.GetNextPulseNumber = .error "illegal state") ∧
      (d.IsFirstPulse = true → d.GetPrevPulseNumber = .error "illegal state") := by
  refine ⟨?_, ?_, ?_, ?_, ?_⟩
  · rw [panics_iff_not_ok, Data.ensurePulseData_ok_iff]
    simp
  · rw [panics_iff_not_ok, Data.ensurePulsarData_ok_iff]
    simp
  · rw [panics_iff_not_ok, Data.ensureEphemeralData_ok_iff]
    simp
  · intro h
    unfold Data.GetNextPulseNumber
    rw [if_pos h]
  · intro h
    unfold Data.GetPrevPulseNumber
    rw [if_pos h]

/-- C30 at `expectedPulse`, which is expected, and at the first ephemeral pulse, which is a
first pulse. -/
theorem ensure_matches_isValid_witness :
    expectedPulse.IsExpectedPulse = true ∧
      expectedPulse.GetNextPulseNumber = .error "illegal state" ∧
      expectedPulse.EnsurePulseData = .error "next delta can\x27t be zero" ∧
      (NewFirstEphemeralData sampleEnv).IsFirstPulse = true ∧
      (NewFirstEphemeralData sampleEnv).GetPrevPulseNumber = .error "illegal state" :=
  ⟨by decide,
    (ensure_matches_isValid expectedPulse).2.2.2.1 (by decide),
    rfl, by decide,
    (ensure_matches_isValid (NewFirstEphemeralData sampleEnv)).2.2.2.2 (by decide)⟩

end Pulse

/-! # Phantom nodes: the ascent latch -/

namespace Purgatory

theorem NodePhantom.ascend_hasAscent (env : Env) (p : NodePhantom) (nsp : StaticProfile)
    (rank : Rank) : (p.ascend env nsp rank).2.1.hasAscent = true := by
  unfold NodePhantom.ascend
  by_cases h : p.hasAscent = true
  · simp [h]
  · simp [h]

theorem NodePhantom.ascend_figment (env : Env) (p : NodePhantom) (nsp : StaticProfile)
    (rank : Rank) : (p.ascend env nsp rank).2.1.figment = p.figment := by
  unfold NodePhantom.ascend
  by_cases h : p.hasAscent = true <;> simp [h]

/-- A call of `ascend` on a phantom that has ascended returns false, changes nothing and
calls nothing. -/
theorem NodePhantom.ascend_of_hasAscent (env : Env) (p : NodePhantom) (nsp : StaticProfile)
    (rank : Rank) (h : p.hasAscent = true) : p.ascend env nsp rank = (false, p, []) := by
  unfold NodePhantom.ascend
  simp [h]

/-- The first call of `ascend` on a phantom that has not ascended. -/
theorem NodePhantom.ascend_first (env : Env) (p : NodePhantom) (nsp : StaticProfile)
    (rank : Rank) (h : p.hasAscent = false) :
    p.ascend env nsp rank =
      (true, { p with hasAscent := true, recorder := env.afterPlayback p.recorder },
        [Effect.ascendFromPurgatory p.nodeID nsp rank, Effect.playback p.nodeID p.recorder]) := by
  unfold NodePhantom.ascend
  simp [h]

/-- Calls of `ascend` on a phantom that has ascended all return false and change nothing. -/
theorem NodePhantom.ascendAll_of_hasAscent (env : Env) (calls : List (StaticProfile × Rank)) :
    ∀ p : NodePhantom, p.hasAscent = true →
      p.ascendAll env calls = (List.replicate calls.length false, p, []) := by
  induction calls with
  | nil => intro p _; rfl
  | cons c rest ih =>
    intro p h
    unfold NodePhantom.ascendAll
    simp only [NodePhantom.ascend_of_hasAscent env p c.1 c.2 h, ih p h, List.length_cons,
      List.replicate_succ, List.append_nil]

/-- The end of `dispatchAnnouncement` leaves the figment as it is. -/
theorem NodePhantom.tryAscent_figment (env : Env) (p : NodePhantom) (hasUpdate : Bool)
    (effects : List Effect) :
    (NodePhantom.tryAscent env p hasUpdate effects).state.figment = p.figment := by
  unfold NodePhantom.tryAscent
  split
  · rfl
  · split_ifs <;> first | rfl | exact NodePhantom.ascend_figment env p _ _

/-- The end of `dispatchAnnouncement` keeps a phantom ascended. -/
theorem NodePhantom.tryAscent_hasAscent (env : Env) (p : NodePhantom) (hasUpdate : Bool)
    (effects : List Effect) (h : p.hasAscent = true) :
    (NodePhantom.tryAscent env p hasUpdate effects).state.hasAscent = true := by
  unfold NodePhantom.tryAscent
  split
  · exact h
  · split_ifs <;> first | exact h | exact NodePhantom.ascend_hasAscent env p _ _

/-- A call of `dispatchAnnouncement` keeps a phantom ascended, also when it panics. -/
theorem NodePhantom.dispatchAnnouncement_hasAscent (env : Env) (p : NodePhantom)
    (a : Announcement) (h : p.hasAscent = true) :
    (p.dispatchAnnouncement env a).state.hasAscent = true := by
  unfold NodePhantom.dispatchAnnouncement
  simp only []
  split
  · exact h
  · exact NodePhantom.tryAscent_hasAscent env _ _ _ h

/-- No operation of a phantom resets `hasAscent`. -/
theorem NodePhantom.perform_hasAscent (env : Env) (p : NodePhantom) (op : Operation)
    (h : p.hasAscent = true) : (p.perform env op).hasAscent = true := by
  cases op with
  | setPacketSent pt => exact h
  | setPacketReceived pt => exact h
  | postponePacket packet => exact h
  | dispatchMemberPacket packet triggerErr =>
    cases triggerErr with
    | none => exact h
    | some err => exact h
  | dispatchAnnouncement a => exact NodePhantom.dispatchAnnouncement_hasAscent env p a h
  | ascend nsp rank => exact NodePhantom.ascend_hasAscent env p nsp rank

/-- C11: `hasAscent` is a one-way latch.  For a phantom that has not ascended and any
sequence of N >= 1 calls of `ascend`, exactly the first call returns true, and the effects
of the whole sequence are one call of `purgatory.ascendFromPurgatory` and one playback of
the recorder; each of the other N-1 calls returns false and changes nothing; and no
operation of `NodePhantom` resets `hasAscent` from true to false. -/
theorem ascend_latch (env : Env) (p q : NodePhantom) (c : StaticProfile × Rank)
    (rest : List (StaticProfile × Rank)) (op : Operation) (h : p.hasAscent = false) :
    (p.ascendAll env (c :: rest)).1 = true :: List.replicate rest.length false ∧
      (p.ascendAll env (c :: rest)).2.2 =
        [Effect.ascendFromPurgatory p.nodeID c.1 c.2, Effect.playback p.nodeID p.recorder] ∧
      (p.ascendAll env (c :: rest)).2.1 = (p.ascend env c.1 c.2).2.1 ∧
      (p.ascend env c.1 c.2).2.1.hasAscent = true ∧
      (q.hasAscent = true → ∀ nsp rank, q.ascend env nsp rank = (false, q, [])) ∧
      (q.hasAscent = true → (q.perform env op).hasAscent = true) := by
  have hrest := NodePhantom.ascendAll_of_hasAscent env rest _
    (NodePhantom.ascend_hasAscent env p c.1 c.2)
  have hfirst := NodePhantom.ascend_first env p c.1 c.2 h
  refine ⟨?_, ?_, ?_, NodePhantom.ascend_hasAscent env p c.1 c.2, ?_, ?_⟩
  · show (p.ascend env c.1 c.2).1 ::
      (NodePhantom.ascendAll env (p.ascend env c.1 c.2).2.1 rest).1 = _
    rw [hrest, hfirst]
  · show (p.ascend env c.1 c.2).2.2 ++
      (NodePhantom.ascendAll env (p.ascend env c.1 c.2).2.1 rest).2.2 = _
    rw [hrest, hfirst]
    rfl
  · show (NodePhantom.ascendAll env (p.ascend env c.1 c.2).2.1 rest).2.1 = _
    rw [hrest]
  · intro hq nsp rank
    exact NodePhantom.ascend_of_hasAscent env q nsp rank hq
  · exact NodePhantom.perform_hasAscent env q op

/-- C11 at a phantom with two recorded packets and three calls of `ascend`: the results are
true, false, false, the packets are played back once, and a later packet does not reset the
latch. -/
theorem ascend_latch_witness :
    waitingPhantom.hasAscent = false ∧
      (waitingPhantom.ascendAll sampleEnv
          [(fullProfile, 3), (fullProfile, 3), (briefProfile, 3)]).1 =
        [true, false, false] ∧
      (waitingPhantom.ascendAll sampleEnv
          [(fullProfile, 3), (fullProfile, 3), (briefProfile, 3)]).2.2 =
        [Effect.ascendFromPurgatory 5 fullProfile 3,
          Effect.playback 5 waitingPhantom.recorder] ∧
      (fullPhantom.perform sampleEnv (Operation.postponePacket samplePacket)).hasAscent = true :=
  ⟨rfl,
    (ascend_latch sampleEnv waitingPhantom fullPhantom (fullProfile, 3)
      [(fullProfile, 3), (briefProfile, 3)] (Operation.postponePacket samplePacket) rfl).1,
    (ascend_latch sampleEnv waitingPhantom fullPhantom (fullProfile, 3)
      [(fullProfile, 3), (briefProfile, 3)] (Operation.postponePacket samplePacket) rfl).2.1,
    (ascend_latch sampleEnv waitingPhantom fullPhantom (fullProfile, 3)
      [(fullProfile, 3), (briefProfile, 3)] (Operation.postponePacket samplePacket) rfl).2.2.2.2.2
      rfl⟩

/-! # Phantom nodes: announcements -/

/-- A call of `updateProfile` that reports no update leaves the figment as it is. -/
theorem figment.updateProfile_not_updated (env : Env) (f : figment) (rank : Rank)
    (profile : Option StaticProfile) (h : (f.updateProfile env rank profile).2.1 = false) :
    (f.updateProfile env rank profile).1 = f := by
  obtain ⟨ph, an, rk, prof⟩ := f
  by_cases hr : rank = rk
  · subst hr
    cases profile with
    | none => simp [figment.updateProfile]
    | some pr =>
      cases prof with
      | none => simp [figment.updateProfile] at h
      | some sp =>
        obtain ⟨pb, pe⟩ := pr
        obtain ⟨sb, se⟩ := sp
        cases hb : env.equalBriefProfiles ⟨sb, se⟩ ⟨pb, pe⟩ <;> cases pe <;> cases se <;>
          simp [figment.updateProfile, hb] at h ⊢
  · simp [figment.updateProfile, hr]

/-- A call of `updateProfile` that reports an update reports no mismatch and has stored the
announced profile. -/
theorem figment.updateProfile_updated (env : Env) (f : figment) (rank : Rank)
    (profile : Option StaticProfile) (h : (f.updateProfile env rank profile).2.1 = true) :
    (f.updateProfile env rank profile).2.2 = false ∧ profile.isSome = true ∧
      (f.updateProfile env rank profile).1 = { f with profile := profile } := by
  obtain ⟨ph, an, rk, prof⟩ := f
  by_cases hr : rank = rk
  · subst hr
    cases profile with
    | none => simp [figment.updateProfile] at h
    | some pr =>
      cases prof with
      | none => simp [figment.updateProfile]
      | some sp =>
        obtain ⟨pb, pe⟩ := pr
        obtain ⟨sb, se⟩ := sp
        cases hb : env.equalBriefProfiles ⟨sb, se⟩ ⟨pb, pe⟩ <;> cases pe <;> cases se <;>
          simp [figment.updateProfile, hb] at h ⊢
  · simp [figment.updateProfile, hr] at h

/-- A call of `updateProfile` that reports a mismatch leaves the figment as it is. -/
theorem figment.updateProfile_mismatched (env : Env) (f : figment) (rank : Rank)
    (profile : Option StaticProfile) (h : (f.updateProfile env rank profile).2.2 = true) :
    (f.updateProfile env rank profile).2.1 = false ∧
      (f.updateProfile env rank profile).1 = f := by
  cases hu : (f.updateProfile env rank profile).2.1 with
  | false => exact ⟨rfl, figment.updateProfile_not_updated env f rank profile hu⟩
  | true =>
    have := (figment.updateProfile_updated env f rank profile hu).1
    rw [h] at this
    cases this

/-- A figment without a profile reports no mismatch for its own rank. -/
theorem figment.updateProfile_no_profile (env : Env) (f : figment)
    (profile : Option StaticProfile) (h : f.profile = none) :
    (f.updateProfile env f.rank profile).2.2 = false := by
  unfold figment.updateProfile
  simp only [ne_eq, not_true_eq_false, if_false]
  cases profile with
  | none => rfl
  | some pr => simp only [h]

/-- The call `updateProfile` never touches the phantom, the rank and the announcer. -/
theorem figment.updateProfile_keeps (env : Env) (f : figment) (rank : Rank)
    (profile : Option StaticProfile) :
    (f.updateProfile env rank profile).1.phantom = f.phantom ∧
      (f.updateProfile env rank profile).1.rank = f.rank ∧
      (f.updateProfile env rank profile).1.announcerID = f.announcerID := by
  cases hu : (f.updateProfile env rank profile).2.1 with
  | false =>
    rw [figment.updateProfile_not_updated env f rank profile hu]
    exact ⟨rfl, rfl, rfl⟩
  | true =>
    rw [(figment.updateProfile_updated env f rank profile hu).2.2]
    exact ⟨rfl, rfl, rfl⟩

theorem figment.adopt_of_phantom (f : figment) (rank : Rank) (h : f.phantom = true) :
    f.adopt rank = f := by
  unfold figment.adopt
  simp [h]

theorem figment.adopt_phantom (f : figment) (rank : Rank) : (f.adopt rank).phantom = true := by
  unfold figment.adopt
  cases h : f.phantom <;> simp [h]

theorem figment.adopt_profile (f : figment) (rank : Rank) :
    (f.adopt rank).profile = f.profile := by
  unfold figment.adopt
  cases h : f.phantom <;> simp

theorem figment.adopt_fresh (f : figment) (rank : Rank) (h : f.phantom = false) :
    f.adopt rank = { f with phantom := true, rank := rank } := by
  unfold figment.adopt
  simp [h]

/-- The end of `dispatchAnnouncement` never panics. -/
theorem NodePhantom.tryAscent_result (env : Env) (p : NodePhantom) (hasUpdate : Bool)
    (effects : List Effect) :
    (NodePhantom.tryAscent env p hasUpdate effects).result = .ok () := by
  unfold NodePhantom.tryAscent
  split
  · rfl
  · split_ifs <;> rfl

/-- The end of `dispatchAnnouncement` only adds effects. -/
theorem NodePhantom.tryAscent_effects (env : Env) (p : NodePhantom) (hasUpdate : Bool)
    (effects : List Effect) :
    ∃ rest, (NodePhantom.tryAscent env p hasUpdate effects).effects = effects ++ rest := by
  unfold NodePhantom.tryAscent
  split
  · exact ⟨[], (List.append_nil _).symm⟩
  · split_ifs
    · exact ⟨[], (List.append_nil _).symm⟩
    · exact ⟨[], (List.append_nil _).symm⟩
    · exact ⟨_, rfl⟩
    · exact ⟨[], (List.append_nil _).symm⟩

/-- Without an update the end of `dispatchAnnouncement` does nothing. -/
theorem NodePhantom.tryAscent_no_update (env : Env) (p : NodePhantom)
    (effects : List Effect) :
    (NodePhantom.tryAscent env p false effects).state = p := by
  unfold NodePhantom.tryAscent
  split
  · rfl
  · simp

/-- After an update the end of `dispatchAnnouncement` lets every figment ascend that
may. -/
theorem NodePhantom.tryAscent_due (env : Env) (p : NodePhantom) (effects : List Effect)
    (h : p.figment.mayAscend env = true) :
    (NodePhantom.tryAscent env p true effects).state.hasAscent = true := by
  unfold figment.mayAscend at h
  unfold NodePhantom.tryAscent
  split
  · rename_i hp
    simp [hp] at h
  · rename_i prof hp
    simp only [hp, Bool.and_eq_true, Bool.not_eq_true'] at h
    simp only [Bool.not_true, Bool.false_eq_true, if_false, h.2, h.1, if_true]
    exact NodePhantom.ascend_hasAscent env p _ _

/-- The end of `dispatchAnnouncement` lets no joiner without an announcer ascend. -/
theorem NodePhantom.tryAscent_hasAscent_inv (env : Env) (p : NodePhantom) (hasUpdate : Bool)
    (effects : List Effect)
    (h : (NodePhantom.tryAscent env p hasUpdate effects).state.hasAscent = true) :
    p.hasAscent = true ∨
      (env.isJoiner p.figment.rank && ShortNodeID.IsAbsent p.figment.announcerID) = false := by
  unfold NodePhantom.tryAscent at h
  split at h
  · exact Or.inl h
  · split_ifs at h with h1 h2 h3
    · exact Or.inl h
    · exact Or.inl h
    · right
      simpa using h2
    · exact Or.inl h

theorem figment.takeAnnouncer_keeps (env : Env) (nodeID : ShortNodeID) (f : figment)
    (announcedBy : ShortNodeID) :
    (f.takeAnnouncer env nodeID announcedBy).phantom = f.phantom ∧
      (f.takeAnnouncer env nodeID announcedBy).rank = f.rank ∧
      (f.takeAnnouncer env nodeID announcedBy).profile = f.profile := by
  unfold figment.takeAnnouncer
  split <;> exact ⟨rfl, rfl, rfl⟩

theorem figment.takeAnnouncer_of_not (env : Env) (nodeID : ShortNodeID) (f : figment)
    (announcedBy : ShortNodeID) (h : f.setsAnnouncer env nodeID announcedBy = false) :
    f.takeAnnouncer env nodeID announcedBy = f := by
  unfold figment.takeAnnouncer
  simp [h]

/-- The announcer is stored once and is never absent afterwards. -/
theorem figment.takeAnnouncer_absent (env : Env) (nodeID : ShortNodeID) (f : figment)
    (announcedBy : ShortNodeID)
    (h : ShortNodeID.IsAbsent (f.takeAnnouncer env nodeID announcedBy).announcerID = true) :
    ShortNodeID.IsAbsent f.announcerID = true := by
  unfold figment.takeAnnouncer at h
  split at h
  · rename_i hs
    unfold figment.setsAnnouncer at hs
    simp only [Bool.and_eq_true, Bool.not_eq_true'] at hs
    rw [hs.1.2] at h
    cases h
  · exact h

/-- What a call of `dispatchAnnouncement` does when `updateProfile` reports a mismatch. -/
theorem NodePhantom.dispatchAnnouncement_mismatch (env : Env) (p : NodePhantom)
    (a : Announcement)
    (h : ((p.figment.adopt a.rank).updateProfile env a.rank a.profile).2.2 = true) :
    p.dispatchAnnouncement env a =
      ⟨{ p with figment := p.figment.adopt a.rank }, [],
        .error "inconsistent neighbour announcement"⟩ := by
  unfold NodePhantom.dispatchAnnouncement
  simp only [h, if_true]
  rw [(figment.updateProfile_mismatched env _ _ _ h).2]

/-- What a call of `dispatchAnnouncement` does when `updateProfile` reports no mismatch. -/
theorem NodePhantom.dispatchAnnouncement_match (env : Env) (p : NodePhantom)
    (a : Announcement)
    (h : ((p.figment.adopt a.rank).updateProfile env a.rank a.profile).2.2 = false) :
    p.dispatchAnnouncement env a =
      NodePhantom.tryAscent env
        { p with figment :=
            (figment.takeAnnouncer env p.nodeID
              ((p.figment.adopt a.rank).updateProfile env a.rank a.profile).1 a.announcedBy) }
        (((p.figment.adopt a.rank).updateProfile env a.rank a.profile).2.1 ||
          figment.setsAnnouncer env p.nodeID
            ((p.figment.adopt a.rank).updateProfile env a.rank a.profile).1 a.announcedBy)
        (if (UpdateFlags.mk (!p.figment.phantom)
              ((p.figment.adopt a.rank).updateProfile env a.rank a.profile).2.1).nonZero
          then [Effect.onNodeUpdated p.nodeID
            (UpdateFlags.mk (!p.figment.phantom)
              ((p.figment.adopt a.rank).updateProfile env a.rank a.profile).2.1)]
          else []) := by
  unfold NodePhantom.dispatchAnnouncement
  simp only [h, Bool.false_eq_true, if_false]

/-- C12: a conflicting announcement is rejected and never merged.  For a figment that was
already created, every announcement whose rank differs from the rank of the figment, or
whose profile differs in its brief part from the stored profile, or whose extension differs
from the stored extension, makes `updateProfile` report mismatched = true and makes
`dispatchAnnouncement` panic, with the phantom and its figment (rank, profile, announcer)
unchanged and without any effect: no `onNodeUpdated` and no ascension. -/
theorem conflicting_announcement_rejected (env : Env) (p : NodePhantom) (a : Announcement)
    (hcreated : p.figment.phantom = true)
    (hconflict : a.rank ≠ p.figment.rank ∨
      (∃ sp pr, p.figment.profile = some sp ∧ a.profile = some pr ∧
        env.equalBriefProfiles sp pr = false) ∨
      (∃ sp pr se e, p.figment.profile = some sp ∧ a.profile = some pr ∧
        sp.extension = some se ∧ pr.extension = some e ∧
        env.equalProfileExtensions se e = false)) :
    p.figment.updateProfile env a.rank a.profile = (p.figment, false, true) ∧
      (p.DispatchAnnouncement env a).result = .error "inconsistent neighbour announcement" ∧
      (p.DispatchAnnouncement env a).state = p ∧
      (p.DispatchAnnouncement env a).effects = [] := by
  have hup : p.figment.updateProfile env a.rank a.profile = (p.figment, false, true) := by
    by_cases hr : a.rank = p.figment.rank
    · rcases hconflict with h | ⟨sp, pr, hs, hp, hb⟩ | ⟨sp, pr, se, e, hs, hp, hse, he, hx⟩
      · exact absurd hr h
      · unfold figment.updateProfile
        simp [hr, hs, hp, hb]
      · unfold figment.updateProfile
        cases hb : env.equalBriefProfiles sp pr <;> simp [hr, hs, hp, hb, hse, he, hx]
    · unfold figment.updateProfile
      simp [hr]
  have hm : ((p.figment.adopt a.rank).updateProfile env a.rank a.profile).2.2 = true := by
    rw [figment.adopt_of_phantom _ _ hcreated, hup]
  have hd := NodePhantom.dispatchAnnouncement_mismatch env p a hm
  rw [figment.adopt_of_phantom _ _ hcreated] at hd
  refine ⟨hup, ?_, ?_, ?_⟩
  · show (p.dispatchAnnouncement env a).result = _
    rw [hd]
  · show (p.dispatchAnnouncement env a).state = _
    rw [hd]
  · show (p.dispatchAnnouncement env a).effects = _
    rw [hd]

/-- C12 at a phantom that holds a full profile: an announcement with another rank is
rejected. -/
theorem conflicting_announcement_rejected_witness :
    fullPhantom.figment.phantom = true ∧
      (4 : Rank) ≠ fullPhantom.figment.rank ∧
      fullPhantom.figment.updateProfile sampleEnv 4 (some fullProfile) =
        (fullPhantom.figment, false, true) ∧
      (fullPhantom.DispatchAnnouncement sampleEnv
          { rank := 4, profile := some fullProfile, announcedBy := 9 }).result =
        .error "inconsistent neighbour announcement" ∧
      (fullPhantom.DispatchAnnouncement sampleEnv
          { rank := 4, profile := some fullProfile, announcedBy := 9 }).state = fullPhantom ∧
      (fullPhantom.DispatchAnnouncement sampleEnv
          { rank := 4, profile := some fullProfile, announcedBy := 9 }).effects = [] :=
  ⟨rfl, by decide,
    conflicting_announcement_rejected sampleEnv fullPhantom
      { rank := 4, profile := some fullProfile, announcedBy := 9 } rfl (Or.inl (by decide))⟩

/-- Without a mismatch the effects of `dispatchAnnouncement` start with the notification
`onNodeUpdated` when a flag is set. -/
theorem NodePhantom.dispatchAnnouncement_effects (env : Env) (p : NodePhantom)
    (a : Announcement)
    (h : ((p.figment.adopt a.rank).updateProfile env a.rank a.profile).2.2 = false) :
    ∃ rest, (p.dispatchAnnouncement env a).effects =
      (if (UpdateFlags.mk (!p.figment.phantom)
            ((p.figment.adopt a.rank).updateProfile env a.rank a.profile).2.1).nonZero
        then [Effect.onNodeUpdated p.nodeID
          (UpdateFlags.mk (!p.figment.phantom)
            ((p.figment.adopt a.rank).updateProfile env a.rank a.profile).2.1)]
        else []) ++ rest := by
  rw [NodePhantom.dispatchAnnouncement_match env p a h]
  exact NodePhantom.tryAscent_effects env _ _ _

/-- What `updateProfile` returns on the rank of the figment and a profile that matches the
stored one in its brief part and, where both have one, in its extension. -/
theorem figment.updateProfile_matching (env : Env) (f : figment) (pr : StaticProfile)
    (hmatch : ∀ sp, f.profile = some sp →
      env.equalBriefProfiles sp pr = true ∧
        ∀ se e, sp.extension = some se → pr.extension = some e →
          env.equalProfileExtensions se e = true) :
    f.updateProfile env f.rank (some pr) =
      if f.profile = none ∨
          ∃ sp, f.profile = some sp ∧ sp.extension = none ∧ pr.extension.isSome = true
        then ({ f with profile := some pr }, true, false)
        else (f, false, false) := by
  obtain ⟨ph, an, rk, prof⟩ := f
  cases prof with
  | none => simp [figment.updateProfile]
  | some sp =>
    obtain ⟨hb, hx⟩ := hmatch sp rfl
    cases hpe : pr.extension with
    | none => simp [figment.updateProfile, hb, hpe]
    | some e =>
      cases hse : sp.extension with
      | none => simp [figment.updateProfile, hb, hpe, hse]
      | some se =>
        have := hx se e hse hpe
        simp [figment.updateProfile, hb, hpe, hse, this]

/-- C13, as the code has it: a matching announcement merges and can only raise
completeness.  For a figment with rank k, an announcement with rank k and a profile whose
brief part equals the stored one and whose extension, when both profiles have one, equals
the stored extension, returns mismatched = false; it returns updated = true and replaces
the stored profile exactly when the figment had no profile, or had a brief profile and the
announced profile has an extension; in every other such case the stored profile is
unchanged, so a stored full profile is never replaced.  When updated is true
`dispatchAnnouncement` reports `FlagUpdatedProfile` through `onNodeUpdated`, and the first
announcement for a new phantom returns and reports `FlagCreated`. -/
theorem matching_announcement_merges (env : Env) (p : NodePhantom) (pr : StaticProfile)
    (announcedBy nodeID : ShortNodeID) (limiter : PacketLimiter) (first : Announcement)
    (hmatch : ∀ sp, p.figment.profile = some sp →
      env.equalBriefProfiles sp pr = true ∧
        ∀ se e, sp.extension = some se → pr.extension = some e →
          env.equalProfileExtensions se e = true) :
    (p.figment.updateProfile env p.figment.rank (some pr)).2.2 = false ∧
      ((p.figment.updateProfile env p.figment.rank (some pr)).2.1 = true ↔
        (p.figment.profile = none ∨
          ∃ sp, p.figment.profile = some sp ∧ sp.extension = none ∧
            pr.extension.isSome = true)) ∧
      ((p.figment.updateProfile env p.figment.rank (some pr)).2.1 = true →
        (p.figment.updateProfile env p.figment.rank (some pr)).1 =
          { p.figment with profile := some pr }) ∧
      ((p.figment.updateProfile env p.figment.rank (some pr)).2.1 = false →
        (p.figment.updateProfile env p.figment.rank (some pr)).1 = p.figment) ∧
      (∀ sp, p.figment.profile = some sp → sp.extension.isSome = true →
        (p.figment.updateProfile env p.figment.rank (some pr)).1 = p.figment) ∧
      (p.figment.phantom = true →
        (p.figment.updateProfile env p.figment.rank (some pr)).2.1 = true →
        ∃ rest, (p.DispatchAnnouncement env ⟨p.figment.rank, some pr, announcedBy⟩).effects =
          Effect.onNodeUpdated p.nodeID ⟨false, true⟩ :: rest) ∧
      ((NewNodePhantom nodeID limiter).DispatchAnnouncement env first).result = .ok () ∧
      ∃ rest, ((NewNodePhantom nodeID limiter).DispatchAnnouncement env first).effects =
        Effect.onNodeUpdated nodeID ⟨true, first.profile.isSome⟩ :: rest := by
  have hup := figment.updateProfile_matching env p.figment pr hmatch
  refine ⟨?_, ?_, ?_, ?_, ?_, ?_, ?_, ?_⟩
  · rw [hup]; split <;> rfl
  · rw [hup]
    constructor
    · intro h
      by_contra hc
      rw [if_neg hc] at h
      cases h
    · intro h
      rw [if_pos h]
  · intro h
    exact (figment.updateProfile_updated env _ _ _ h).2.2
  · intro h
    exact figment.updateProfile_not_updated env _ _ _ h
  · intro sp hs hext
    rw [hup, if_neg]
    rintro (h | ⟨sp2, h1, h2, -⟩)
    · rw [hs] at h; cases h
    · rw [hs] at h1
      injection h1 with h1
      subst h1
      rw [h2] at hext
      cases hext
  · intro hph hu
    have hm : ((p.figment.adopt p.figment.rank).updateProfile env p.figment.rank
        (some pr)).2.2 = false := by
      rw [figment.adopt_of_phantom _ _ hph]
      exact (figment.updateProfile_updated env _ _ _ hu).1
    obtain ⟨rest, hrest⟩ := NodePhantom.dispatchAnnouncement_effects env p
      ⟨p.figment.rank, some pr, announcedBy⟩ hm
    refine ⟨rest, ?_⟩
    show (p.dispatchAnnouncement env ⟨p.figment.rank, some pr, announcedBy⟩).effects = _
    rw [hrest]
    simp only [figment.adopt_of_phantom _ _ hph, hu, hph]
    rfl
  · have hm : (((NewNodePhantom nodeID limiter).figment.adopt first.rank).updateProfile env
        first.rank first.profile).2.2 = false :=
      figment.updateProfile_no_profile env
        { phantom := true, announcerID := 0, rank := first.rank, profile := none }
        first.profile rfl
    show ((NewNodePhantom nodeID limiter).dispatchAnnouncement env first).result = _
    rw [NodePhantom.dispatchAnnouncement_match env _ first hm]
    exact NodePhantom.tryAscent_result env _ _ _
  · have hm : (((NewNodePhantom nodeID limiter).figment.adopt first.rank).updateProfile env
        first.rank first.profile).2.2 = false :=
      figment.updateProfile_no_profile env
        { phantom := true, announcerID := 0, rank := first.rank, profile := none }
        first.profile rfl
    have hu : (((NewNodePhantom nodeID limiter).figment.adopt first.rank).updateProfile env
        first.rank first.profile).2.1 = first.profile.isSome := by
      show ((figment.mk true 0 first.rank none).updateProfile env first.rank
        first.profile).2.1 = _
      cases first.profile <;> simp [figment.updateProfile]
    obtain ⟨rest, hrest⟩ := NodePhantom.dispatchAnnouncement_effects env _ first hm
    refine ⟨rest, ?_⟩
    show ((NewNodePhantom nodeID limiter).dispatchAnnouncement env first).effects = _
    rw [hrest, hu]
    rfl

/-- C13 at a phantom that holds a brief profile: the full profile with the same brief part
is merged. -/
theorem matching_announcement_merges_witness :
    (∀ sp, briefPhantom.figment.profile = some sp →
      sampleEnv.equalBriefProfiles sp fullProfile = true ∧
        ∀ se e, sp.extension = some se → fullProfile.extension = some e →
          sampleEnv.equalProfileExtensions se e = true) ∧
      (briefPhantom.figment.updateProfile sampleEnv briefPhantom.figment.rank
        (some fullProfile)).2.2 = false ∧
      (briefPhantom.figment.updateProfile sampleEnv briefPhantom.figment.rank
        (some fullProfile)).2.1 = true :=
  ⟨by
      intro sp h
      injection h with h
      subst h
      exact ⟨rfl, by intro se e h1; cases h1⟩,
    (matching_announcement_merges sampleEnv briefPhantom fullProfile 9 5 3 selfAnnouncement
      (by
        intro sp h
        injection h with h
        subst h
        exact ⟨rfl, by intro se e h1; cases h1⟩)).1,
    (matching_announcement_merges sampleEnv briefPhantom fullProfile 9 5 3 selfAnnouncement
      (by
        intro sp h
        injection h with h
        subst h
        exact ⟨rfl, by intro se e h1; cases h1⟩)).2.1.2
      (Or.inr ⟨briefProfile, rfl, rfl, rfl⟩)⟩

/-- C13 as stated fails at two full profiles: the announcement has the rank of the figment
and a profile whose brief part equals the stored one, and `updateProfile` reports
mismatched = true, because the extensions differ. -/
theorem matching_brief_mismatched_extension :
    (3 : Rank) = fullPhantom.figment.rank ∧
      fullPhantom.figment.profile = some fullProfile ∧
      sampleEnv.equalBriefProfiles fullProfile otherFullProfile = true ∧
      (fullPhantom.figment.updateProfile sampleEnv 3 (some otherFullProfile)).2.2 = true :=
  ⟨rfl, rfl, rfl, rfl⟩

/-! # Phantom nodes: who ascends -/

/-- A call of `dispatchAnnouncement`, also one that panics, keeps these two facts: a figment
without a phantom has no profile, and a figment that may ascend has ascended. -/
theorem NodePhantom.dispatchAnnouncement_ascent_due (env : Env) (p : NodePhantom)
    (a : Announcement) (h1 : p.figment.phantom = false → p.figment.profile = none)
    (h2 : p.figment.mayAscend env = true → p.hasAscent = true) :
    (p.dispatchAnnouncement env a).state.figment.phantom = true ∧
      ((p.dispatchAnnouncement env a).state.figment.mayAscend env = true →
        (p.dispatchAnnouncement env a).state.hasAscent = true) := by
  have hadopt : (p.figment.adopt a.rank).mayAscend env = true → p.hasAscent = true := by
    intro h
    cases hph : p.figment.phantom with
    | true =>
      rw [figment.adopt_of_phantom _ _ hph] at h
      exact h2 h
    | false =>
      have hp : (p.figment.adopt a.rank).profile = none := by
        rw [figment.adopt_profile]
        exact h1 hph
      unfold figment.mayAscend at h
      rw [hp] at h
      cases h
  cases hm : ((p.figment.adopt a.rank).updateProfile env a.rank a.profile).2.2 with
  | true =>
    rw [NodePhantom.dispatchAnnouncement_mismatch env p a hm]
    exact ⟨figment.adopt_phantom _ _, hadopt⟩
  | false =>
    rw [NodePhantom.dispatchAnnouncement_match env p a hm, NodePhantom.tryAscent_figment]
    have hk := figment.updateProfile_keeps env (p.figment.adopt a.rank) a.rank a.profile
    constructor
    · show (figment.takeAnnouncer env p.nodeID _ a.announcedBy).phantom = true
      rw [(figment.takeAnnouncer_keeps env p.nodeID _ a.announcedBy).1, hk.1]
      exact figment.adopt_phantom _ _
    · intro hmay
      cases hu : ((p.figment.adopt a.rank).updateProfile env a.rank a.profile).2.1 ||
          figment.setsAnnouncer env p.nodeID
            ((p.figment.adopt a.rank).updateProfile env a.rank a.profile).1 a.announcedBy with
      | true => exact NodePhantom.tryAscent_due env _ _ hmay
      | false =>
        rw [Bool.or_eq_false_iff] at hu
        rw [NodePhantom.tryAscent_no_update]
        show p.hasAscent = true
        apply hadopt
        have hf : figment.takeAnnouncer env p.nodeID
            ((p.figment.adopt a.rank).updateProfile env a.rank a.profile).1 a.announcedBy =
            p.figment.adopt a.rank := by
          rw [figment.takeAnnouncer_of_not _ _ _ _ hu.2,
            figment.updateProfile_not_updated _ _ _ _ hu.1]
        have hmay2 : (figment.takeAnnouncer env p.nodeID
            ((p.figment.adopt a.rank).updateProfile env a.rank a.profile).1
            a.announcedBy).mayAscend env = true := hmay
        rw [hf] at hmay2
        exact hmay2

/-- After every sequence of announcements, a figment without a phantom has no profile and a
figment that may ascend has ascended. -/
theorem NodePhantom.afterAnnouncements_ascent_due (env : Env) (anns : List Announcement) :
    ∀ p : NodePhantom, (p.figment.phantom = false → p.figment.profile = none) →
      (p.figment.mayAscend env = true → p.hasAscent = true) →
      ((p.afterAnnouncements env anns).figment.phantom = false →
        (p.afterAnnouncements env anns).figment.profile = none) ∧
      ((p.afterAnnouncements env anns).figment.mayAscend env = true →
        (p.afterAnnouncements env anns).hasAscent = true) := by
  induction anns with
  | nil => intro p h1 h2; exact ⟨h1, h2⟩
  | cons a rest ih =>
    intro p h1 h2
    have hd := NodePhantom.dispatchAnnouncement_ascent_due env p a h1 h2
    exact ih (p.dispatchAnnouncement env a).state
      (fun h => by rw [hd.1] at h; cases h) hd.2

/-- C14: with a brief-ascension policy that is fixed for the lifetime of the phantom, after
every sequence of announcements on a new phantom and every further `dispatchAnnouncement`,
one that returns without failing and also one that panics, if the figment has a profile, and
the profile has an extension or brief ascension is allowed, and the figment is not a joiner
whose announcer is absent, then the phantom has ascended. -/
theorem ascension_trigger (env : Env) (nodeID : ShortNodeID) (limiter : PacketLimiter)
    (anns : List Announcement) (a : Announcement) (prof : StaticProfile)
    (hprofile : (((NewNodePhantom nodeID limiter).afterAnnouncements env
      anns).DispatchAnnouncement env a).state.figment.profile = some prof)
    (hfull : prof.extension.isSome = true ∨ env.briefAscensionAllowed = true)
    (hannounced : ¬ (env.isJoiner (((NewNodePhantom nodeID limiter).afterAnnouncements env
        anns).DispatchAnnouncement env a).state.figment.rank = true ∧
      ShortNodeID.IsAbsent (((NewNodePhantom nodeID limiter).afterAnnouncements env
        anns).DispatchAnnouncement env a).state.figment.announcerID = true)) :
    (((NewNodePhantom nodeID limiter).afterAnnouncements env
      anns).DispatchAnnouncement env a).state.hasAscent = true := by
  have hinv := NodePhantom.afterAnnouncements_ascent_due env anns
    (NewNodePhantom nodeID limiter) (fun _ => rfl) (fun h => by cases h)
  have hd := NodePhantom.dispatchAnnouncement_ascent_due env _ a hinv.1 hinv.2
  apply hd.2
  show figment.mayAscend env (((NewNodePhantom nodeID limiter).afterAnnouncements env
    anns).DispatchAnnouncement env a).state.figment = true
  unfold figment.mayAscend
  rw [hprofile]
  simp only [Bool.and_eq_true, Bool.or_eq_true, Bool.not_eq_true', Bool.and_eq_false_iff]
  refine ⟨hfull, ?_⟩
  by_contra hc
  apply hannounced
  simp only [not_or, Bool.not_eq_false] at hc
  exact hc

/-- C14 at the joiner 5 that first announces itself with a full profile and is then
announced by node 9: the second call returns and the phantom has ascended. -/
theorem ascension_trigger_witness :
    (((NewNodePhantom 5 3).afterAnnouncements sampleEnv
        [selfAnnouncement]).DispatchAnnouncement sampleEnv neighbourAnnouncement).result =
        .ok () ∧
      (((NewNodePhantom 5 3).afterAnnouncements sampleEnv
        [selfAnnouncement]).DispatchAnnouncement sampleEnv
          neighbourAnnouncement).state.figment.profile = some fullProfile ∧
      fullProfile.extension.isSome = true ∧
      (((NewNodePhantom 5 3).afterAnnouncements sampleEnv
        [selfAnnouncement]).DispatchAnnouncement sampleEnv
          neighbourAnnouncement).state.hasAscent = true :=
  ⟨rfl, rfl, rfl,
    ascension_trigger sampleEnv 5 3 [selfAnnouncement] neighbourAnnouncement fullProfile rfl
      (Or.inl rfl) (fun h => absurd h.2 (by decide))⟩

/-- A call of `dispatchAnnouncement`, also one that panics, keeps these two facts: a figment
without a phantom has not ascended, and a phantom that has ascended is not a joiner without
an announcer. -/
theorem NodePhantom.dispatchAnnouncement_no_self_ascent (env : Env) (p : NodePhantom)
    (a : Announcement) (h1 : p.figment.phantom = false → p.hasAscent = false)
    (h2 : p.hasAscent = true →
      (env.isJoiner p.figment.rank && ShortNodeID.IsAbsent p.figment.announcerID) = false) :
    (p.dispatchAnnouncement env a).state.figment.phantom = true ∧
      ((p.dispatchAnnouncement env a).state.hasAscent = true →
        (env.isJoiner (p.dispatchAnnouncement env a).state.figment.rank &&
          ShortNodeID.IsAbsent (p.dispatchAnnouncement env a).state.figment.announcerID) =
            false) := by
  have hph : p.hasAscent = true → p.figment.adopt a.rank = p.figment := by
    intro h
    cases hp : p.figment.phantom with
    | true => exact figment.adopt_of_phantom _ _ hp
    | false =>
      rw [h1 hp] at h
      cases h
  cases hm : ((p.figment.adopt a.rank).updateProfile env a.rank a.profile).2.2 with
  | true =>
    rw [NodePhantom.dispatchAnnouncement_mismatch env p a hm]
    refine ⟨figment.adopt_phantom _ _, ?_⟩
    intro h
    show (env.isJoiner (p.figment.adopt a.rank).rank &&
      ShortNodeID.IsAbsent (p.figment.adopt a.rank).announcerID) = false
    rw [hph h]
    exact h2 h
  | false =>
    rw [NodePhantom.dispatchAnnouncement_match env p a hm]
    have hk := figment.updateProfile_keeps env (p.figment.adopt a.rank) a.rank a.profile
    constructor
    · rw [NodePhantom.tryAscent_figment]
      show (figment.takeAnnouncer env p.nodeID _ a.announcedBy).phantom = true
      rw [(figment.takeAnnouncer_keeps env p.nodeID _ a.announcedBy).1, hk.1]
      exact figment.adopt_phantom _ _
    · intro h
      rw [NodePhantom.tryAscent_figment]
      rcases NodePhantom.tryAscent_hasAscent_inv env _ _ _ h with hp | hg
      · have hasc : p.hasAscent = true := hp
        show (env.isJoiner (figment.takeAnnouncer env p.nodeID _ a.announcedBy).rank &&
          ShortNodeID.IsAbsent
            (figment.takeAnnouncer env p.nodeID _ a.announcedBy).announcerID) = false
        rw [(figment.takeAnnouncer_keeps env p.nodeID _ a.announcedBy).2.1, hk.2.1]
        have h3 := h2 hasc
        rw [← hph hasc] at h3
        cases hj : env.isJoiner (p.figment.adopt a.rank).rank with
        | false => rfl
        | true =>
          rw [hj, Bool.true_and] at h3
          rw [Bool.true_and]
          cases hab : ShortNodeID.IsAbsent (figment.takeAnnouncer env p.nodeID
              ((p.figment.adopt a.rank).updateProfile env a.rank a.profile).1
              a.announcedBy).announcerID with
          | false => rfl
          | true =>
            have := figment.takeAnnouncer_absent env p.nodeID _ a.announcedBy hab
            rw [hk.2.2, h3] at this
            cases this
      · exact hg

/-- After every sequence of announcements, a figment without a phantom has not ascended
and a phantom that has ascended is not a joiner without an announcer. -/
theorem NodePhantom.afterAnnouncements_no_self_ascent (env : Env)
    (anns : List Announcement) :
    ∀ p : NodePhantom, (p.figment.phantom = false → p.hasAscent = false) →
      (p.hasAscent = true →
        (env.isJoiner p.figment.rank && ShortNodeID.IsAbsent p.figment.announcerID) = false) →
      ((p.afterAnnouncements env anns).hasAscent = true →
        (env.isJoiner (p.afterAnnouncements env anns).figment.rank &&
          ShortNodeID.IsAbsent (p.afterAnnouncements env anns).figment.announcerID) =
            false) := by
  induction anns with
  | nil => intro p _ h2; exact h2
  | cons a rest ih =>
    intro p h1 h2
    have hd := NodePhantom.dispatchAnnouncement_no_self_ascent env p a h1 h2
    exact ih (p.dispatchAnnouncement env a).state
      (fun h => by rw [hd.1] at h; cases h) hd.2

/-- C15: self-ascension is not allowed for joiners.  In every state that a sequence of
`dispatchAnnouncement` calls on a new phantom reaches, if the rank of the figment is a
joiner rank and its announcer is absent then `hasAscent` is false, whatever profile is
held. -/
theorem no_self_ascent_for_joiners (env : Env) (nodeID : ShortNodeID)
    (limiter : PacketLimiter) (anns : List Announcement)
    (hjoiner : env.isJoiner
      ((NewNodePhantom nodeID limiter).afterAnnouncements env anns).figment.rank = true)
    (habsent : ShortNodeID.IsAbsent
      ((NewNodePhantom nodeID limiter).afterAnnouncements env anns).figment.announcerID =
        true) :
    ((NewNodePhantom nodeID limiter).afterAnnouncements env anns).hasAscent = false := by
  cases h : ((NewNodePhantom nodeID limiter).afterAnnouncements env anns).hasAscent with
  | false => rfl
  | true =>
    have := NodePhantom.afterAnnouncements_no_self_ascent env anns
      (NewNodePhantom nodeID limiter) (fun _ => rfl) (fun h => by cases h) h
    rw [hjoiner, habsent] at this
    cases this

/-- C15 at the joiner 5 that announces itself twice with a full profile: the figment holds
the full profile, has no announcer and has not ascended. -/
theorem no_self_ascent_for_joiners_witness :
    sampleEnv.isJoiner ((NewNodePhantom 5 3).afterAnnouncements sampleEnv
        [selfAnnouncement, selfAnnouncement]).figment.rank = true ∧
      ShortNodeID.IsAbsent ((NewNodePhantom 5 3).afterAnnouncements sampleEnv
        [selfAnnouncement, selfAnnouncement]).figment.announcerID = true ∧
      ((NewNodePhantom 5 3).afterAnnouncements sampleEnv
        [selfAnnouncement, selfAnnouncement]).figment.profile = some fullProfile ∧
      ((NewNodePhantom 5 3).afterAnnouncements sampleEnv
        [selfAnnouncement, selfAnnouncement]).hasAscent = false :=
  ⟨rfl, rfl, rfl,
    no_self_ascent_for_joiners sampleEnv 5 3 [selfAnnouncement, selfAnnouncement] rfl rfl⟩

end Purgatory

/-! # Futures: the first finishing call wins -/

namespace Messagebus

/-- The first call on a new future finishes it and runs the callback on the finished
future. -/
theorem future.call_new {W : Type} (cb : future → W → W) (id : Uint64) (w : W) (c : Call) :
    future.call cb (NewFuture id, w) c =
      .ok (future.finishedBy id c, cb (future.finishedBy id c) w) := by
  cases c <;> rfl

/-- On a finished future `SetResult` does nothing. -/
theorem future.SetResult_finished {W : Type} (cb : future → W → W) (f : future) (res : Reply)
    (w : W) (h : f.finished ≠ 0) : future.SetResult cb f res w = .ok (f, w) := by
  unfold future.SetResult
  rw [if_neg h]

/-- On a finished future `Cancel` does nothing. -/
theorem future.Cancel_finished {W : Type} (cb : future → W → W) (f : future) (w : W)
    (h : f.finished ≠ 0) : future.Cancel cb f w = .ok (f, w) := by
  unfold future.Cancel
  rw [if_neg h]

/-- On a finished and closed future every call returns, keeps the future finished and
closed, and does not invoke the callback; `SetResult` and `Cancel` change nothing. -/
theorem future.call_finished {W : Type} (cb : future → W → W) (f : future) (w : W) (c : Call)
    (h : f.finished ≠ 0) (hc : f.result.closed = true) :
    ∃ g, future.call cb (f, w) c = .ok (g, w) ∧ g.finished ≠ 0 ∧ g.result.closed = true ∧
      (c ≠ Call.GetResult → g = f) := by
  cases c with
  | SetResult res =>
    exact ⟨f, future.SetResult_finished cb f res w h, h, hc, fun _ => rfl⟩
  | Cancel => exact ⟨f, future.Cancel_finished cb f w h, h, hc, fun _ => rfl⟩
  | GetResult =>
    cases hb : f.result.buffer with
    | some r =>
      refine ⟨{ f with result := { f.result with buffer := none } }, ?_, h, hc,
        fun hne => absurd rfl hne⟩
      simp [future.call, future.GetResult, hb]
    | none =>
      refine ⟨f, ?_, h, hc, fun _ => rfl⟩
      simp [future.call, future.GetResult, hb, hc]

/-- On a finished and closed future every sequence of calls returns and does not invoke the
callback; a sequence of `SetResult` and `Cancel` calls changes nothing. -/
theorem future.calls_finished {W : Type} (cb : future → W → W) (w : W) (cs : List Call) :
    ∀ f : future, f.finished ≠ 0 → f.result.closed = true →
      ∃ g, future.calls cb (f, w) cs = .ok (g, w) ∧ g.finished ≠ 0 ∧
        g.result.closed = true ∧ ((∀ c ∈ cs, c ≠ Call.GetResult) → g = f) := by
  induction cs with
  | nil => intro f h hc; exact ⟨f, rfl, h, hc, fun _ => rfl⟩
  | cons c rest ih =>
    intro f h hc
    obtain ⟨g, hg, hg1, hg2, hg3⟩ := future.call_finished cb f w c h hc
    obtain ⟨k, hk, hk1, hk2, hk3⟩ := ih g hg1 hg2
    refine ⟨k, ?_, hk1, hk2, ?_⟩
    · unfold future.calls
      rw [hg]
      exact hk
    · intro hall
      rw [hk3 (fun x hx => hall x (List.mem_cons_of_mem _ hx)),
        hg3 (hall c (List.mem_cons_self _ _))]

/-- Every sequence of calls on a new future returns; when it is not empty, the future is
finished and closed afterwards, and the callback has run once, on the future that the
first call left behind. -/
theorem future.calls_new {W : Type} (cb : future → W → W) (id : Uint64) (w : W) (c : Call)
    (rest : List Call) :
    ∃ g, future.calls cb (NewFuture id, w) (c :: rest) =
        .ok (g, cb (future.finishedBy id c) w) ∧
      g.finished ≠ 0 ∧ g.result.closed = true ∧
      ((∀ x ∈ rest, x ≠ Call.GetResult) → g = future.finishedBy id c) := by
  have h1 := future.call_new cb id w c
  obtain ⟨g, hg, hg1, hg2, hg3⟩ := future.calls_finished cb
    (cb (future.finishedBy id c) w) rest (future.finishedBy id c)
    (show (1 : Uint64) ≠ 0 by decide) rfl
  refine ⟨g, ?_, hg1, hg2, hg3⟩
  unfold future.calls
  rw [h1]
  exact hg

/-- C16: for every future, once a finishing call has been made (`SetResult`, `Cancel`, or
the `Cancel` of a `GetResult` that timed out), every later call of `SetResult` or `Cancel`
is a no-op: it leaves the finished flag, the content of the result channel and its closed
state unchanged and does not invoke the cancel callback again.  In particular
`SetResult(r)` after `Cancel` never delivers `r`: the waiter gets
`ErrFutureChannelClosed`; and `Cancel` after `SetResult(r)` does not remove `r`: the waiter
gets it. -/
theorem finished_future_ignores_calls {W : Type} (cb : future → W → W) (id : Uint64) (w : W)
    (first : Call) (later : List Call) (c : Call) (r : Reply) (hc : c ≠ Call.GetResult) :
    (∃ f v, future.calls cb (NewFuture id, w) (first :: later) = .ok (f, v) ∧
        future.call cb (f, v) c = .ok (f, v)) ∧
      (∃ f v, future.calls cb (NewFuture id, w) [Call.Cancel, Call.SetResult r] = .ok (f, v) ∧
        future.GetResult cb f v =
          .ok ((none, some FutureError.ErrFutureChannelClosed), f, v)) ∧
      (∃ f v g, future.calls cb (NewFuture id, w) [Call.SetResult r, Call.Cancel] =
          .ok (f, v) ∧
        future.GetResult cb f v = .ok ((some r, none), g, v)) := by
  refine ⟨?_, ⟨_, _, rfl, rfl⟩, ⟨_, _, _, rfl, rfl⟩⟩
  obtain ⟨g, hg, hg1, hg2, -⟩ := future.calls_new cb id w first later
  refine ⟨g, _, hg, ?_⟩
  obtain ⟨k, hk, -, -, hk3⟩ := future.call_finished cb g _ c hg1 hg2
  rw [hk, hk3 hc]

/-- C16 at a future that was cancelled and then given a result while a waiter had already
timed out: a further `SetResult` changes nothing. -/
theorem finished_future_ignores_calls_witness :
    Call.SetResult 8 ≠ Call.GetResult ∧
      ∃ f v, future.calls countCalls (NewFuture 3, 0)
          [Call.GetResult, Call.Cancel, Call.SetResult 7] = .ok (f, v) ∧
        future.call countCalls (f, v) (Call.SetResult 8) = .ok (f, v) :=
  ⟨by decide,
    (finished_future_ignores_calls countCalls 3 0 Call.GetResult
      [Call.Cancel, Call.SetResult 7] (Call.SetResult 8) 7 (by decide)).1⟩

/-- C17: a waiter observes exactly one outcome from `GetResult`.  On a new future, with the
finishing calls that were made before the wait ended: when `SetResult(r)` was the first of
them it returns `(r, nil)`; when `Cancel` was the first it returns
`(nil, ErrFutureChannelClosed)`; when there was none it returns `(nil, ErrFutureTimeout)`
and the future is cancelled as a side effect: finished, closed, the callback invoked.  It
never returns both a reply and an error, nor neither. -/
theorem getResult_outcome {W : Type} (cb : future → W → W) (id : Uint64) (w : W)
    (later : List Call) (r : Reply) (hlater : ∀ c ∈ later, c ≠ Call.GetResult) :
    (∃ f v g, future.calls cb (NewFuture id, w) (Call.SetResult r :: later) = .ok (f, v) ∧
        future.GetResult cb f v = .ok ((some r, none), g, v)) ∧
      (∃ f v, future.calls cb (NewFuture id, w) (Call.Cancel :: later) = .ok (f, v) ∧
        future.GetResult cb f v =
          .ok ((none, some FutureError.ErrFutureChannelClosed), f, v)) ∧
      (∃ g, future.GetResult cb (NewFuture id) w =
          .ok ((none, some FutureError.ErrFutureTimeout), g, cb g w) ∧
        g.finished = 1 ∧ g.result.closed = true) ∧
      (∀ (f : future) (v : W) (out : (Option Reply × Option FutureError) × future × W),
        future.GetResult cb f v = .ok out →
          (out.1.1.isSome = true ∧ out.1.2 = none) ∨
            (out.1.1 = none ∧ out.1.2.isSome = true)) := by
  refine ⟨?_, ?_, ⟨_, rfl, rfl, rfl⟩, ?_⟩
  · obtain ⟨g, hg, -, -, hg3⟩ := future.calls_new cb id w (Call.SetResult r) later
    rw [hg3 hlater] at hg
    exact ⟨_, _, _, hg, rfl⟩
  · obtain ⟨g, hg, -, -, hg3⟩ := future.calls_new cb id w Call.Cancel later
    rw [hg3 hlater] at hg
    exact ⟨_, _, hg, rfl⟩
  · intro f v out h
    unfold future.GetResult at h
    split at h
    · injection h with h
      subst h
      exact Or.inl ⟨rfl, rfl⟩
    · split at h
      · injection h with h
        subst h
        exact Or.inr ⟨rfl, rfl⟩
      · split at h
        · cases h
        · injection h with h
          subst h
          exact Or.inr ⟨rfl, rfl⟩

/-- C17 at a future that got the result 7 and then a `Cancel` and a second result before the
wait ended: the waiter receives 7. -/
theorem getResult_outcome_witness :
    (∀ c ∈ [Call.Cancel, Call.SetResult 9], c ≠ Call.GetResult) ∧
      ∃ f v g, future.calls countCalls (NewFuture 3, 0)
          (Call.SetResult 7 :: [Call.Cancel, Call.SetResult 9]) = .ok (f, v) ∧
        future.GetResult countCalls f v = .ok ((some 7, none), g, v) :=
  ⟨by decide,
    (getResult_outcome countCalls 3 0 [Call.Cancel, Call.SetResult 9] 7 (by decide)).1⟩

/-- The cancel callback is invoked exactly once, by the first call: after every sequence of
at least one `SetResult`, `Cancel` or `GetResult` call on a new future the counting callback
has counted one invocation, and so it has after the first call alone. -/
theorem future.callback_once (id : Uint64) (c : Call) (rest : List Call) :
    (∃ f, future.call countCalls (NewFuture id, 0) c = .ok (f, 1)) ∧
      ∃ g, future.calls countCalls (NewFuture id, 0) (c :: rest) = .ok (g, 1) := by
  refine ⟨⟨_, future.call_new countCalls id 0 c⟩, ?_⟩
  obtain ⟨g, hg, -⟩ := future.calls_new countCalls id 0 c rest
  exact ⟨g, hg⟩

/-- C18 at three futures of one manager: `Create` gives the ids 0 and 1; the first future is
cancelled, which lowers the index; the third `Create` gives the id 1 again.  The second
future (reference 1) is not finished, its id is 1, and `Get(1)` returns the third future
(reference 2) instead of it. -/
theorem manager_get_returns_other_future :
    (Bus.new.Create.2.Create.2.call 0 Call.Cancel).map
        (fun b => (b.Create.1, (b.Create.2.heap.get? 1).map (fun f => (f.ID, f.finished)),
          b.Create.2.fm.Get 1)) =
      .ok (2, some (1, 0), some 2) :=
  rfl

end Messagebus

/-! # Datagram handler -/

namespace Adapters

/-- C19: `HandleDatagram` drops a datagram it cannot handle.  For every address and buffer,
if the packet processor or the parser factory is not set, or `ParsePacket` returns an error,
then `ProcessPacket` is never called; if parsing succeeds, `ProcessPacket` is called exactly
once, with the parsed packet and an inbound identity whose address is the sender address,
and an error it returns only goes to the log.  The handler returns in every case. -/
theorem handleDatagram_dispatch (dh : DatagramHandler) (address : String)
    (buf : List (Fin 256)) :
    ((dh.packetProcessor.isNone = true ∨ dh.packetParserFactory.isNone = true) →
        processed (dh.HandleDatagram address buf) = []) ∧
      (∀ processor factory err, dh.packetProcessor = some processor →
        dh.packetParserFactory = some factory → factory.ParsePacket buf = .error err →
        processed (dh.HandleDatagram address buf) = []) ∧
      (∀ processor factory packetParser, dh.packetProcessor = some processor →
        dh.packetParserFactory = some factory → factory.ParsePacket buf = .ok packetParser →
        processed (dh.HandleDatagram address buf) = [(packetParser, { Addr := address })]) := by
  obtain ⟨pp, pf⟩ := dh
  refine ⟨?_, ?_, ?_⟩
  · intro h
    cases pp with
    | none => rfl
    | some processor =>
      cases pf with
      | none => rfl
      | some factory => simp at h
  · intro processor factory err h1 h2 h3
    simp only at h1 h2
    subst h1 h2
    simp only [DatagramHandler.HandleDatagram, h3]
    rfl
  · intro processor factory packetParser h1 h2 h3
    simp only at h1 h2
    subst h1 h2
    simp only [DatagramHandler.HandleDatagram, h3]
    cases processor.ProcessPacket packetParser { Addr := address } <;> rfl

/-- C19 at a handler whose processor refuses every packet: the datagram is parsed and
processed once, the error is logged, and an empty datagram is dropped. -/
theorem handleDatagram_dispatch_witness :
    sampleHandler.HandleDatagram "127.0.0.1:3000" [5, 1, 2] =
        [Event.processPacket
            { sourceID := 5, packetType := "Phase0", pulseNumber := 70000, payload := [1, 2] }
            { Addr := "127.0.0.1:3000" },
          Event.logError "Failed to process packet: packet refused"] ∧
      processed (sampleHandler.HandleDatagram "127.0.0.1:3000" [5, 1, 2]) =
        [({ sourceID := 5, packetType := "Phase0", pulseNumber := 70000, payload := [1, 2] },
          { Addr := "127.0.0.1:3000" })] ∧
      processed (sampleHandler.HandleDatagram "127.0.0.1:3000" []) = [] :=
  ⟨rfl,
    (handleDatagram_dispatch sampleHandler "127.0.0.1:3000" [5, 1, 2]).2.2
      refusingProcessor sampleFactory _ rfl rfl rfl,
    (handleDatagram_dispatch sampleHandler "127.0.0.1:3000" []).2.1
      refusingProcessor sampleFactory "empty packet" rfl rfl rfl⟩

end Adapters

/-! # Majority rule -/

namespace Rules

/-- C20: `CheckMajorityRule(cert, nodes)` returns `(ok, count)` where `count` is the number
of nodes in the list that are discovery nodes of the certificate and `ok` is true exactly
when `count >= cert.GetMajorityRule()`; a node that is not a discovery node is not counted.
With a threshold of 4, a list holding 4 or 5 discovery nodes gives true and a list holding
3 gives false. -/
theorem checkMajorityRule_count (cert : Certificate) (nodes : List NetworkNode)
    (other : NetworkNode) :
    (CheckMajorityRule cert nodes).2 =
        nodes.countP (fun n => decide (n.ID ∈ cert.discoveryNodes)) ∧
      ((CheckMajorityRule cert nodes).1 = true ↔
        cert.majorityRule ≤ ((CheckMajorityRule cert nodes).2 : Int)) ∧
      (other.ID ∉ cert.discoveryNodes →
        CheckMajorityRule cert (nodes ++ [other]) = CheckMajorityRule cert nodes) ∧
      (cert.majorityRule = 4 →
        ((CheckMajorityRule cert nodes).2 = 4 ∨ (CheckMajorityRule cert nodes).2 = 5 →
          (CheckMajorityRule cert nodes).1 = true) ∧
        ((CheckMajorityRule cert nodes).2 = 3 → (CheckMajorityRule cert nodes).1 = false)) := by
  have hcount : (CheckMajorityRule cert nodes).2 =
      nodes.countP (fun n => decide (n.ID ∈ cert.discoveryNodes)) := by
    unfold CheckMajorityRule
    simp only [List.countP_eq_length_filter]
    congr 2
    funext n
    simp
  have hok : (CheckMajorityRule cert nodes).1 = true ↔
      cert.majorityRule ≤ ((CheckMajorityRule cert nodes).2 : Int) := by
    unfold CheckMajorityRule
    simp
  refine ⟨hcount, hok, ?_, ?_⟩
  · intro hother
    have hf : (fun n : NetworkNode => cert.discoveryNodes.contains n.ID) other = false := by
      simpa using hother
    unfold CheckMajorityRule
    simp only [List.filter_append, List.filter_cons, hf, List.filter_nil, List.append_nil]
    simp
  · intro h4
    constructor
    · intro h
      rw [hok, h4]
      rcases h with h | h <;> rw [h] <;> decide
    · intro h
      cases hv : (CheckMajorityRule cert nodes).1 with
      | false => rfl
      | true =>
        rw [hok, h4, h] at hv
        exact absurd hv (by decide)

/-- C20 at the certificate of the test, five discovery nodes and the threshold 4: the five
discovery nodes and the node 250 give `(true, 5)` as the test asserts, four of them give
true and three give false. -/
theorem checkMajorityRule_count_witness :
    testCertificate.majorityRule = 4 ∧ (250 : Nat) ∉ testCertificate.discoveryNodes ∧
      CheckMajorityRule testCertificate (getDiscoveryNodes 5 ++ [{ ID := 250 }]) = (true, 5) ∧
      CheckMajorityRule testCertificate (getDiscoveryNodes 4 ++ [{ ID := 250 }]) = (true, 4) ∧
      CheckMajorityRule testCertificate (getDiscoveryNodes 3 ++ [{ ID := 250 }]) = (false, 3) ∧
      CheckMajorityRule testCertificate (getDiscoveryNodes 5 ++ [{ ID := 250 }]) =
        CheckMajorityRule testCertificate (getDiscoveryNodes 5) ∧
      (CheckMajorityRule testCertificate (getDiscoveryNodes 3)).1 = false :=
  ⟨rfl, by decide, by decide, by decide, by decide,
    (checkMajorityRule_count testCertificate (getDiscoveryNodes 5) { ID := 250 }).2.2.1
      (by decide),
    ((checkMajorityRule_count testCertificate (getDiscoveryNodes 3) { ID := 250 }).2.2.2
      rfl).2 (by decide)⟩

end Rules

/-! # Realm population: sealing -/

namespace Population

/-- C21: `SealIndexed` is idempotent-fail.  For every population and capacities `c1`, `c2`,
if `SealIndexed(c1)` returned true then a second call `SealIndexed(c2)` returns false, and
the failing call leaves the population, and so `GetSealedCapacity`, `GetIndexedCount` and
`GetIndexedNodes`, unchanged. -/
theorem sealIndexed_twice (r : RealmPopulation) (c1 c2 : Int)
    (h : (r.SealIndexed c1).1 = true) :
    ((r.SealIndexed c1).2.SealIndexed c2).1 = false ∧
      ((r.SealIndexed c1).2.SealIndexed c2).2 = (r.SealIndexed c1).2 ∧
      ((r.SealIndexed c1).2.SealIndexed c2).2.GetSealedCapacity =
        (r.SealIndexed c1).2.GetSealedCapacity ∧
      ((r.SealIndexed c1).2.SealIndexed c2).2.GetIndexedCount =
        (r.SealIndexed c1).2.GetIndexedCount ∧
      ((r.SealIndexed c1).2.SealIndexed c2).2.GetIndexedNodes =
        (r.SealIndexed c1).2.GetIndexedNodes := by
  have hsealed : (r.SealIndexed c1).2.sealedCapacity.isSome = true := by
    unfold RealmPopulation.SealIndexed at h ⊢
    by_cases h1 : r.sealedCapacity.isSome = true
    · rw [if_pos h1] at h
      cases h
    · by_cases h2 : c1 ≠ r.GetIndexedCount
      · rw [if_neg h1, if_pos h2] at h
        cases h
      · rw [if_neg h1, if_neg h2]
        rfl
  have hsecond : (r.SealIndexed c1).2.SealIndexed c2 = (false, (r.SealIndexed c1).2) := by
    generalize (r.SealIndexed c1).2 = q at hsealed
    unfold RealmPopulation.SealIndexed
    rw [if_pos hsealed]
  rw [hsecond]
  exact ⟨rfl, rfl, rfl, rfl, rfl⟩

/-- C21 at a population of three indexed members: the seal with the capacity 3 succeeds, a
second seal fails and the sealed capacity stays 3. -/
theorem sealIndexed_twice_witness :
    (samplePopulation.SealIndexed 3).1 = true ∧
      ((samplePopulation.SealIndexed 3).2.SealIndexed 3).1 = false ∧
      ((samplePopulation.SealIndexed 3).2.SealIndexed 3).2.GetSealedCapacity = (3, true) :=
  ⟨rfl, (sealIndexed_twice samplePopulation 3 3 rfl).1,
    (sealIndexed_twice samplePopulation 3 3 rfl).2.2.1.trans rfl⟩

end Population

/-! # Census population: construction -/

namespace Census

/-- The slots of a list hold a profile with a given identifier exactly when the list
does. -/
theorem makeSlots_find (vf : SignatureVerifierFactory) (localID : ShortNodeID)
    (nodes : List StaticProfile) :
    ∀ start : Nat,
      ((∀ n ∈ nodes, n.staticNodeID ≠ localID) →
        (makeSlots vf start nodes).find? (fun slot => slot.profile.staticNodeID = localID) =
          none) ∧
      ((∃ n ∈ nodes, n.staticNodeID = localID) →
        ∃ slot, (makeSlots vf start nodes).find?
            (fun slot => slot.profile.staticNodeID = localID) = some slot ∧
          slot.profile.staticNodeID = localID) := by
  induction nodes with
  | nil =>
    intro start
    exact ⟨fun _ => rfl, fun ⟨n, hn, _⟩ => absurd hn (List.not_mem_nil n)⟩
  | cons n rest ih =>
    intro start
    constructor
    · intro hall
      have hn : n.staticNodeID ≠ localID := hall n (List.mem_cons_self _ _)
      unfold makeSlots
      rw [List.find?_cons_of_neg _ (by simpa using hn)]
      exact (ih (start + 1)).1 (fun m hm => hall m (List.mem_cons_of_mem _ hm))
    · rintro ⟨m, hm, hmid⟩
      unfold makeSlots
      by_cases hn : n.staticNodeID = localID
      · refine ⟨_, List.find?_cons_of_pos _ (by simpa using hn), hn⟩
      · rw [List.find?_cons_of_neg _ (by simpa using hn)]
        rcases List.mem_cons.1 hm with h | h
        · subst h
          exact absurd hmid hn
        · exact (ih (start + 1)).2 ⟨m, h, hmid⟩

/-- C22: `NewManyNodePopulation(nodes, localID, verifierFactory)` panics when the node list
is empty, when the verifier factory is nil, and when no profile in the list has the static
node identifier `localID`; when `localID` is that of a profile in a non-empty list, and a
factory is given, it returns a population whose local node is set, to a slot of that
identifier. -/
theorem newManyNodePopulation_checks (nodes : List StaticProfile) (localID : ShortNodeID)
    (vf : Option SignatureVerifierFactory) (factory : SignatureVerifierFactory) :
    (∃ msg, NewManyNodePopulation [] localID vf = .error msg) ∧
      (∃ msg, NewManyNodePopulation nodes localID none = .error msg) ∧
      ((∀ n ∈ nodes, n.staticNodeID ≠ localID) →
        ∃ msg, NewManyNodePopulation nodes localID vf = .error msg) ∧
      ((∃ n ∈ nodes, n.staticNodeID = localID) →
        ∃ mnp slot, NewManyNodePopulation nodes localID (some factory) = .ok mnp ∧
          mnp.localSlot = some slot ∧ slot.profile.staticNodeID = localID) := by
  refine ⟨⟨_, rfl⟩, ?_, ?_, ?_⟩
  · unfold NewManyNodePopulation
    split_ifs
    · exact ⟨_, rfl⟩
    · exact ⟨_, rfl⟩
  · intro hall
    unfold NewManyNodePopulation
    split_ifs
    · exact ⟨_, rfl⟩
    · cases vf with
      | none => exact ⟨_, rfl⟩
      | some f =>
        simp only [(makeSlots_find f localID nodes 0).1 hall]
        exact ⟨_, rfl⟩
  · intro hex
    obtain ⟨slot, hfind, hid⟩ := (makeSlots_find factory localID nodes 0).2 hex
    have hne : nodes.isEmpty = false := by
      obtain ⟨n, hn, -⟩ := hex
      cases nodes with
      | nil => exact absurd hn (List.not_mem_nil n)
      | cons a l => rfl
    refine ⟨{ slots := makeSlots factory 0 nodes, localSlot := some slot }, slot, ?_, rfl, hid⟩
    unfold NewManyNodePopulation
    simp only [hne, Bool.false_eq_true, if_false, hfind]

/-- C22 at the calls of `TestNewManyNodePopulation`: the three panics, and the population
for the node 2 with its local slot. -/
theorem newManyNodePopulation_checks_witness :
    (∃ msg, NewManyNodePopulation [] 0 none = .error msg) ∧
      (∃ msg, NewManyNodePopulation [testProfile] 0 none = .error msg) ∧
      (∀ n ∈ [testProfile], n.staticNodeID ≠ 3) ∧
      (∃ msg, NewManyNodePopulation [testProfile] 3 (some testFactory) = .error msg) ∧
      (∃ n ∈ [testProfile], n.staticNodeID = 2) ∧
      (∃ mnp slot, NewManyNodePopulation [testProfile] 2 (some testFactory) = .ok mnp ∧
        mnp.localSlot = some slot ∧ slot.profile.staticNodeID = 2) :=
  ⟨(newManyNodePopulation_checks [] 0 none testFactory).1,
    (newManyNodePopulation_checks [testProfile] 0 none testFactory).2.1,
    by decide,
    (newManyNodePopulation_checks [testProfile] 3 (some testFactory) testFactory).2.2.1
      (by decide),
    ⟨testProfile, by decide, rfl⟩,
    (newManyNodePopulation_checks [testProfile] 2 (some testFactory) testFactory).2.2.2
      ⟨testProfile, by decide, rfl⟩⟩

end Census

/-! # Migration admin: who may change a daemon -/

namespace Migrationadmin

/-- C23 at a contract whose migration admin is the member 1 and whose daemon `daemon-a` is
registered and inactive: the call of `ActivateDaemon` by the member 2, who is not the
admin, returns nil and sets the daemon to active, and `DeactivateDaemon` by the member 2
sets it back; the same calls by the admin return the error that only the migration admin
can do this, and leave the daemon as it is. -/
theorem activateDaemon_guard_inverted :
    (2 : Reference) ≠ sampleAdmin.MigrationAdminMember ∧
      StableMap.index sampleAdmin.MigrationDaemon "daemon-a" = StatusInactivate ∧
      (sampleAdmin.ActivateDaemon "daemon-a" 2).1 = none ∧
      StableMap.index (sampleAdmin.ActivateDaemon "daemon-a" 2).2.MigrationDaemon "daemon-a" =
        StatusActive ∧
      ((sampleAdmin.ActivateDaemon "daemon-a" 2).2.DeactivateDaemon "daemon-a" 2).1 = none ∧
      StableMap.index ((sampleAdmin.ActivateDaemon "daemon-a" 2).2.DeactivateDaemon
        "daemon-a" 2).2.MigrationDaemon "daemon-a" = StatusInactivate ∧
      (sampleAdmin.ActivateDaemon "daemon-a" 1).1 =
        some " only migration admin can activate migration demons " ∧
      StableMap.index (sampleAdmin.ActivateDaemon "daemon-a" 1).2.MigrationDaemon "daemon-a" =
        StatusInactivate ∧
      ((sampleAdmin.ActivateDaemon "daemon-a" 2).2.DeactivateDaemon "daemon-a" 1).1 =
        some " only migration admin can deactivate migration demons " :=
  ⟨by decide, by decide, by decide, by decide, by decide, by decide, by decide, by decide,
    by decide⟩

/-- The guard of both methods refuses the migration admin and no one else: the admin always
gets the error and the map stays; any other caller changes the status of a registered
daemon. -/
theorem MigrationAdmin.guard (mA : MigrationAdmin) (daemonMember : String)
    (caller : Reference) :
    (caller = mA.MigrationAdminMember →
        mA.ActivateDaemon daemonMember caller =
          (some " only migration admin can activate migration demons ", mA) ∧
        mA.DeactivateDaemon daemonMember caller =
          (some " only migration admin can deactivate migration demons ", mA)) ∧
      (caller ≠ mA.MigrationAdminMember →
        (StableMap.index mA.MigrationDaemon daemonMember = StatusInactivate →
          (mA.ActivateDaemon daemonMember caller).1 = none) ∧
        (StableMap.index mA.MigrationDaemon daemonMember = StatusActive →
          (mA.DeactivateDaemon daemonMember caller).1 = none)) := by
  constructor
  · intro h
    unfold MigrationAdmin.ActivateDaemon MigrationAdmin.DeactivateDaemon
    simp [h]
  · intro h
    constructor
    · intro hs
      unfold MigrationAdmin.ActivateDaemon
      rw [if_neg h, hs, if_neg (by decide), if_pos rfl]
    · intro hs
      unfold MigrationAdmin.DeactivateDaemon
      rw [if_neg h, if_pos hs]

end Migrationadmin

/-! # Lifeline index in memory -/

namespace StorageObject

/-- A clone is equal to its original in every field. -/
theorem Clone_eq (idx : Lifeline) : Clone idx = idx := by
  obtain ⟨a, b, c, d, e, f, g, h⟩ := idx
  cases a <;> cases b <;> cases c <;> cases e <;> rfl

theorem IndexMemory.forID_set_self (s : IndexMemory) (id : ID) (idx : Lifeline) :
    (s.Set id idx).2.ForID id = (idx, none) := by
  unfold IndexMemory.ForID IndexMemory.Set
  simp only [if_true, Clone_eq]

theorem IndexMemory.forID_set_other (s : IndexMemory) (id other : ID) (idx : Lifeline)
    (h : other ≠ id) : (s.Set other idx).2.ForID id = s.ForID id := by
  unfold IndexMemory.ForID IndexMemory.Set
  simp only [if_neg (Ne.symm h)]

/-- A sequence of `Set` calls on other ids does not change what `ForID` returns. -/
theorem IndexMemory.forID_setAll_other (id : ID) (sets : List (ID × Lifeline)) :
    ∀ s : IndexMemory, (∀ e ∈ sets, e.1 ≠ id) → (s.setAll sets).ForID id = s.ForID id := by
  induction sets with
  | nil => intro s _; rfl
  | cons e rest ih =>
    intro s h
    unfold IndexMemory.setAll
    rw [ih _ (fun x hx => h x (List.mem_cons_of_mem _ hx))]
    exact IndexMemory.forID_set_other s id e.1 e.2 (h e (List.mem_cons_self _ _))

/-- C24: `IndexMemory` is a map from id to lifeline.  `Set` returns a nil error; after
`Set(id, idx)`, `ForID(id)` returns a lifeline equal in every field to `idx` with a nil
error, until the next `Set` on the same id; a `Set` on another id does not change what
`ForID(id)` returns; and `ForID` of an id that was never set returns `ErrNotFound`. -/
theorem indexMemory_is_map (s : IndexMemory) (id other : ID) (idx idx2 : Lifeline)
    (sets later : List (ID × Lifeline)) :
    (s.Set id idx).1 = none ∧
      (s.Set id idx).2.ForID id = (idx, none) ∧
      (other ≠ id → (s.Set other idx2).2.ForID id = s.ForID id) ∧
      ((∀ e ∈ later, e.1 ≠ id) → ((s.Set id idx).2.setAll later).ForID id = (idx, none)) ∧
      ((∀ e ∈ sets, e.1 ≠ id) →
        (NewIndexMemory.setAll sets).ForID id =
          (Lifeline.zero, some StorageError.ErrNotFound)) := by
  refine ⟨rfl, IndexMemory.forID_set_self s id idx,
    IndexMemory.forID_set_other s id other idx2, ?_, ?_⟩
  · intro h
    rw [IndexMemory.forID_setAll_other id later _ h]
    exact IndexMemory.forID_set_self s id idx
  · intro h
    rw [IndexMemory.forID_setAll_other id sets _ h]
    rfl

/-- C24 at a new storage: after a `Set` of `sampleLifeline` and a `Set` on another id,
`ForID` returns `sampleLifeline`, and the id that was not set is not found. -/
theorem indexMemory_is_map_witness :
    (∀ e ∈ [((⟨70000, 2⟩ : ID), Lifeline.zero)], e.1 ≠ (⟨70000, 1⟩ : ID)) ∧
      ((NewIndexMemory.Set ⟨70000, 1⟩ sampleLifeline).2.setAll
          [(⟨70000, 2⟩, Lifeline.zero)]).ForID ⟨70000, 1⟩ = (sampleLifeline, none) ∧
      (∀ e ∈ [((⟨70000, 2⟩ : ID), Lifeline.zero)], e.1 ≠ (⟨70000, 3⟩ : ID)) ∧
      (NewIndexMemory.setAll [(⟨70000, 2⟩, Lifeline.zero)]).ForID ⟨70000, 3⟩ =
        (Lifeline.zero, some StorageError.ErrNotFound) :=
  ⟨by decide,
    (indexMemory_is_map NewIndexMemory ⟨70000, 1⟩ ⟨70000, 2⟩ sampleLifeline Lifeline.zero []
      [(⟨70000, 2⟩, Lifeline.zero)]).2.2.2.1 (by decide),
    by decide,
    (indexMemory_is_map NewIndexMemory ⟨70000, 3⟩ ⟨70000, 2⟩ sampleLifeline Lifeline.zero
      [(⟨70000, 2⟩, Lifeline.zero)] []).2.2.2.2 (by decide)⟩

end StorageObject

/-! # Request checker -/

namespace Executor

/-- The search `contains` is membership: it answers true exactly when some record of the list
has the identifier asked for. -/
theorem contains_iff_mem (pendings : List CompositeFilamentRecord) (requestID : ID) :
    contains pendings requestID = true ↔ ∃ p, p ∈ pendings ∧ p.RecordID = requestID := by
  induction pendings with
  | nil => simp [contains]
  | cons p rest ih =>
    unfold contains
    by_cases h : p.RecordID = requestID
    · rw [if_pos h]
      exact ⟨fun _ => ⟨p, List.mem_cons_self _ _, h⟩, fun _ => rfl⟩
    · rw [if_neg h, ih]
      constructor
      · rintro ⟨q, hq, hid⟩
        exact ⟨q, List.mem_cons_of_mem _ hq, hid⟩
      · rintro ⟨q, hq, hid⟩
        rcases List.mem_cons.1 hq with rfl | hq2
        · exact absurd hid h
        · exact ⟨q, hq2, hid⟩

/-- The search `contains` answers false exactly when no record of the list has the identifier
asked for. -/
theorem contains_eq_false_iff (pendings : List CompositeFilamentRecord) (requestID : ID) :
    contains pendings requestID = false ↔ ∀ p, p ∈ pendings → p.RecordID ≠ requestID := by
  rw [← Bool.not_eq_true, contains_iff_mem]
  constructor
  · intro h p hp hid
    exact h ⟨p, hp, hid⟩
  · rintro h ⟨p, hp, hid⟩
    exact h p hp hid

/-- C25: `CheckRequest` rejects a request that is older than its reason.  For every request,
it returns an error when the reason reference is empty, and when the pulse of the reason
record is greater than the pulse of the request id; it also rejects a detached incoming
request and an outgoing creation request; and an outgoing request that passes these checks
is accepted exactly when fetching the opened requests succeeds and the reason id is among
them. -/
theorem checkRequest_rules (c : RequestCheckerDefault) (requestID : ID) (request : Request) :
    (request.ReasonRef.IsEmpty = true →
        c.CheckRequest requestID request = some "reason id is empty") ∧
      (request.ReasonRef.IsEmpty = false → request.ReasonRef.record.pulse > requestID.pulse →
        c.CheckRequest requestID request = some "request is older than its reason") ∧
      (request.kind = RequestKind.IncomingRequest → request.IsDetached = true →
        (c.CheckRequest requestID request).isSome = true) ∧
      (request.kind = RequestKind.OutgoingRequest → request.IsCreationRequest = true →
        (c.CheckRequest requestID request).isSome = true) ∧
      (request.kind = RequestKind.OutgoingRequest → request.ReasonRef.IsEmpty = false →
        ¬ request.ReasonRef.record.pulse > requestID.pulse →
        request.IsCreationRequest = false →
        (c.CheckRequest requestID request = none ↔
          ∃ requests, c.OpenedRequests requestID.pulse request.AffinityRef.record false =
              .ok requests ∧
            ∃ p, p ∈ requests ∧ p.RecordID = request.ReasonRef.record)) := by
  refine ⟨?_, ?_, ?_, ?_, ?_⟩
  · intro h
    unfold RequestCheckerDefault.CheckRequest
    rw [if_pos h]
  · intro h1 h2
    unfold RequestCheckerDefault.CheckRequest
    rw [h1, if_neg (by decide), if_pos h2]
  · intro hk hd
    unfold RequestCheckerDefault.CheckRequest
    by_cases h1 : request.ReasonRef.IsEmpty = true
    · rw [if_pos h1]
      rfl
    · rw [if_neg h1]
      by_cases h2 : request.ReasonRef.record.pulse > requestID.pulse
      · rw [if_pos h2]
        rfl
      · rw [if_neg h2]
        simp only [hk, hd, if_true]
        rfl
  · intro hk hcr
    unfold RequestCheckerDefault.CheckRequest
    by_cases h1 : request.ReasonRef.IsEmpty = true
    · rw [if_pos h1]
      rfl
    · rw [if_neg h1]
      by_cases h2 : request.ReasonRef.record.pulse > requestID.pulse
      · rw [if_pos h2]
        rfl
      · rw [if_neg h2]
        simp only [hk, hcr, if_true]
        rfl
  · intro hk he hp hcr
    unfold RequestCheckerDefault.CheckRequest
    rw [he, if_neg (by decide), if_neg hp]
    simp only [hk, hcr, Bool.false_eq_true, if_false]
    cases hop : c.OpenedRequests requestID.pulse request.AffinityRef.record false with
    | error err => simp
    | ok requests =>
      have hm := contains_iff_mem requests request.ReasonRef.record
      cases hc : contains requests request.ReasonRef.record
      · have hno : ¬ ∃ p, p ∈ requests ∧ p.RecordID = request.ReasonRef.record := by
          intro hex
          rw [hm.2 hex] at hc
          exact Bool.noConfusion hc
        simp [hno, hc]
      · have hyes : ∃ p, p ∈ requests ∧ p.RecordID = request.ReasonRef.record := hm.1 hc
        simp [hyes, hc]

/-- C25 at an outgoing request of pulse 70010 whose reason, of pulse 70000, is among the
opened requests: it is accepted; with the pulse 69999 it is older than its reason. -/
theorem checkRequest_rules_witness :
    sampleOutgoing.ReasonRef.IsEmpty = false ∧
      sampleChecker.CheckRequest ⟨70010, 9⟩ sampleOutgoing = none ∧
      sampleChecker.CheckRequest ⟨69999, 9⟩ sampleOutgoing =
        some "request is older than its reason" :=
  ⟨by decide,
    ((checkRequest_rules sampleChecker ⟨70010, 9⟩ sampleOutgoing).2.2.2.2 rfl (by decide)
      (by decide) rfl).2 ⟨_, rfl, ⟨{ RecordID := { pulse := 70000, hash := 1 } },
        List.mem_singleton.2 rfl, rfl⟩⟩,
    (checkRequest_rules sampleChecker ⟨69999, 9⟩ sampleOutgoing).2.1 (by decide) (by decide)⟩

end Executor

/-! # Futures: the ids of a manager -/

namespace Messagebus

/-- C26 at three futures of one manager: after `Create`, `Create`, `SetResult` on the first
future and `Create`, the second and the third future (references 1 and 2) are both
unfinished and have the same id 1, and `Get(1)` returns the third one, not the second. -/
theorem manager_reuses_id :
    (Bus.new.calls
        [BusCall.Create, BusCall.Create, BusCall.on 0 (Call.SetResult 7),
          BusCall.Create]).map
      (fun b => ((b.heap.get? 1).map (fun f => (f.ID, f.finished)),
        (b.heap.get? 2).map (fun f => (f.ID, f.finished)), b.fm.Get 1)) =
      .ok (some (1, 0), some (1, 0), some 2) :=
  rfl

end Messagebus

/-! # Lifeline delegates -/

namespace LedgerObject

/-- When the key is present `SetDelegate` leaves the lifeline as it is. -/
theorem Lifeline.setDelegate_of_present (m : Lifeline) (key value : Reference)
    (h : setDelegateLoop key m.Delegates = true) : m.SetDelegate key value = m := by
  unfold Lifeline.SetDelegate
  rw [if_pos h]

/-- The loop of `SetDelegate` returns exactly when `DelegateByKey` finds the key. -/
theorem setDelegateLoop_eq (key : Reference) (l : List LifelineDelegate) :
    setDelegateLoop key l = (delegateByKeyLoop key l).2 := by
  induction l with
  | nil => rfl
  | cons d rest ih =>
    unfold setDelegateLoop delegateByKeyLoop
    split_ifs
    · rfl
    · exact ih

/-- When the key is absent `SetDelegate` appends it and `DelegateByKey` finds the value. -/
theorem delegateByKeyLoop_append (key value : Reference) (l : List LifelineDelegate)
    (h : (delegateByKeyLoop key l).2 = false) :
    delegateByKeyLoop key (l ++ [{ Key := key, Value := value }]) = (value, true) := by
  induction l with
  | nil => simp [delegateByKeyLoop]
  | cons d rest ih =>
    unfold delegateByKeyLoop at h
    by_cases hd : d.Key = key
    · rw [if_pos hd] at h
      cases h
    · rw [if_neg hd] at h
      show delegateByKeyLoop key (d :: (rest ++ [{ Key := key, Value := value }])) = _
      unfold delegateByKeyLoop
      rw [if_neg hd]
      exact ih h

/-- C27 at a lifeline that holds the delegate 10 under the key 1: after `SetDelegate(1, 20)`
the lifeline is as it was and `DelegateByKey(1)` still returns `(10, true)`; for the key 2,
which is absent, `SetDelegate(2, 20)` is found afterwards. -/
theorem setDelegate_present_key_ignored :
    sampleLifeline.DelegateByKey 1 = (10, true) ∧
      sampleLifeline.SetDelegate 1 20 = sampleLifeline ∧
      (sampleLifeline.SetDelegate 1 20).DelegateByKey 1 = (10, true) ∧
      (sampleLifeline.SetDelegate 2 20).DelegateByKey 2 = (20, true) :=
  ⟨by decide, by decide, by decide, by decide⟩

/-- What `SetDelegate` does: a key that is present keeps its old value, a key that is absent
gets the value; `DelegateByKey` of the key returns the value only in the second case or
when the old value is that value. -/
theorem Lifeline.setDelegate_delegateByKey (m : Lifeline) (key value : Reference) :
    ((m.DelegateByKey key).2 = true →
        (m.SetDelegate key value).DelegateByKey key = m.DelegateByKey key) ∧
      ((m.DelegateByKey key).2 = false →
        (m.SetDelegate key value).DelegateByKey key = (value, true)) := by
  constructor
  · intro h
    rw [Lifeline.setDelegate_of_present m key value ((setDelegateLoop_eq key _).trans h)]
  · intro h
    have hl : setDelegateLoop key m.Delegates = false := (setDelegateLoop_eq key _).trans h
    unfold Lifeline.SetDelegate Lifeline.DelegateByKey
    simp only [hl, Bool.false_eq_true, if_false]
    exact delegateByKeyLoop_append key value m.Delegates h

end LedgerObject
